import Mathlib

/-!
# dde: Dormand–Prince integrator with dense output and lag queries

A shallow embedding of `src/dopri5.c` (the legacy DP5 driver) and `src/dopri.c`
(the driver with critical times, auxiliary output and the lag API), followed by
theorems about them.

Conventions of the embedding

* `double` is modelled by `ℚ`: every statement is about exact arithmetic.  There
  are no infinities or NaNs; a division by zero (which C would turn into one of
  them) has the value 0 here.  The theorems on general inputs do not rely on
  that value; an evaluation on a concrete input may pass through one, as the
  second-derivative estimate of `dopri_h_init` does when the first guess of the
  step size is 0 (C's NaN is dropped there by the `fmax` that follows, which
  gives the same result).
* `sqrt` and `pow` of the C library are parameters (`Libm`); the Dormand–Prince
  constants of `dopri5_constants.h` are parameters (`Tableau`).
* A C array is a `List ℚ`; `a[i]` is `a.getD i 0`; a loop `for i < n` that fills
  an array of length `n` is `vec n f`; a block written at an offset of a flat
  record is `write`.
* The caller's output pointer `y_out`, advanced by `n` after every block, is the
  list of the values written so far.
* `size_t` counters are natural numbers.
* The loop `while (true)` is `while_true`, which runs a body until it breaks and
  gives `none` when the fuel is used up before that.
-/

/-! ## Numerics -/

/-- The functions of the C mathematics library that have no rational closed form. -/
structure Libm where
  sqrt : ℚ → ℚ
  pow : ℚ → ℚ → ℚ

/-- The constants of `dopri5_constants.h`, which is not part of the sources. -/
structure Tableau where
  C2 : ℚ
  C3 : ℚ
  C4 : ℚ
  C5 : ℚ
  A21 : ℚ
  A31 : ℚ
  A32 : ℚ
  A41 : ℚ
  A42 : ℚ
  A43 : ℚ
  A51 : ℚ
  A52 : ℚ
  A53 : ℚ
  A54 : ℚ
  A61 : ℚ
  A62 : ℚ
  A63 : ℚ
  A64 : ℚ
  A65 : ℚ
  A71 : ℚ
  A73 : ℚ
  A74 : ℚ
  A75 : ℚ
  A76 : ℚ
  E1 : ℚ
  E3 : ℚ
  E4 : ℚ
  E5 : ℚ
  E6 : ℚ
  E7 : ℚ
  D1 : ℚ
  D3 : ℚ
  D4 : ℚ
  D5 : ℚ
  D6 : ℚ
  D7 : ℚ

def fabs (x : ℚ) : ℚ := |x|

def fmax (x y : ℚ) : ℚ := max x y

def fmin (x y : ℚ) : ℚ := min x y

/-- C `copysign`: the magnitude of `x` with the sign of `s` (exact arithmetic has
no negative zero, so a zero `s` counts as positive). -/
def copysign (x s : ℚ) : ℚ := if 0 ≤ s then |x| else -|x|

/-- The utility `square` of dopri.c. -/
def square (x : ℚ) : ℚ := x * x

def DBL_EPSILON : ℚ := 1 / 2 ^ 52

def DBL_MAX : ℚ := (2 ^ 53 - 1) * 2 ^ 971

/-- The array filled by `for (i = 0; i < n; ++i) a[i] = f i`. -/
def vec (n : Nat) (f : Nat → ℚ) : List ℚ := (List.range n).map f

/-- The flat array `mem` after the block `vals` has been stored at offset `off`. -/
def write (mem : List ℚ) (off : Nat) (vals : List ℚ) : List ℚ :=
  mem.take off ++ vals ++ mem.drop (off + vals.length)

/-- The history slot `history` after a step of size `h` from the time `t` and the
state `y` to the state `y1`, with first stage `k1` and final derivative `k2`, has
been finalised in it (the loop of dopri5.c, lines 152 to 159, and the two
assignments after it): for each `i < n`, with `ydiff = y1[i] - y[i]` and
`bspl = h * k1[i] - ydiff`, the entries `i`, `n + i`, `2 n + i` and `3 n + i` get
`y[i]`, `ydiff`, `bspl` and `-h * k2[i] + ydiff - bspl`; the entries `5 n` and
`5 n + 1` get `t` and `h`. -/
def history_record (n : Nat) (y y1 k1 k2 : List ℚ) (t h : ℚ) (history : List ℚ) : List ℚ :=
  let ydiff := fun i => y1.getD i 0 - y.getD i 0
  let bspl := fun i => h * k1.getD i 0 - ydiff i
  let history := write history 0 (vec n fun i => y.getD i 0)
  let history := write history n (vec n fun i => ydiff i)
  let history := write history (2 * n) (vec n fun i => bspl i)
  let history := write history (3 * n) (vec n fun i => -h * k2.getD i 0 + ydiff i - bspl i)
  let history := write history (5 * n) [t]
  write history (5 * n + 1) [h]

/-- Outcome of one pass through the body of a `while (true)` loop. -/
inductive loop_ctl (σ : Type) where
  | brk : σ → loop_ctl σ
  | cont : σ → loop_ctl σ

/-- The state that a pass through the body ends in. -/
def loop_ctl.state {σ : Type} : loop_ctl σ → σ
  | loop_ctl.brk s => s
  | loop_ctl.cont s => s

/-- Whether a pass through the body leaves the loop. -/
def loop_ctl.is_brk {σ : Type} : loop_ctl σ → Bool
  | loop_ctl.brk _ => true
  | loop_ctl.cont _ => false

/-- The loop `while (true) body`, run for at most `fuel` passes. -/
def while_true {σ : Type} (body : σ → loop_ctl σ) : Nat → σ → Option σ
  | 0, _ => none
  | fuel + 1, s =>
    match body s with
    | loop_ctl.brk r => some r
    | loop_ctl.cont s' => while_true body fuel s'

inductive return_code where
  | NOT_SET
  | OK_COMPLETE
  | ERR_TOO_MANY_STEPS
  | ERR_STEP_SIZE_TOO_SMALL
  deriving DecidableEq, Repr

/-! ## Ring buffer -/

/-- Modelled from the spec: the ring buffer (its source file is not among the
sources).  A bounded FIFO of records: `live` holds the live records from the tail
(oldest) to the newest, `head` is the scratch slot in which the next record is
being built, `size` is the capacity. -/
structure ring_buffer where
  size : Nat
  live : List (List ℚ)
  head : List ℚ
  deriving DecidableEq, Repr

/-- Modelled from the spec: `used()`, the number of live records. -/
def ring_buffer_used (r : ring_buffer) : Nat := r.live.length

/-- Modelled from the spec: `tail`, the oldest live record. -/
def ring_buffer_tail (r : ring_buffer) : Option (List ℚ) := r.live.head?

/-- Modelled from the spec: `tail_offset(k)`, the live record `k` places after the
tail. -/
def ring_buffer_tail_offset (r : ring_buffer) (k : Nat) : Option (List ℚ) := r.live.get? k

/-- Modelled from the spec: `head_advance()`.  The record built in the scratch
slot becomes the newest live record; when the buffer is full the tail is evicted.
What the fresh scratch slot holds is left open by the spec; the bytes are kept. -/
def ring_buffer_head_advance (r : ring_buffer) : ring_buffer :=
  { r with live := if r.live.length < r.size then r.live ++ [r.head]
                   else (r.live ++ [r.head]).drop 1 }

/-- Modelled from the spec: `search_bisect(seed, pred, ctx)` returns the newest
live record for which `pred` holds, or nil if there is none; the seed is only a
hint. -/
def ring_buffer_search_bisect (r : ring_buffer) (_seed : Nat) (pred : List ℚ → Bool) :
    Option (List ℚ) :=
  r.live.reverse.find? pred

/-! ## src/dopri5.c: the legacy DP5 driver -/

namespace dopri5

/-- The derivative callback `target(n, t, y, dydt, data)` of the legacy driver:
the array it stores in `dydt`, from `t` and `y`. -/
abbrev deriv_func : Type := ℚ → List ℚ → List ℚ

/-- The fields of `dopri5_data` that dopri5.c uses. -/
structure dopri5_data where
  n : Nat
  initialised : Bool
  n_times : Nat
  times : List ℚ
  times_idx : Nat
  t0 : ℚ
  t : ℚ
  sign : ℚ
  y0 : List ℚ
  y : List ℚ
  y1 : List ℚ
  k1 : List ℚ
  k2 : List ℚ
  k3 : List ℚ
  k4 : List ℚ
  k5 : List ℚ
  k6 : List ℚ
  ysti : List ℚ
  history_len : Nat
  history : ring_buffer
  atol : ℚ
  rtol : ℚ
  step_factor_min : ℚ
  step_factor_max : ℚ
  step_size_max : ℚ
  step_size_initial : ℚ
  step_max_n : Nat
  step_beta : ℚ
  step_factor_safe : ℚ
  n_eval : Nat
  n_step : Nat
  n_accept : Nat
  n_reject : Nat
  error : Bool
  code : return_code
  deriving DecidableEq, Repr

def dopri5_data_alloc (n : Nat) : dopri5_data :=
  { n := n
    initialised := false
    n_times := 0
    times := []
    times_idx := 0
    t0 := 0
    t := 0
    sign := 0
    y0 := List.replicate n 0
    y := List.replicate n 0
    y1 := List.replicate n 0
    k1 := List.replicate n 0
    k2 := List.replicate n 0
    k3 := List.replicate n 0
    k4 := List.replicate n 0
    k5 := List.replicate n 0
    k6 := List.replicate n 0
    ysti := List.replicate n 0
    history_len := 2 + 5 * n
    history := { size := 100, live := [], head := List.replicate (2 + 5 * n) 0 }
    atol := 1 / 1000000
    rtol := 1 / 1000000
    step_factor_min := 2 / 10
    step_factor_max := 10
    step_size_max := DBL_MAX
    step_size_initial := 0
    step_max_n := 100000
    step_beta := 4 / 100
    step_factor_safe := 9 / 10
    n_eval := 0
    n_step := 0
    n_accept := 0
    n_reject := 0
    error := false
    code := return_code.NOT_SET }

def dopri5_data_reset (obj : dopri5_data) (y : List ℚ) (times : List ℚ) : dopri5_data :=
  { obj with
    y0 := y.take obj.n
    y := y.take obj.n
    t0 := times.getD 0 0
    t := times.getD 0 0
    n_times := times.length
    times := times
    times_idx := 1
    sign := copysign 1 (times.getD 1 0 - times.getD 0 0)
    n_eval := 0
    n_step := 0
    n_accept := 0
    n_reject := 0
    initialised := true }

def dopri5_step (T : Tableau) (target : deriv_func) (obj : dopri5_data) (h : ℚ) : dopri5_data :=
  let t := obj.t
  let n := obj.n
  let obj := { obj with y1 := vec n fun i => obj.y.getD i 0 + h * T.A21 * obj.k1.getD i 0 }
  let obj := { obj with k2 := target (t + T.C2 * h) obj.y1 }
  let obj := { obj with
    y1 := vec n fun i =>
      obj.y.getD i 0 + h * (T.A31 * obj.k1.getD i 0 + T.A32 * obj.k2.getD i 0) }
  let obj := { obj with k3 := target (t + T.C3 * h) obj.y1 }
  let obj := { obj with
    y1 := vec n fun i =>
      obj.y.getD i 0 + h * (T.A41 * obj.k1.getD i 0 + T.A42 * obj.k2.getD i 0 +
          T.A43 * obj.k3.getD i 0) }
  let obj := { obj with k4 := target (t + T.C4 * h) obj.y1 }
  let obj := { obj with
    y1 := vec n fun i =>
      obj.y.getD i 0 + h * (T.A51 * obj.k1.getD i 0 + T.A52 * obj.k2.getD i 0 +
          T.A53 * obj.k3.getD i 0 + T.A54 * obj.k4.getD i 0) }
  let obj := { obj with k5 := target (t + T.C5 * h) obj.y1 }
  let obj := { obj with
    ysti := vec n fun i =>
      obj.y.getD i 0 + h * (T.A61 * obj.k1.getD i 0 + T.A62 * obj.k2.getD i 0 +
          T.A63 * obj.k3.getD i 0 + T.A64 * obj.k4.getD i 0 +
          T.A65 * obj.k5.getD i 0) }
  let t_next := t + h
  let obj := { obj with k6 := target t_next obj.ysti }
  let obj := { obj with
    y1 := vec n fun i =>
      obj.y.getD i 0 + h * (T.A71 * obj.k1.getD i 0 + T.A73 * obj.k3.getD i 0 +
          T.A74 * obj.k4.getD i 0 + T.A75 * obj.k5.getD i 0 +
          T.A76 * obj.k6.getD i 0) }
  let obj := { obj with k2 := target t_next obj.y1 }
  let obj := { obj with
    history := { obj.history with
      head := write obj.history.head (4 * n) (vec n fun i =>
        h * (T.D1 * obj.k1.getD i 0 + T.D3 * obj.k3.getD i 0 + T.D4 * obj.k4.getD i 0 +
           T.D5 * obj.k5.getD i 0 + T.D6 * obj.k6.getD i 0 + T.D7 * obj.k2.getD i 0)) } }
  { obj with
    k4 := vec n fun i =>
      h * (T.E1 * obj.k1.getD i 0 + T.E3 * obj.k3.getD i 0 + T.E4 * obj.k4.getD i 0 +
           T.E5 * obj.k5.getD i 0 + T.E6 * obj.k6.getD i 0 + T.E7 * obj.k2.getD i 0) }

def dopri5_error (M : Libm) (obj : dopri5_data) : ℚ :=
  let err := (List.range obj.n).foldl (fun err i =>
    let sk := obj.atol + obj.rtol * fmax (fabs (obj.y.getD i 0)) (fabs (obj.y1.getD i 0))
    err + square (obj.k4.getD i 0 / sk)) 0
  M.sqrt (err / obj.n)

def dopri5_h_new (M : Libm) (obj : dopri5_data) (fac_old h err : ℚ) : ℚ :=
  let expo1 := 2 / 10 - obj.step_beta * (75 / 100)
  let fac11 := M.pow err expo1
  let step_factor_min := 1 / obj.step_factor_min
  let step_factor_max := 1 / obj.step_factor_max
  let fac := fac11 / M.pow fac_old obj.step_beta
  let fac := fmax step_factor_max (fmin step_factor_min (fac / obj.step_factor_safe))
  h / fac

/-- The automatic initial step size (dopri5.c, lines 288 to 327), with the solver
as the estimate leaves it. -/
def dopri5_h_init_auto (M : Libm) (target : deriv_func) (obj : dopri5_data) :
    ℚ × dopri5_data :=
  let f0 := obj.k1
  let norm_f := (List.range obj.n).foldl (fun acc i =>
    let sk := obj.atol + obj.rtol * fabs (obj.y.getD i 0)
    acc + square (f0.getD i 0 / sk)) 0
  let norm_y := (List.range obj.n).foldl (fun acc i =>
    let sk := obj.atol + obj.rtol * fabs (obj.y.getD i 0)
    acc + square (obj.y.getD i 0 / sk)) 0
  let h : ℚ := if norm_f ≤ 1 / 10 ^ 10 ∨ norm_f ≤ 1 / 10 ^ 10 then 1 / 10 ^ 6
               else M.sqrt (norm_y / norm_f) * (1 / 100)
  let h := copysign (fmin h obj.step_size_max) obj.sign
  let obj := { obj with k3 := vec obj.n fun i => obj.y.getD i 0 + h * f0.getD i 0 }
  let obj := { obj with k2 := target (obj.t + h) obj.k3 }
  let obj := { obj with n_eval := obj.n_eval + 1 }
  let f1 := obj.k2
  let der2 := (List.range obj.n).foldl (fun acc i =>
    let sk := obj.atol + obj.rtol * fabs (obj.y.getD i 0)
    acc + square ((f1.getD i 0 - f0.getD i 0) / sk)) 0
  let der2 := M.sqrt der2 / h
  let iord : ℚ := 5
  let der12 := fmax (fabs der2) (M.sqrt norm_f)
  let h1 : ℚ := if der12 ≤ 1 / 10 ^ 15 then fmax (1 / 10 ^ 6) (fabs h * (1 / 10 ^ 3))
                else M.pow ((1 / 100) / der12) (1 / iord)
  let h := fmin (fmin (100 * fabs h) h1) obj.step_size_max
  (copysign h obj.sign, obj)

/-- The initial step size, with the solver as `dopri5_h_init` leaves it. -/
def dopri5_h_init (M : Libm) (target : deriv_func) (obj : dopri5_data) : ℚ × dopri5_data :=
  if obj.step_size_initial > 0 then (obj.step_size_initial, obj)
  else dopri5_h_init_auto M target obj

/-- The value `dopri5_interpolate1(obj, t, i)`. -/
def dopri5_interpolate1 (obj : dopri5_data) (t : ℚ) (i : Nat) : ℚ :=
  let history := obj.history.head
  let n := obj.n
  let t_old := history.getD (5 * n) 0
  let h := history.getD (5 * n + 1) 0
  let theta := (t - t_old) / h
  let theta1 := 1 - theta
  history.getD i 0 + theta *
    (history.getD (n + i) 0 + theta1 *
     (history.getD (2 * n + i) 0 + theta *
      (history.getD (3 * n + i) 0 + theta1 *
       history.getD (4 * n + i) 0)))

/-- The array that `dopri5_interpolate(obj, t, y)` stores in `y`. -/
def dopri5_interpolate (obj : dopri5_data) (t : ℚ) : List ℚ :=
  let history := obj.history.head
  let n := obj.n
  let t_old := history.getD (5 * n) 0
  let h := history.getD (5 * n + 1) 0
  let theta := (t - t_old) / h
  let theta1 := 1 - theta
  vec obj.n fun i =>
    history.getD i 0 + theta *
      (history.getD (n + i) 0 + theta1 *
       (history.getD (2 * n + i) 0 + theta *
        (history.getD (3 * n + i) 0 + theta1 *
         history.getD (4 * n + i) 0)))

/-- The local variables of `dopri5_integrate`, with the solver and the output
written so far. -/
structure integrate_state where
  obj : dopri5_data
  fac_old : ℚ
  h : ℚ
  last : Bool
  reject : Bool
  t_end : ℚ
  y_out : List ℚ
  deriving DecidableEq, Repr

/-- The history record at the head, finalised on acceptance of a step of size `h`
(dopri5.c, lines 151 to 161). -/
def save_history (obj : dopri5_data) (h : ℚ) : dopri5_data :=
  { obj with
    history := { obj.history with
      head := history_record obj.n obj.y obj.y1 obj.k1 obj.k2 obj.t h obj.history.head } }

/-- The loop that reports the output times reached by the accepted step
(dopri5.c, lines 170 to 175); at most `fuel` times are reported. -/
def emit_outputs : Nat → dopri5_data → List ℚ → dopri5_data × List ℚ
  | 0, obj, y_out => (obj, y_out)
  | fuel + 1, obj, y_out =>
    if obj.times_idx < obj.n_times ∧ obj.times.getD obj.times_idx 0 ≤ obj.t then
      emit_outputs fuel { obj with times_idx := obj.times_idx + 1 }
        (y_out ++ dopri5_interpolate obj (obj.times.getD obj.times_idx 0))
    else (obj, y_out)

/-- The accepted branch of the main loop of `dopri5_integrate` (dopri5.c, lines 146
to 192, and the assignment `h = h_new` of line 208), for the error `err` of the
trial step and the step size `h_new` predicted from it. -/
def dopri5_integrate_accept (s : integrate_state) (err h_new : ℚ) : loop_ctl integrate_state :=
  let s := { s with fac_old := fmax err (1 / 10 ^ 4) }
  let s := { s with obj := { s.obj with n_accept := s.obj.n_accept + 1 } }
  let s := { s with obj := save_history s.obj s.h }
  let s := { s with obj := { s.obj with k1 := s.obj.k2.take s.obj.n } }
  let s := { s with obj := { s.obj with y := s.obj.y1.take s.obj.n } }
  let s := { s with obj := { s.obj with t := s.obj.t + s.h } }
  let r := emit_outputs (s.obj.n_times - s.obj.times_idx) s.obj s.y_out
  let s := { s with obj := r.1, y_out := r.2 }
  if s.last then
    loop_ctl.brk { s with obj := { s.obj with code := return_code.OK_COMPLETE } }
  else
    let s := { s with obj := { s.obj with history := ring_buffer_head_advance s.obj.history } }
    let h_new := if fabs h_new ≥ s.obj.step_size_max
                 then copysign s.obj.step_size_max s.obj.sign else h_new
    let h_new := if s.reject then copysign (fmin (fabs h_new) (fabs s.h)) s.obj.sign
                 else h_new
    loop_ctl.cont { s with h := h_new, reject := false }

/-- The rejected branch of the main loop of `dopri5_integrate` (dopri5.c, lines 193
to 208). -/
def dopri5_integrate_reject (M : Libm) (s : integrate_state) (err : ℚ) :
    loop_ctl integrate_state :=
  let fac11 := M.pow err (2 / 10 - s.obj.step_beta * (75 / 100))
  let h_new := s.h / fmin (1 / s.obj.step_factor_min) (fac11 / s.obj.step_factor_safe)
  let s := { s with reject := true }
  let s := if s.obj.n_accept ≥ 1
           then { s with obj := { s.obj with n_reject := s.obj.n_reject + 1 } } else s
  let s := { s with last := false }
  loop_ctl.cont { s with h := h_new }

/-- The trial step of one pass of the main loop of `dopri5_integrate` (dopri5.c,
lines 127 to 139): the clamp at the end of the interval, the count, the step. -/
def dopri5_integrate_trial (T : Tableau) (target : deriv_func) (s : integrate_state) :
    integrate_state :=
  let s := if (s.obj.t + 101 / 100 * s.h - s.t_end) * s.obj.sign > 0
           then { s with h := s.t_end - s.obj.t, last := true } else s
  let s := { s with obj := { s.obj with n_step := s.obj.n_step + 1 } }
  { s with obj := dopri5_step T target s.obj s.h }

/-- One pass through the body of the main loop of `dopri5_integrate`. -/
def dopri5_integrate_body (M : Libm) (T : Tableau) (target : deriv_func)
    (s : integrate_state) : loop_ctl integrate_state :=
  let uround := 10 * DBL_EPSILON
  if s.obj.n_step > s.obj.step_max_n then
    loop_ctl.brk { s with obj := { s.obj with error := true,
                                              code := return_code.ERR_TOO_MANY_STEPS } }
  else if 1 / 10 * fabs s.h ≤ fabs s.obj.t * uround then
    loop_ctl.brk { s with obj := { s.obj with error := true,
                                              code := return_code.ERR_STEP_SIZE_TOO_SMALL } }
  else
    let s := dopri5_integrate_trial T target s
    let err := dopri5_error M s.obj
    let h_new := dopri5_h_new M s.obj s.fac_old s.h err
    if err ≤ 1 then dopri5_integrate_accept s err h_new
    else dopri5_integrate_reject M s err

/-- The state in which `dopri5_integrate` enters its main loop. -/
def dopri5_integrate_init (M : Libm) (target : deriv_func) (obj : dopri5_data)
    (y : List ℚ) (times : List ℚ) : integrate_state :=
  let obj := { obj with error := false, code := return_code.NOT_SET }
  let obj := dopri5_data_reset obj y times
  let t_end := times.getD (times.length - 1) 0
  let obj := { obj with k1 := target obj.t obj.y }
  let obj := { obj with n_eval := obj.n_eval + 1 }
  let r := dopri5_h_init M target obj
  { obj := r.2, fac_old := 1 / 10 ^ 4, h := r.1, last := false, reject := false,
    t_end := t_end, y_out := [] }

/-- The call `dopri5_integrate(obj, y, times, n_times, y_out)`: the solver and the
output when it returns. -/
def dopri5_integrate (M : Libm) (T : Tableau) (target : deriv_func) (obj : dopri5_data)
    (y : List ℚ) (times : List ℚ) : Option integrate_state :=
  while_true (dopri5_integrate_body M T target) (obj.step_max_n + 2)
    (dopri5_integrate_init M target obj y times)

end dopri5

/-! ## src/dopri.c: the driver with critical times and the lag API

`dopri_data_alloc` always selects the method `DOPRI_5` (so `order = 5`), and nothing
in the sources changes it: the branches for `DOPRI_853`, which only raise "not yet
implemented", are left out, and the dispatchers `dopri_step`, `dopri_error` and
`dopri_save_history` call the DP5 kernel.  That kernel (`dopri5_step`,
`dopri5_error`, `dopri5_save_history` and the four-argument `dopri5_interpolate`
of dopri_5.h) is not among the sources; it is modelled in the namespace `dopri_5`
from the spec and from the same code in src/dopri5.c. -/

namespace dopri

/-- The fields of `dopri_data` that dopri.c uses (the callbacks `target` and
`output`, and the user data they receive, are parameters of the functions). -/
structure dopri_data where
  order : Nat
  n : Nat
  n_out : Nat
  n_times : Nat
  times : List ℚ
  times_idx : Nat
  n_tcrit : Nat
  tcrit : List ℚ
  tcrit_idx : Nat
  t0 : ℚ
  t : ℚ
  sign : ℚ
  y0 : List ℚ
  y : List ℚ
  y1 : List ℚ
  k : List (List ℚ)
  history_len : Nat
  history : ring_buffer
  history_time_idx : Nat
  atol : ℚ
  rtol : ℚ
  step_factor_min : ℚ
  step_factor_max : ℚ
  step_size_max : ℚ
  step_size_initial : ℚ
  step_max_n : Nat
  step_beta : ℚ
  step_factor_safe : ℚ
  n_eval : Nat
  n_step : Nat
  n_accept : Nat
  n_reject : Nat
  error : Bool
  code : return_code
  deriving DecidableEq, Repr

/-- The derivative callback `target(n, t, y, dydt, data)`: the array it stores in
`dydt`.  The first argument is the solver that the static pointer `dde_global_obj`
holds during the call, which the callback reaches through the lag functions. -/
abbrev deriv_func : Type := dopri_data → ℚ → List ℚ → List ℚ

/-- The output callback `output(n, t, y, n_out, out, data)`: the `n_out` values it
stores in `out`. -/
abbrev output_func : Type := dopri_data → ℚ → List ℚ → List ℚ

def dopri_data_alloc (n n_out n_history : Nat) : dopri_data :=
  { order := 5
    n := n
    n_out := n_out
    n_times := 0
    times := []
    times_idx := 0
    n_tcrit := 0
    tcrit := []
    tcrit_idx := 0
    t0 := 0
    t := 0
    sign := 0
    y0 := List.replicate n 0
    y := List.replicate n 0
    y1 := List.replicate n 0
    k := List.replicate (5 + 2) (List.replicate n 0)
    history_len := 2 + 5 * n
    history := { size := n_history, live := [], head := List.replicate (2 + 5 * n) 0 }
    history_time_idx := 5 * n
    atol := 1 / 10 ^ 6
    rtol := 1 / 10 ^ 6
    step_factor_min := 2 / 10
    step_factor_max := 10
    step_beta := 4 / 100
    step_size_max := DBL_MAX
    step_size_initial := 0
    step_max_n := 100000
    step_factor_safe := 9 / 10
    n_eval := 0
    n_step := 0
    n_accept := 0
    n_reject := 0
    error := false
    code := return_code.NOT_SET }

/-- The loop of `dopri_data_reset` that skips critical times (dopri.c, lines 103
to 105), from the cursor `idx`; it makes at most `fuel` passes. -/
def skip_tcrit (tcrit : List ℚ) (n_tcrit : Nat) (t0 : ℚ) : Nat → Nat → Nat
  | 0, idx => idx
  | fuel + 1, idx =>
    if tcrit.getD idx 0 < t0 ∧ idx < n_tcrit then skip_tcrit tcrit n_tcrit t0 fuel (idx + 1)
    else idx

def dopri_data_reset (obj : dopri_data) (y : List ℚ) (times : List ℚ) (tcrit : List ℚ) :
    dopri_data :=
  { obj with
    error := false
    code := return_code.NOT_SET
    y0 := y.take obj.n
    y := y.take obj.n
    t0 := times.getD 0 0
    t := times.getD 0 0
    n_times := times.length
    times := times
    times_idx := 1
    n_tcrit := tcrit.length
    tcrit := tcrit
    tcrit_idx := if tcrit.length > 0 then skip_tcrit tcrit tcrit.length (times.getD 0 0)
                   tcrit.length 0 else 0
    sign := copysign 1 (times.getD 1 0 - times.getD 0 0)
    n_eval := 0
    n_step := 0
    n_accept := 0
    n_reject := 0 }

/-- The value of `get_current_problem_size()` when the static pointer
`dde_global_obj` is `g`. -/
def get_current_problem_size (g : Option dopri_data) : Nat :=
  match g with
  | none => 0
  | some obj => obj.n

end dopri

/-! ### The DP5 kernel of the driver -/

namespace dopri_5

open dopri

/-- Modelled from the spec: `dopri5_step(obj, h)` of the absent dopri_5.c, one
trial step of size `h` (spec 4.B), as `dopri5_step` of src/dopri5.c does it, with
the stages `k1 … k6` in `k[0] … k[5]`, the state of the sixth stage in `k[6]`, the
final derivative in `k[1]` and the error vector in `k[3]`. -/
def dopri5_step (T : Tableau) (target : deriv_func) (obj : dopri_data) (h : ℚ) : dopri_data :=
  let t := obj.t
  let n := obj.n
  let k := fun (o : dopri_data) (j i : Nat) => (o.k.getD j []).getD i 0
  let obj := { obj with
    y1 := vec n fun i => obj.y.getD i 0 + h * T.A21 * k obj 0 i }
  let obj := { obj with k := obj.k.set 1 (target obj (t + T.C2 * h) obj.y1) }
  let obj := { obj with
    y1 := vec n fun i => obj.y.getD i 0 + h * (T.A31 * k obj 0 i + T.A32 * k obj 1 i) }
  let obj := { obj with k := obj.k.set 2 (target obj (t + T.C3 * h) obj.y1) }
  let obj := { obj with
    y1 := vec n fun i =>
      obj.y.getD i 0 + h * (T.A41 * k obj 0 i + T.A42 * k obj 1 i + T.A43 * k obj 2 i) }
  let obj := { obj with k := obj.k.set 3 (target obj (t + T.C4 * h) obj.y1) }
  let obj := { obj with
    y1 := vec n fun i =>
      obj.y.getD i 0 + h * (T.A51 * k obj 0 i + T.A52 * k obj 1 i + T.A53 * k obj 2 i +
        T.A54 * k obj 3 i) }
  let obj := { obj with k := obj.k.set 4 (target obj (t + T.C5 * h) obj.y1) }
  let obj := { obj with
    k := obj.k.set 6 (vec n fun i =>
      obj.y.getD i 0 + h * (T.A61 * k obj 0 i + T.A62 * k obj 1 i + T.A63 * k obj 2 i +
        T.A64 * k obj 3 i + T.A65 * k obj 4 i)) }
  let t_next := t + h
  let obj := { obj with k := obj.k.set 5 (target obj t_next (obj.k.getD 6 [])) }
  let obj := { obj with
    y1 := vec n fun i =>
      obj.y.getD i 0 + h * (T.A71 * k obj 0 i + T.A73 * k obj 2 i + T.A74 * k obj 3 i +
        T.A75 * k obj 4 i + T.A76 * k obj 5 i) }
  let obj := { obj with k := obj.k.set 1 (target obj t_next obj.y1) }
  let obj := { obj with
    history := { obj.history with
      head := write obj.history.head (4 * n) (vec n fun i =>
        h * (T.D1 * k obj 0 i + T.D3 * k obj 2 i + T.D4 * k obj 3 i +
          T.D5 * k obj 4 i + T.D6 * k obj 5 i + T.D7 * k obj 1 i)) } }
  { obj with
    k := obj.k.set 3 (vec n fun i =>
      h * (T.E1 * k obj 0 i + T.E3 * k obj 2 i + T.E4 * k obj 3 i +
        T.E5 * k obj 4 i + T.E6 * k obj 5 i + T.E7 * k obj 1 i)) }

/-- Modelled from the spec: `dopri5_error(obj)` of the absent dopri_5.c, the error
norm of spec 4.B, `sqrt((1/n) Σ (e_i / s_i)²)` with
`s_i = atol + rtol · max(|y_i|, |y1_i|)` and the error vector `e` in `k[3]`. -/
def dopri5_error (M : Libm) (obj : dopri_data) : ℚ :=
  let err := (List.range obj.n).foldl (fun err i =>
    let sk := obj.atol + obj.rtol * fmax (fabs (obj.y.getD i 0)) (fabs (obj.y1.getD i 0))
    err + square ((obj.k.getD 3 []).getD i 0 / sk)) 0
  M.sqrt (err / obj.n)

/-- Modelled from the spec: `dopri5_save_history(obj, h)` of the absent dopri_5.c,
which finalises the history slot at the head (spec 4.E): for each `i`, with
`ydiff = y1_i − y_i` and `bspl = h·k1_i − ydiff`, it writes `C0_i = y_i`,
`C1_i = ydiff`, `C2_i = bspl`, `C3_i = −h·k_last_i + ydiff − bspl`, then `t` and `h`
at the trailing positions; `k1` is `k[0]` and `k_last` is `k[1]`. -/
def dopri5_save_history (obj : dopri_data) (h : ℚ) : dopri_data :=
  { obj with
    history := { obj.history with
      head := history_record obj.n obj.y obj.y1 (obj.k.getD 0 []) (obj.k.getD 1 []) obj.t h
        obj.history.head } }

/-- Modelled from the spec: `dopri5_interpolate(n, theta, theta1, history)` of the
absent dopri_5.c, the nested polynomial of spec 4.C,
`C0 + θ·(C1 + θ′·(C2 + θ·(C3 + θ′·C4)))`, read from a record that starts at the
component wanted, so that its planes are `n` apart. -/
def dopri5_interpolate (n : Nat) (theta theta1 : ℚ) (history : List ℚ) : ℚ :=
  history.getD 0 0 + theta *
    (history.getD n 0 + theta1 *
     (history.getD (2 * n) 0 + theta *
      (history.getD (3 * n) 0 + theta1 *
       history.getD (4 * n) 0)))

end dopri_5

namespace dopri

def dopri_step (T : Tableau) (target : deriv_func) (obj : dopri_data) (h : ℚ) : dopri_data :=
  dopri_5.dopri5_step T target obj h

def dopri_error (M : Libm) (obj : dopri_data) : ℚ :=
  dopri_5.dopri5_error M obj

def dopri_save_history (obj : dopri_data) (h : ℚ) : dopri_data :=
  dopri_5.dopri5_save_history obj h

def dopri_h_new (M : Libm) (obj : dopri_data) (fac_old h err : ℚ) : ℚ :=
  let expo1 := 2 / 10 - obj.step_beta * (75 / 100)
  let fac11 := M.pow err expo1
  let step_factor_min := 1 / obj.step_factor_min
  let step_factor_max := 1 / obj.step_factor_max
  let fac := fac11 / M.pow fac_old obj.step_beta
  let fac := fmax step_factor_max (fmin step_factor_min (fac / obj.step_factor_safe))
  h / fac

/-- The automatic initial step size (dopri.c, lines 355 to 393), with the solver as
the estimate leaves it. -/
def dopri_h_init_auto (M : Libm) (target : deriv_func) (obj : dopri_data) : ℚ × dopri_data :=
  let f0 := obj.k.getD 0 []
  let norm_f := (List.range obj.n).foldl (fun acc i =>
    let sk := obj.atol + obj.rtol * fabs (obj.y.getD i 0)
    acc + square (f0.getD i 0 / sk)) 0
  let norm_y := (List.range obj.n).foldl (fun acc i =>
    let sk := obj.atol + obj.rtol * fabs (obj.y.getD i 0)
    acc + square (obj.y.getD i 0 / sk)) 0
  let h : ℚ := if norm_f ≤ 1 / 10 ^ 10 ∨ norm_f ≤ 1 / 10 ^ 10 then 1 / 10 ^ 6
               else M.sqrt (norm_y / norm_f) * (1 / 100)
  let h := copysign (fmin h obj.step_size_max) obj.sign
  let obj := { obj with k := obj.k.set 2 (vec obj.n fun i => obj.y.getD i 0 + h * f0.getD i 0) }
  let obj := { obj with k := obj.k.set 1 (target obj (obj.t + h) (obj.k.getD 2 [])) }
  let obj := { obj with n_eval := obj.n_eval + 1 }
  let f1 := obj.k.getD 1 []
  let der2 := (List.range obj.n).foldl (fun acc i =>
    let sk := obj.atol + obj.rtol * fabs (obj.y.getD i 0)
    acc + square ((f1.getD i 0 - f0.getD i 0) / sk)) 0
  let der2 := M.sqrt der2 / h
  let der12 := fmax (fabs der2) (M.sqrt norm_f)
  let h1 : ℚ := if der12 ≤ 1 / 10 ^ 15 then fmax (1 / 10 ^ 6) (fabs h * (1 / 10 ^ 3))
                else M.pow ((1 / 100) / der12) (1 / (obj.order : ℚ))
  let h := fmin (fmin (100 * fabs h) h1) obj.step_size_max
  (copysign h obj.sign, obj)

/-- The initial step size, with the solver as `dopri_h_init` leaves it. -/
def dopri_h_init (M : Libm) (target : deriv_func) (obj : dopri_data) : ℚ × dopri_data :=
  if obj.step_size_initial > 0 then (obj.step_size_initial, obj)
  else dopri_h_init_auto M target obj

def dopri_interpolate_1 (history : List ℚ) (n : Nat) (t : ℚ) (i : Nat) : ℚ :=
  let idx_t := 5 * n
  let t_old := history.getD idx_t 0
  let h := history.getD (idx_t + 1) 0
  let theta := (t - t_old) / h
  let theta1 := 1 - theta
  dopri_5.dopri5_interpolate n theta theta1 (history.drop i)

/-- The array that `dopri_interpolate_all(history, method, n, t, y)` stores in `y`. -/
def dopri_interpolate_all (history : List ℚ) (n : Nat) (t : ℚ) : List ℚ :=
  let idx_t := 5 * n
  let t_old := history.getD idx_t 0
  let h := history.getD (idx_t + 1) 0
  let theta := (t - t_old) / h
  let theta1 := 1 - theta
  vec n fun i => dopri_5.dopri5_interpolate n theta theta1 (history.drop i)

/-- The array that `dopri_interpolate_idx(history, method, n, t, idx, nidx, y)`
stores in `y`; `nidx` is the length of `idx`. -/
def dopri_interpolate_idx (history : List ℚ) (n : Nat) (t : ℚ) (idx : List Nat) : List ℚ :=
  let idx_t := 5 * n
  let t_old := history.getD idx_t 0
  let h := history.getD (idx_t + 1) 0
  let theta := (t - t_old) / h
  let theta1 := 1 - theta
  idx.map fun j => dopri_5.dopri5_interpolate n theta theta1 (history.drop j)

/-- The array that `dopri_interpolate_idx_int` stores in `y`, for indices of type
`int` (a negative index would address memory before the record; it is read as 0
here). -/
def dopri_interpolate_idx_int (history : List ℚ) (n : Nat) (t : ℚ) (idx : List Int) : List ℚ :=
  let idx_t := 5 * n
  let t_old := history.getD idx_t 0
  let h := history.getD (idx_t + 1) 0
  let theta := (t - t_old) / h
  let theta1 := 1 - theta
  idx.map fun j => dopri_5.dopri5_interpolate n theta theta1 (history.drop j.toNat)

def dopri_find_time_pred (x : List ℚ) (idx : Nat) (time : ℚ) : Bool :=
  decide (x.getD idx 0 ≤ time)

/-- The seed `idx0` that `dopri_find_time` hands to the search: the quotient
`(t1 - t0) / (n - 1)` converted to `size_t`. -/
def dopri_find_time_idx0 (obj : dopri_data) : Nat :=
  let idx_t := obj.history_time_idx
  let n := ring_buffer_used obj.history
  if n > 0 then
    let t0 := ((ring_buffer_tail obj.history).getD []).getD idx_t 0
    let t1 := ((ring_buffer_tail_offset obj.history (n - 1)).getD []).getD idx_t 0
    ((t1 - t0) / ((n - 1 : Nat) : ℚ)).floor.toNat
  else 0

/-- The record that `dopri_find_time(obj, t)` returns; `none` when it raises
"Cannot find time within buffer". -/
def dopri_find_time (obj : dopri_data) (t : ℚ) : Option (List ℚ) :=
  let idx_t := obj.history_time_idx
  ring_buffer_search_bisect obj.history (dopri_find_time_idx0 obj)
    (fun x => dopri_find_time_pred x idx_t t)

/-- The value `ylag_1(t, i)` when `dde_global_obj` points to `g`; `none` when the
search of the history raises an error. -/
def ylag_1 (g : dopri_data) (t : ℚ) (i : Nat) : Option ℚ :=
  if t ≤ g.t0 then some (g.y0.getD i 0)
  else (dopri_find_time g t).map fun h => dopri_interpolate_1 h g.n t i

/-- The array that `ylag_all(t, y)` stores in `y`. -/
def ylag_all (g : dopri_data) (t : ℚ) : Option (List ℚ) :=
  if t ≤ g.t0 then some (g.y0.take g.n)
  else (dopri_find_time g t).map fun h => dopri_interpolate_all h g.n t

/-- The array that `ylag_vec(t, idx, nidx, y)` stores in `y`. -/
def ylag_vec (g : dopri_data) (t : ℚ) (idx : List Nat) : Option (List ℚ) :=
  if t ≤ g.t0 then some (idx.map fun j => g.y0.getD j 0)
  else (dopri_find_time g t).map fun h => dopri_interpolate_idx h g.n t idx

/-- The array that `ylag_vec_int(t, idx, nidx, y)` stores in `y`. -/
def ylag_vec_int (g : dopri_data) (t : ℚ) (idx : List Int) : Option (List ℚ) :=
  if t ≤ g.t0 then some (idx.map fun j => g.y0.getD j.toNat 0)
  else (dopri_find_time g t).map fun h => dopri_interpolate_idx_int h g.n t idx

/-- The local variables of `dopri_integrate`, with the solver, whether the static
pointer `dde_global_obj` holds it, and the output written so far. -/
structure integrate_state where
  obj : dopri_data
  dde_global_obj : Bool
  fac_old : ℚ
  h : ℚ
  h_save : ℚ
  stop : Bool
  last : Bool
  reject : Bool
  t_end : ℚ
  t_stop : ℚ
  y_out : List ℚ
  out : List ℚ
  deriving DecidableEq, Repr

/-- The loop that reports the output times reached by the accepted step (dopri.c,
lines 267 to 282), on the solver, `y_out` and `out`; at most `fuel` times are
reported. -/
def emit_outputs (output : output_func) :
    Nat → dopri_data → List ℚ → List ℚ → dopri_data × List ℚ × List ℚ
  | 0, obj, y_out, out => (obj, y_out, out)
  | fuel + 1, obj, y_out, out =>
    if obj.times_idx < obj.n_times ∧ obj.times.getD obj.times_idx 0 ≤ obj.t then
      let y := dopri_interpolate_all obj.history.head obj.n (obj.times.getD obj.times_idx 0)
      let out := if obj.n_out > 0 then out ++ output obj (obj.times.getD obj.times_idx 0) y
                 else out
      emit_outputs output fuel { obj with times_idx := obj.times_idx + 1 } (y_out ++ y) out
    else (obj, y_out, out)

/-- The start of the accepted branch of the main loop of `dopri_integrate` (dopri.c,
lines 246 to 265), for the error `err` of the trial step: the record of the step is
finalised and the solver moves to the end of the step. -/
def dopri_integrate_accept_move (s : integrate_state) (err : ℚ) : integrate_state :=
  let s := { s with fac_old := fmax err (1 / 10 ^ 4) }
  let s := { s with obj := { s.obj with n_accept := s.obj.n_accept + 1 } }
  let s := { s with obj := dopri_save_history s.obj s.h }
  let s := { s with obj := { s.obj with k := s.obj.k.set 0 ((s.obj.k.getD 1 []).take s.obj.n) } }
  let s := { s with obj := { s.obj with y := s.obj.y1.take s.obj.n } }
  { s with obj := { s.obj with t := s.obj.t + s.h } }

/-- The middle of the accepted branch of the main loop of `dopri_integrate` (dopri.c,
lines 267 to 286): the output times reached are reported and the head of the ring
is advanced. -/
def dopri_integrate_accept_report (output : output_func) (s : integrate_state) :
    integrate_state :=
  let r := emit_outputs output (s.obj.n_times - s.obj.times_idx) s.obj s.y_out s.out
  let s := { s with obj := r.1, y_out := r.2.1, out := r.2.2 }
  { s with obj := { s.obj with history := ring_buffer_head_advance s.obj.history } }

/-- The end of the accepted branch of the main loop of `dopri_integrate`
(dopri.c, lines 288 to 313), for the step size `h_new` predicted from the error:
the loop is left after the last step, and otherwise the next step size and the
next critical time are chosen. -/
def dopri_integrate_accept_tail (s : integrate_state) (h_new : ℚ) : loop_ctl integrate_state :=
  if s.last then
    loop_ctl.brk { s with obj := { s.obj with step_size_initial := s.h_save,
                                              code := return_code.OK_COMPLETE } }
  else
    let h_new := if fabs h_new ≥ s.obj.step_size_max
                 then copysign s.obj.step_size_max s.obj.sign else h_new
    let h_new := if s.reject then copysign (fmin (fabs h_new) (fabs s.h)) s.obj.sign
                 else h_new
    let s := { s with reject := false }
    if s.stop then
      let s := { s with obj := { s.obj with tcrit_idx := s.obj.tcrit_idx + 1 } }
      let s := if s.obj.tcrit_idx < s.obj.n_tcrit ∧ s.obj.tcrit.getD s.obj.tcrit_idx 0 < s.t_end
               then { s with t_stop := s.obj.tcrit.getD s.obj.tcrit_idx 0 }
               else { s with t_stop := s.t_end }
      loop_ctl.cont { s with stop := false }
    else
      loop_ctl.cont { s with h := h_new }

/-- The accepted branch of the main loop of `dopri_integrate` (dopri.c, lines 246 to
313), for the error `err` of the trial step and the step size `h_new` predicted
from it. -/
def dopri_integrate_accept (output : output_func) (s : integrate_state) (err h_new : ℚ) :
    loop_ctl integrate_state :=
  dopri_integrate_accept_tail
    (dopri_integrate_accept_report output (dopri_integrate_accept_move s err)) h_new

/-- The rejected branch of the main loop of `dopri_integrate` (dopri.c, lines 314 to
330). -/
def dopri_integrate_reject (M : Libm) (s : integrate_state) (err : ℚ) :
    loop_ctl integrate_state :=
  let fac11 := M.pow err (2 / 10 - s.obj.step_beta * (75 / 100))
  let h_new := s.h / fmin (1 / s.obj.step_factor_min) (fac11 / s.obj.step_factor_safe)
  let s := { s with reject := true }
  let s := if s.obj.n_accept ≥ 1
           then { s with obj := { s.obj with n_reject := s.obj.n_reject + 1 } } else s
  let s := { s with last := false }
  let s := { s with stop := false }
  loop_ctl.cont { s with h := h_new }

/-- The trial step of one pass of the main loop of `dopri_integrate` (dopri.c, lines
224 to 240): the clamp at the end of the interval or at the next critical time, the
count, the step. -/
def dopri_integrate_trial (T : Tableau) (target : deriv_func) (s : integrate_state) :
    integrate_state :=
  let s := if (s.obj.t + 101 / 100 * s.h - s.t_end) * s.obj.sign > 0
           then { s with h_save := s.h, h := s.t_end - s.obj.t, last := true }
           else if (s.obj.t + 101 / 100 * s.h - s.t_stop) * s.obj.sign > 0
           then { s with h := s.t_stop - s.obj.t, stop := true }
           else s
  let s := { s with obj := { s.obj with n_step := s.obj.n_step + 1 } }
  { s with obj := dopri_step T target s.obj s.h }

/-- One pass through the body of the main loop of `dopri_integrate`. -/
def dopri_integrate_body (M : Libm) (T : Tableau) (target : deriv_func) (output : output_func)
    (s : integrate_state) : loop_ctl integrate_state :=
  let uround := 10 * DBL_EPSILON
  if s.obj.n_step > s.obj.step_max_n then
    loop_ctl.brk { s with obj := { s.obj with error := true,
                                              code := return_code.ERR_TOO_MANY_STEPS } }
  else if 1 / 10 * fabs s.h ≤ fabs s.obj.t * uround then
    loop_ctl.brk { s with obj := { s.obj with error := true,
                                              code := return_code.ERR_STEP_SIZE_TOO_SMALL } }
  else
    let s := dopri_integrate_trial T target s
    let err := dopri_error M s.obj
    let h_new := dopri_h_new M s.obj s.fac_old s.h err
    if err ≤ 1 then dopri_integrate_accept output s err h_new
    else dopri_integrate_reject M s err

/-- The state in which `dopri_integrate` enters its main loop. -/
def dopri_integrate_init (M : Libm) (target : deriv_func) (obj : dopri_data)
    (y : List ℚ) (times : List ℚ) (tcrit : List ℚ) : integrate_state :=
  let obj := dopri_data_reset obj y times tcrit
  let t_end := times.getD (times.length - 1) 0
  let t_stop := if obj.tcrit_idx < obj.n_tcrit ∧ obj.tcrit.getD obj.tcrit_idx 0 < t_end
                then obj.tcrit.getD obj.tcrit_idx 0 else t_end
  let obj := { obj with k := obj.k.set 0 (target obj obj.t obj.y) }
  let obj := { obj with n_eval := obj.n_eval + 1 }
  let r := dopri_h_init M target obj
  { obj := r.2, dde_global_obj := true, fac_old := 1 / 10 ^ 4, h := r.1, h_save := 0,
    stop := false, last := false, reject := false, t_end := t_end, t_stop := t_stop,
    y_out := [], out := [] }

/-- The call `dopri_integrate(obj, y, times, n_times, tcrit, n_tcrit, y_out, out)`:
the solver, the static pointer and the output when it returns. -/
def dopri_integrate (M : Libm) (T : Tableau) (target : deriv_func) (output : output_func)
    (obj : dopri_data) (y : List ℚ) (times : List ℚ) (tcrit : List ℚ) :
    Option integrate_state :=
  (while_true (dopri_integrate_body M T target output) (obj.step_max_n + 2)
    (dopri_integrate_init M target obj y times tcrit)).map
    fun s => { s with dde_global_obj := false }

end dopri

/-! ## Loop heads, and concrete instances for the evaluations -/

/-- The state at the head of the loop `while (true) body` after `k` passes that all
continued; `none` when the loop has left before. -/
def loop_head {σ : Type} (body : σ → loop_ctl σ) : Nat → σ → Option σ
  | 0, s => some s
  | k + 1, s =>
    match body s with
    | loop_ctl.brk _ => none
    | loop_ctl.cont s' => loop_head body k s'

/-- The Dormand–Prince 5(4) constants, as in the Fortran code `dopri5.f` that the
comments of the sources refer to. -/
def dp5 : Tableau :=
  { C2 := 1 / 5, C3 := 3 / 10, C4 := 4 / 5, C5 := 8 / 9
    A21 := 1 / 5
    A31 := 3 / 40, A32 := 9 / 40
    A41 := 44 / 45, A42 := -56 / 15, A43 := 32 / 9
    A51 := 19372 / 6561, A52 := -25360 / 2187, A53 := 64448 / 6561, A54 := -212 / 729
    A61 := 9017 / 3168, A62 := -355 / 33, A63 := 46732 / 5247, A64 := 49 / 176
    A65 := -5103 / 18656
    A71 := 35 / 384, A73 := 500 / 1113, A74 := 125 / 192, A75 := -2187 / 6784, A76 := 11 / 84
    E1 := 71 / 57600, E3 := -71 / 16695, E4 := 71 / 1920, E5 := -17253 / 339200
    E6 := 22 / 525, E7 := -1 / 40
    D1 := -12715105075 / 11282082432, D3 := 87487479700 / 32700410799
    D4 := -10690763975 / 1880347072, D5 := 701980252875 / 199316789632
    D6 := -1453857185 / 822651844, D7 := 69997945 / 29380423 }

/-- The largest `r` between `lo` and `hi` with `r ^ q ≤ a`, by bisection. -/
def nat_root_bisect (q a : Nat) : Nat → Nat → Nat → Nat
  | 0, lo, _ => lo
  | fuel + 1, lo, hi =>
    if hi ≤ lo + 1 then lo
    else if ((lo + hi) / 2) ^ q ≤ a then nat_root_bisect q a fuel ((lo + hi) / 2) hi
    else nat_root_bisect q a fuel lo ((lo + hi) / 2)

/-- The integer part of the `q`-th root of `a`. -/
def nat_root (q a : Nat) : Nat := nat_root_bisect q a (a + 2) 0 (a + 1)

/-- The power `x ^ e` of a positive rational for a positive rational exponent, from
the integer roots of the numerator and the denominator: exact when `x` is the
`e.den`-th power of a rational, an approximation otherwise. -/
def root_pow (x e : ℚ) : ℚ :=
  ((nat_root e.den x.num.toNat : ℚ) / (nat_root e.den x.den : ℚ)) ^ e.num.toNat

/-- A rational `sqrt` and `pow`, used where a run is evaluated on concrete numbers.
They are exact on the calls those runs make: `sqrt` of the square of a rational,
`pow x 0 = 1`, `pow 0 e = 0` for `e > 0`, and `pow x (p / q)` for `x` a `q`-th power
of a rational. -/
def libm_roots : Libm :=
  { sqrt := fun x => if x ≤ 0 then 0 else root_pow x (1 / 2)
    pow := fun x e => if e = 0 then 1 else if x ≤ 0 then 0
                      else if e < 0 then 1 / root_pow x (-e) else root_pow x e }

/-- The derivative function of the equation `dy/dt = 0` in one dimension. -/
def target_zero : dopri.deriv_func := fun _ _ _ => [0]

/-- A derivative function in one dimension that is 1 at the time 3/10 and 0 at
every other time. -/
def target_spike : dopri.deriv_func := fun _ t _ => [if t = 3 / 10 then 1 else 0]

/-- An output callback that is never called (`n_out = 0`). -/
def output_none : dopri.output_func := fun _ _ _ => []

/-- A solver as `dopri_data_alloc(target, 1, output, 0, data, 10)` gives it, with the
option `step_beta` set to 0. -/
def solver1 : dopri.dopri_data := { dopri.dopri_data_alloc 1 0 10 with step_beta := 0 }

/-! ### Predicates on the states of the drivers -/

/-- A derivative function in one dimension that is 1 before the time 1 and -1 from
then on (the problem of the scenario with one critical time). -/
def target_s3 : dopri.deriv_func := fun _ t _ => [if t < 1 then 1 else -1]

namespace dopri

/-- The facts about the counters that every state of the main loop satisfies. -/
def counters_inv (max : Nat) (s : integrate_state) : Prop :=
  s.obj.step_max_n = max ∧ s.obj.n_step ≤ max + 1 ∧
  s.obj.n_accept + s.obj.n_reject ≤ s.obj.n_step ∧
  1 ≤ s.obj.times_idx ∧ (s.obj.times_idx ≠ 1 → 1 ≤ s.obj.n_accept) ∧
  (s.obj.code = return_code.OK_COMPLETE → 1 ≤ s.obj.n_accept)

/-- Once a step has been accepted every trial step is counted as an acceptance or
as a rejection. -/
def counted (s : integrate_state) : Prop :=
  1 ≤ s.obj.n_accept ∧ s.obj.n_step = s.obj.n_accept + s.obj.n_reject

/-- Two states of the driver at the head of the main loop that differ at most in
the trial state `y1`, in the stage arrays other than `k[0]` and in the history,
with stage arrays and scratch slots of the allocated sizes. -/
def same_core (s s' : integrate_state) : Prop :=
  ∃ y1' k' hist,
    s' = { s with obj := { s.obj with y1 := y1', k := k', history := hist } } ∧
    s.obj.k.length = 7 ∧ k'.length = 7 ∧ k'.getD 0 [] = s.obj.k.getD 0 [] ∧
    s.obj.history.head.length = 5 * s.obj.n + 2 ∧ hist.head.length = 5 * s.obj.n + 2

/-- The configuration of a solver: the fields that neither `dopri_data_reset` nor
the main loop assigns (`step_size_initial`, which the loop assigns on completion,
is not among them). -/
def config (o : dopri_data) : Nat × Nat × Nat × Nat × Nat × Nat × ℚ × ℚ × ℚ × ℚ × ℚ × ℚ × ℚ :=
  (o.order, o.n, o.n_out, o.history_len, o.history_time_idx, o.step_max_n, o.atol, o.rtol,
    o.step_factor_min, o.step_factor_max, o.step_size_max, o.step_beta, o.step_factor_safe)

end dopri

namespace dopri5

/-- The step count at every state of the main loop of the legacy driver. -/
def steps_inv (max : Nat) (s : integrate_state) : Prop :=
  s.obj.step_max_n = max ∧ s.obj.n_step ≤ max + 1

end dopri5

/-- Two consecutive records of the history of a system of `n` equations are
contiguous: the later one starts at `t_start + h` of the earlier one (the start of
the step is stored at the position `5 n` of a record and its size at `5 n + 1`). -/
def history_contiguous (n : Nat) (r1 r2 : List ℚ) : Prop :=
  r2.getD (5 * n) 0 = r1.getD (5 * n) 0 + r1.getD (5 * n + 1) 0

/-- The live records `live` of a history, for a solver at the time `t` that has
accepted `n_accept` steps since the time `t0`: consecutive records are contiguous,
the newest one ends at `t`, no record is live that was not finalised by an accepted
step, and as long as no record has been evicted the oldest one starts at `t0`. -/
def history_chain (n : Nat) (t0 t : ℚ) (n_accept : Nat) (live : List (List ℚ)) : Prop :=
  List.Chain' (history_contiguous n) live ∧
  (∀ r ∈ live.getLast?, r.getD (5 * n) 0 + r.getD (5 * n + 1) 0 = t) ∧
  (n_accept = 0 → t = t0) ∧
  live.length ≤ n_accept ∧
  (live.length = n_accept → ∀ r ∈ live.head?, r.getD (5 * n) 0 = t0)

namespace dopri

/-- The indices at which the loop of `dopri_data_reset` that skips critical times
(dopri.c, lines 103 to 105) reads `tcrit`, in order, from the cursor `idx`: every
evaluation of the condition `tcrit[idx] < t0 && idx < n_tcrit` reads `tcrit[idx]`
before it compares `idx` with `n_tcrit`.  At most `fuel` evaluations are listed;
the loop makes at most `n_tcrit + 1` of them. -/
def skip_tcrit_reads (tcrit : List ℚ) (n_tcrit : Nat) (t0 : ℚ) : Nat → Nat → List Nat
  | 0, _ => []
  | fuel + 1, idx =>
    idx :: (if tcrit.getD idx 0 < t0 ∧ idx < n_tcrit
            then skip_tcrit_reads tcrit n_tcrit t0 fuel (idx + 1) else [])

end dopri

/-! ## Lemmas -/

theorem vec_length (n : Nat) (f : Nat → ℚ) : (vec n f).length = n := by
  simp [vec]

theorem vec_getD (n : Nat) (f : Nat → ℚ) (i : Nat) (h : i < n) : (vec n f).getD i 0 = f i := by
  simp [vec, List.getD_eq_getElem?_getD, List.getElem?_map, List.getElem?_range h]

theorem write_length (mem : List ℚ) (off : Nat) (vals : List ℚ)
    (h : off + vals.length ≤ mem.length) : (write mem off vals).length = mem.length := by
  simp [write]
  omega

theorem write_getD_lt (mem : List ℚ) (off : Nat) (vals : List ℚ) (j : Nat) (d : ℚ)
    (hoff : off ≤ mem.length) (hj : j < off) : (write mem off vals).getD j d = mem.getD j d := by
  have h1 : j < (mem.take off).length := by simp; omega
  simp only [write, List.getD_eq_getElem?_getD, List.append_assoc]
  rw [List.getElem?_append_left h1, List.getElem?_take]
  simp [hj]

theorem write_getD_mid (mem : List ℚ) (off : Nat) (vals : List ℚ) (j : Nat) (d : ℚ)
    (hoff : off ≤ mem.length) (hj1 : off ≤ j) (hj2 : j < off + vals.length) :
    (write mem off vals).getD j d = vals.getD (j - off) d := by
  have h0 : (mem.take off).length = off := by simp; omega
  have h1 : (mem.take off).length ≤ j := by omega
  simp only [write, List.getD_eq_getElem?_getD, List.append_assoc]
  rw [List.getElem?_append_right h1, h0, List.getElem?_append_left (by omega)]

theorem write_getD_ge (mem : List ℚ) (off : Nat) (vals : List ℚ) (j : Nat) (d : ℚ)
    (hoff : off ≤ mem.length) (hj : off + vals.length ≤ j) :
    (write mem off vals).getD j d = mem.getD j d := by
  have h0 : (mem.take off).length = off := by simp; omega
  have h1 : (mem.take off).length ≤ j := by omega
  simp only [write, List.getD_eq_getElem?_getD, List.append_assoc]
  rw [List.getElem?_append_right h1, h0, List.getElem?_append_right (by omega), List.getElem?_drop]
  congr 2
  omega

/-- The seven kinds of entries of a record of `5 n + 2` numbers after the four
planes and the two trailing scalars have been stored. -/
theorem record_reads (mem : List ℚ) (n : Nat) (c0 c1 c2 c3 : Nat → ℚ) (t h : ℚ)
    (hlen : mem.length = 5 * n + 2) (i : Nat) (hi : i < n) :
    let r := write (write (write (write (write (write mem 0 (vec n c0)) n (vec n c1))
      (2 * n) (vec n c2)) (3 * n) (vec n c3)) (5 * n) [t]) (5 * n + 1) [h]
    r.getD i 0 = c0 i ∧ r.getD (n + i) 0 = c1 i ∧ r.getD (2 * n + i) 0 = c2 i ∧
      r.getD (3 * n + i) 0 = c3 i ∧ r.getD (4 * n + i) 0 = mem.getD (4 * n + i) 0 ∧
      r.getD (5 * n) 0 = t ∧ r.getD (5 * n + 1) 0 = h ∧ r.length = 5 * n + 2 := by
  intro r
  have l0 : (write mem 0 (vec n c0)).length = 5 * n + 2 := by
    rw [write_length _ _ _ (by simp [vec_length]; omega), hlen]
  have l1 : (write (write mem 0 (vec n c0)) n (vec n c1)).length = 5 * n + 2 := by
    rw [write_length _ _ _ (by simp [vec_length]; omega), l0]
  have l2 : (write (write (write mem 0 (vec n c0)) n (vec n c1)) (2 * n) (vec n c2)).length
      = 5 * n + 2 := by
    rw [write_length _ _ _ (by simp [vec_length]; omega), l1]
  have l3 : (write (write (write (write mem 0 (vec n c0)) n (vec n c1)) (2 * n) (vec n c2))
      (3 * n) (vec n c3)).length = 5 * n + 2 := by
    rw [write_length _ _ _ (by simp [vec_length]; omega), l2]
  have l4 : (write (write (write (write (write mem 0 (vec n c0)) n (vec n c1)) (2 * n)
      (vec n c2)) (3 * n) (vec n c3)) (5 * n) [t]).length = 5 * n + 2 := by
    rw [write_length _ _ _ (by simp; omega), l3]
  have l5 : r.length = 5 * n + 2 := by
    show (write _ _ _).length = _
    rw [write_length _ _ _ (by simp; omega), l4]
  refine ⟨?_, ?_, ?_, ?_, ?_, ?_, ?_, l5⟩
  · show (write _ _ _).getD _ _ = _
    rw [write_getD_lt _ _ _ _ _ (by omega) (by omega),
      write_getD_lt _ _ _ _ _ (by omega) (by omega),
      write_getD_lt _ _ _ _ _ (by omega) (by omega),
      write_getD_lt _ _ _ _ _ (by omega) (by omega),
      write_getD_lt _ _ _ _ _ (by omega) (by omega),
      write_getD_mid _ _ _ _ _ (by omega) (by omega) (by simp [vec_length]; omega),
      Nat.sub_zero, vec_getD _ _ _ hi]
  · show (write _ _ _).getD _ _ = _
    rw [write_getD_lt _ _ _ _ _ (by omega) (by omega),
      write_getD_lt _ _ _ _ _ (by omega) (by omega),
      write_getD_lt _ _ _ _ _ (by omega) (by omega),
      write_getD_lt _ _ _ _ _ (by omega) (by omega),
      write_getD_mid _ _ _ _ _ (by omega) (by omega) (by simp [vec_length]; omega),
      Nat.add_sub_cancel_left, vec_getD _ _ _ hi]
  · show (write _ _ _).getD _ _ = _
    rw [write_getD_lt _ _ _ _ _ (by omega) (by omega),
      write_getD_lt _ _ _ _ _ (by omega) (by omega),
      write_getD_lt _ _ _ _ _ (by omega) (by omega),
      write_getD_mid _ _ _ _ _ (by omega) (by omega) (by simp [vec_length]; omega),
      Nat.add_sub_cancel_left, vec_getD _ _ _ hi]
  · show (write _ _ _).getD _ _ = _
    rw [write_getD_lt _ _ _ _ _ (by omega) (by omega),
      write_getD_lt _ _ _ _ _ (by omega) (by omega),
      write_getD_mid _ _ _ _ _ (by omega) (by omega) (by simp [vec_length]; omega),
      Nat.add_sub_cancel_left, vec_getD _ _ _ hi]
  · show (write _ _ _).getD _ _ = _
    rw [write_getD_lt _ _ _ _ _ (by omega) (by omega),
      write_getD_lt _ _ _ _ _ (by omega) (by omega),
      write_getD_ge _ _ _ _ _ (by omega) (by simp [vec_length]; omega),
      write_getD_ge _ _ _ _ _ (by omega) (by simp [vec_length]; omega),
      write_getD_ge _ _ _ _ _ (by omega) (by simp [vec_length]; omega),
      write_getD_ge _ _ _ _ _ (by omega) (by simp [vec_length]; omega)]
  · show (write _ _ _).getD _ _ = _
    rw [write_getD_lt _ _ _ _ _ (by omega) (by omega),
      write_getD_mid _ _ _ _ _ (by omega) (by omega) (by simp)]
    simp
  · show (write _ _ _).getD _ _ = _
    rw [write_getD_mid _ _ _ _ _ (by omega) (by omega) (by simp)]
    simp

theorem getD_drop (l : List ℚ) (i j : Nat) : (l.drop i).getD j 0 = l.getD (i + j) 0 := by
  simp [List.getD_eq_getElem?_getD, List.getElem?_drop]

theorem save_history_reads (obj : dopri5.dopri5_data) (h : ℚ) (i : Nat) (hi : i < obj.n)
    (hlen : obj.history.head.length = 5 * obj.n + 2) :
    (dopri5.save_history obj h).history.head.getD i 0 = obj.y.getD i 0 ∧
    (dopri5.save_history obj h).history.head.getD (obj.n + i) 0
      = obj.y1.getD i 0 - obj.y.getD i 0 ∧
    (dopri5.save_history obj h).history.head.getD (5 * obj.n) 0 = obj.t ∧
    (dopri5.save_history obj h).history.head.getD (5 * obj.n + 1) 0 = h := by
  obtain ⟨r0, r1, -, -, -, r5, r6, -⟩ := record_reads obj.history.head obj.n
    (fun i => obj.y.getD i 0) (fun i => obj.y1.getD i 0 - obj.y.getD i 0)
    (fun i => h * obj.k1.getD i 0 - (obj.y1.getD i 0 - obj.y.getD i 0))
    (fun i => -h * obj.k2.getD i 0 + (obj.y1.getD i 0 - obj.y.getD i 0)
      - (h * obj.k1.getD i 0 - (obj.y1.getD i 0 - obj.y.getD i 0))) obj.t h hlen i hi
  exact ⟨r0, r1, r5, r6⟩

theorem dopri5_save_history_reads (o : dopri.dopri_data) (h : ℚ) (i : Nat) (hi : i < o.n)
    (hlen : o.history.head.length = 5 * o.n + 2) :
    (dopri.dopri_save_history o h).history.head.getD i 0 = o.y.getD i 0 ∧
    (dopri.dopri_save_history o h).history.head.getD (o.n + i) 0
      = o.y1.getD i 0 - o.y.getD i 0 ∧
    (dopri.dopri_save_history o h).history.head.getD (5 * o.n) 0 = o.t ∧
    (dopri.dopri_save_history o h).history.head.getD (5 * o.n + 1) 0 = h := by
  obtain ⟨r0, r1, -, -, -, r5, r6, -⟩ := record_reads o.history.head o.n
    (fun i => o.y.getD i 0) (fun i => o.y1.getD i 0 - o.y.getD i 0)
    (fun i => h * (o.k.getD 0 []).getD i 0 - (o.y1.getD i 0 - o.y.getD i 0))
    (fun i => -h * (o.k.getD 1 []).getD i 0 + (o.y1.getD i 0 - o.y.getD i 0)
      - (h * (o.k.getD 0 []).getD i 0 - (o.y1.getD i 0 - o.y.getD i 0))) o.t h hlen i hi
  exact ⟨r0, r1, r5, r6⟩

theorem while_true_inv {σ : Type} (body : σ → loop_ctl σ) (I P : σ → Prop)
    (hc : ∀ s s', I s → body s = loop_ctl.cont s' → I s')
    (hb : ∀ s r, I s → body s = loop_ctl.brk r → P r) :
    ∀ fuel s r, I s → while_true body fuel s = some r → P r := by
  intro fuel
  induction fuel with
  | zero => intro s r _ h; simp [while_true] at h
  | succ fuel ih =>
    intro s r hI h
    rw [while_true] at h
    cases hbody : body s with
    | brk r' =>
      rw [hbody] at h
      simp only [Option.some.injEq] at h
      subst h
      exact hb s r' hI hbody
    | cont s' =>
      rw [hbody] at h
      exact ih s' r (hc s s' hI hbody) h

theorem while_true_terminates {σ : Type} (body : σ → loop_ctl σ) (m : σ → Nat)
    (hdec : ∀ s s', body s = loop_ctl.cont s' → m s' < m s) :
    ∀ fuel s, m s < fuel → ∃ r, while_true body fuel s = some r := by
  intro fuel
  induction fuel with
  | zero => intro s h; omega
  | succ fuel ih =>
    intro s h
    rw [while_true]
    cases hbody : body s with
    | brk r' => exact ⟨r', rfl⟩
    | cont s' =>
      have := hdec s s' hbody
      exact ih s' (by omega)

theorem loop_head_inv {σ : Type} (body : σ → loop_ctl σ) (I : σ → Prop)
    (hc : ∀ s s', I s → body s = loop_ctl.cont s' → I s') :
    ∀ k s s', I s → loop_head body k s = some s' → I s' := by
  intro k
  induction k with
  | zero => intro s s' hI h; simp only [loop_head, Option.some.injEq] at h; subst h; exact hI
  | succ k ih =>
    intro s s' hI h
    rw [loop_head] at h
    cases hbody : body s with
    | brk r' => rw [hbody] at h; simp at h
    | cont s1 =>
      rw [hbody] at h
      exact ih s1 s' (hc s s1 hI hbody) h

namespace dopri

/-- What `dopri_step` leaves alone. -/
theorem dopri_step_frame (T : Tableau) (target : deriv_func) (o : dopri_data) (h : ℚ) :
    dopri_step T target o h = { o with y1 := (dopri_step T target o h).y1,
                                        k := (dopri_step T target o h).k,
                                        history := (dopri_step T target o h).history } := rfl

theorem dopri_save_history_frame (o : dopri_data) (h : ℚ) :
    dopri_save_history o h = { o with history := (dopri_save_history o h).history } := rfl

theorem emit_outputs_frame (output : output_func) (fuel : Nat) (o : dopri_data)
    (y_out out : List ℚ) :
    (emit_outputs output fuel o y_out out).1
      = { o with times_idx := (emit_outputs output fuel o y_out out).1.times_idx } ∧
    o.times_idx ≤ (emit_outputs output fuel o y_out out).1.times_idx := by
  induction fuel generalizing o y_out out with
  | zero => exact ⟨rfl, le_refl _⟩
  | succ fuel ih =>
    rw [emit_outputs]
    split
    · obtain ⟨h1, h2⟩ := ih { o with times_idx := o.times_idx + 1 }
        (y_out ++ dopri_interpolate_all o.history.head o.n (o.times.getD o.times_idx 0))
        (if o.n_out > 0 then out ++ output o (o.times.getD o.times_idx 0)
          (dopri_interpolate_all o.history.head o.n (o.times.getD o.times_idx 0)) else out)
      refine ⟨?_, ?_⟩
      · rw [h1]
      · exact le_trans (Nat.le_succ _) h2
    · exact ⟨rfl, le_refl _⟩

theorem emit_outputs_counters (output : output_func) (fuel : Nat) (o : dopri_data)
    (y_out out : List ℚ) :
    (emit_outputs output fuel o y_out out).1.n_step = o.n_step ∧
    (emit_outputs output fuel o y_out out).1.n_accept = o.n_accept ∧
    (emit_outputs output fuel o y_out out).1.n_reject = o.n_reject ∧
    (emit_outputs output fuel o y_out out).1.step_max_n = o.step_max_n ∧
    (emit_outputs output fuel o y_out out).1.code = o.code := by
  rw [(emit_outputs_frame output fuel o y_out out).1]
  exact ⟨rfl, rfl, rfl, rfl, rfl⟩

theorem dopri_save_history_counters (o : dopri_data) (h : ℚ) :
    (dopri_save_history o h).n_step = o.n_step ∧
    (dopri_save_history o h).n_accept = o.n_accept ∧
    (dopri_save_history o h).n_reject = o.n_reject ∧
    (dopri_save_history o h).step_max_n = o.step_max_n ∧
    (dopri_save_history o h).code = o.code ∧
    (dopri_save_history o h).times_idx = o.times_idx ∧
    (dopri_save_history o h).n_times = o.n_times :=
  ⟨rfl, rfl, rfl, rfl, rfl, rfl, rfl⟩

/-- The counters after the accepted branch. -/
theorem accept_counters (output : output_func) (s : integrate_state) (err h_new : ℚ) :
    (dopri_integrate_accept output s err h_new).state.obj.n_step = s.obj.n_step ∧
    (dopri_integrate_accept output s err h_new).state.obj.n_accept = s.obj.n_accept + 1 ∧
    (dopri_integrate_accept output s err h_new).state.obj.n_reject = s.obj.n_reject ∧
    (dopri_integrate_accept output s err h_new).state.obj.step_max_n = s.obj.step_max_n ∧
    s.obj.times_idx ≤ (dopri_integrate_accept output s err h_new).state.obj.times_idx ∧
    ((dopri_integrate_accept output s err h_new).is_brk = true →
      (dopri_integrate_accept output s err h_new).state.obj.code = return_code.OK_COMPLETE) ∧
    ((dopri_integrate_accept output s err h_new).is_brk = false →
      (dopri_integrate_accept output s err h_new).state.obj.code = s.obj.code) := by
  have e := emit_outputs_counters output
  have e2 := fun fuel o y_out out => (emit_outputs_frame output fuel o y_out out).2
  unfold dopri_integrate_accept dopri_integrate_accept_tail
    dopri_integrate_accept_report
    dopri_integrate_accept_move
  simp only
  split_ifs <;>
    simp only [loop_ctl.state, loop_ctl.is_brk, e, dopri_save_history_counters, true_and, and_true,
      Bool.true_eq_false, Bool.false_eq_true, false_implies, true_implies, implies_true] <;>
    (refine le_trans ?_ (e2 _ _ _ _); exact le_refl _)

theorem reject_counters (M : Libm) (s : integrate_state) (err : ℚ) :
    (dopri_integrate_reject M s err).is_brk = false ∧
    (dopri_integrate_reject M s err).state.obj.n_step = s.obj.n_step ∧
    (dopri_integrate_reject M s err).state.obj.n_accept = s.obj.n_accept ∧
    (dopri_integrate_reject M s err).state.obj.n_reject
      = s.obj.n_reject + (if s.obj.n_accept ≥ 1 then 1 else 0) ∧
    (dopri_integrate_reject M s err).state.obj.step_max_n = s.obj.step_max_n ∧
    (dopri_integrate_reject M s err).state.obj.times_idx = s.obj.times_idx ∧
    (dopri_integrate_reject M s err).state.obj.code = s.obj.code := by
  unfold dopri_integrate_reject
  simp only
  split_ifs <;> exact ⟨rfl, rfl, rfl, rfl, rfl, rfl, rfl⟩

theorem trial_counters (T : Tableau) (target : deriv_func) (s : integrate_state) :
    (dopri_integrate_trial T target s).obj.n_step = s.obj.n_step + 1 ∧
    (dopri_integrate_trial T target s).obj.n_accept = s.obj.n_accept ∧
    (dopri_integrate_trial T target s).obj.n_reject = s.obj.n_reject ∧
    (dopri_integrate_trial T target s).obj.step_max_n = s.obj.step_max_n ∧
    (dopri_integrate_trial T target s).obj.times_idx = s.obj.times_idx ∧
    (dopri_integrate_trial T target s).obj.code = s.obj.code := by
  unfold dopri_integrate_trial
  simp only
  split_ifs <;> exact ⟨rfl, rfl, rfl, rfl, rfl, rfl⟩

/-- How one pass of the main loop changes the counters: it leaves by a guard, or
the trial step is accepted, or it is rejected. -/
theorem body_counters (M : Libm) (T : Tableau) (target : deriv_func) (output : output_func)
    (s : integrate_state) :
    (dopri_integrate_body M T target output s).state.obj.step_max_n = s.obj.step_max_n ∧
    s.obj.times_idx ≤ (dopri_integrate_body M T target output s).state.obj.times_idx ∧
    ((dopri_integrate_body M T target output s).is_brk = false →
      (dopri_integrate_body M T target output s).state.obj.code = s.obj.code) ∧
    (((dopri_integrate_body M T target output s).is_brk = true ∧
        (dopri_integrate_body M T target output s).state.obj.n_step = s.obj.n_step ∧
        (dopri_integrate_body M T target output s).state.obj.n_accept = s.obj.n_accept ∧
        (dopri_integrate_body M T target output s).state.obj.n_reject = s.obj.n_reject ∧
        (dopri_integrate_body M T target output s).state.obj.times_idx = s.obj.times_idx ∧
        (dopri_integrate_body M T target output s).state.obj.code ≠ return_code.OK_COMPLETE) ∨
      (s.obj.n_step ≤ s.obj.step_max_n ∧
        (dopri_integrate_body M T target output s).state.obj.n_step = s.obj.n_step + 1 ∧
        (dopri_integrate_body M T target output s).state.obj.n_accept = s.obj.n_accept + 1 ∧
        (dopri_integrate_body M T target output s).state.obj.n_reject = s.obj.n_reject) ∨
      (s.obj.n_step ≤ s.obj.step_max_n ∧
        (dopri_integrate_body M T target output s).is_brk = false ∧
        (dopri_integrate_body M T target output s).state.obj.n_step = s.obj.n_step + 1 ∧
        (dopri_integrate_body M T target output s).state.obj.n_accept = s.obj.n_accept ∧
        ((dopri_integrate_body M T target output s).state.obj.n_reject = s.obj.n_reject + 1 ∧
            1 ≤ s.obj.n_accept ∨
          (dopri_integrate_body M T target output s).state.obj.n_reject = s.obj.n_reject ∧
            s.obj.n_accept = 0) ∧
        (dopri_integrate_body M T target output s).state.obj.times_idx = s.obj.times_idx)) := by
  unfold dopri_integrate_body
  simp only
  by_cases h1 : s.obj.n_step > s.obj.step_max_n
  · rw [if_pos h1]
    simp [loop_ctl.state, loop_ctl.is_brk]
  rw [if_neg h1]
  by_cases h2 : 1 / 10 * fabs s.h ≤ fabs s.obj.t * (10 * DBL_EPSILON)
  · rw [if_pos h2]
    simp [loop_ctl.state, loop_ctl.is_brk]
  rw [if_neg h2]
  obtain ⟨t1, t2, t3, t4, t5, t6⟩ := trial_counters T target s
  by_cases h3 : dopri_error M (dopri_integrate_trial T target s).obj ≤ 1
  · rw [if_pos h3]
    obtain ⟨a1, a2, a3, a4, a5, a6, a7⟩ := accept_counters output (dopri_integrate_trial T target s)
      (dopri_error M (dopri_integrate_trial T target s).obj)
      (dopri_h_new M (dopri_integrate_trial T target s).obj (dopri_integrate_trial T target s).fac_old
        (dopri_integrate_trial T target s).h (dopri_error M (dopri_integrate_trial T target s).obj))
    rw [a1, a2, a3, a4, t1, t2, t3, t4]
    rw [t5] at a5
    refine ⟨rfl, a5, ?_, Or.inr (Or.inl ⟨by omega, rfl, rfl, rfl⟩)⟩
    intro hb
    rw [a7 hb, t6]
  · rw [if_neg h3]
    obtain ⟨r1, r2, r3, r4, r5, r6, r7⟩ := reject_counters M (dopri_integrate_trial T target s)
      (dopri_error M (dopri_integrate_trial T target s).obj)
    rw [r2, r3, r4, r5, r6, r7, t1, t2, t3, t4, t5, t6]
    refine ⟨rfl, le_refl _, fun _ => rfl, Or.inr (Or.inr ⟨by omega, r1, rfl, rfl, ?_, rfl⟩)⟩
    by_cases h4 : s.obj.n_accept ≥ 1
    · left; rw [if_pos h4]; exact ⟨rfl, h4⟩
    · right; rw [if_neg h4]; exact ⟨rfl, by omega⟩

theorem body_cont (M : Libm) (T : Tableau) (target : deriv_func) (output : output_func)
    (s s' : integrate_state) (h : dopri_integrate_body M T target output s = loop_ctl.cont s') :
    (dopri_integrate_body M T target output s).state = s' ∧
    (dopri_integrate_body M T target output s).is_brk = false := by
  rw [h]; exact ⟨rfl, rfl⟩

theorem body_brk (M : Libm) (T : Tableau) (target : deriv_func) (output : output_func)
    (s s' : integrate_state) (h : dopri_integrate_body M T target output s = loop_ctl.brk s') :
    (dopri_integrate_body M T target output s).state = s' ∧
    (dopri_integrate_body M T target output s).is_brk = true := by
  rw [h]; exact ⟨rfl, rfl⟩

theorem init_counters (M : Libm) (target : deriv_func) (obj : dopri_data)
    (y times tcrit : List ℚ) :
    (dopri_integrate_init M target obj y times tcrit).obj.n_step = 0 ∧
    (dopri_integrate_init M target obj y times tcrit).obj.n_accept = 0 ∧
    (dopri_integrate_init M target obj y times tcrit).obj.n_reject = 0 ∧
    (dopri_integrate_init M target obj y times tcrit).obj.times_idx = 1 ∧
    (dopri_integrate_init M target obj y times tcrit).obj.code = return_code.NOT_SET ∧
    (dopri_integrate_init M target obj y times tcrit).obj.step_max_n = obj.step_max_n := by
  unfold dopri_integrate_init dopri_h_init
  simp only
  split_ifs <;> exact ⟨rfl, rfl, rfl, rfl, rfl, rfl⟩

/-- The main loop of `dopri_integrate` leaves within `step_max_n + 2` passes. -/
theorem dopri_loop_terminates (M : Libm) (T : Tableau) (target : deriv_func)
    (output : output_func) (s : integrate_state) (fuel : Nat)
    (h : s.obj.step_max_n + 1 - s.obj.n_step < fuel) :
    ∃ r, while_true (dopri_integrate_body M T target output) fuel s = some r := by
  apply while_true_terminates (dopri_integrate_body M T target output)
    (fun s => s.obj.step_max_n + 1 - s.obj.n_step) _ fuel s h
  intro s s' hb
  obtain ⟨e1, e2⟩ := body_cont M T target output s s' hb
  obtain ⟨c1, -, -, c4⟩ := body_counters M T target output s
  rw [e1] at c1 c4
  rw [e2] at c4
  simp only [c1]
  rcases c4 with ⟨hf, -⟩ | ⟨h0, h1, -⟩ | ⟨h0, -, h1, -⟩
  · simp at hf
  · omega
  · omega

theorem dopri_integrate_some (M : Libm) (T : Tableau) (target : deriv_func)
    (output : output_func) (obj : dopri_data) (y times tcrit : List ℚ) :
    ∃ r, while_true (dopri_integrate_body M T target output) (obj.step_max_n + 2)
        (dopri_integrate_init M target obj y times tcrit) = some r ∧
      dopri_integrate M T target output obj y times tcrit
        = some { r with dde_global_obj := false } := by
  obtain ⟨i1, -, -, -, -, i6⟩ := init_counters M target obj y times tcrit
  obtain ⟨r, hr⟩ := dopri_loop_terminates M T target output
    (dopri_integrate_init M target obj y times tcrit) (obj.step_max_n + 2)
    (by rw [i1, i6]; omega)
  exact ⟨r, hr, by simp [dopri_integrate, hr]⟩

theorem counters_inv_init (M : Libm) (target : deriv_func) (obj : dopri_data)
    (y times tcrit : List ℚ) :
    counters_inv obj.step_max_n (dopri_integrate_init M target obj y times tcrit) := by
  obtain ⟨i1, i2, i3, i4, i5, i6⟩ := init_counters M target obj y times tcrit
  simp [counters_inv, i1, i2, i3, i4, i5, i6]

theorem counters_inv_body (M : Libm) (T : Tableau) (target : deriv_func)
    (output : output_func) (max : Nat) (s : integrate_state) (hI : counters_inv max s) :
    counters_inv max (dopri_integrate_body M T target output s).state := by
  obtain ⟨c1, c2, c3, c4⟩ := body_counters M T target output s
  obtain ⟨h1, h2, h3, h4, h5, h6⟩ := hI
  unfold counters_inv
  rcases c4 with ⟨hb, e1, e2, e3, e4, e5⟩ | ⟨h0, e1, e2, e3⟩ | ⟨h0, hb, e1, e2, e3, e4⟩
  · rw [c1, e1, e2, e3, e4]
    exact ⟨h1, h2, h3, h4, h5, fun h => absurd h e5⟩
  · rw [c1, e1, e2, e3]
    exact ⟨h1, by omega, by omega, by omega, fun _ => by omega, fun _ => by omega⟩
  · rw [c1, e1, e2, e4, c3 hb]
    refine ⟨h1, by omega, ?_, h4, h5, h6⟩
    rcases e3 with ⟨e3, -⟩ | ⟨e3, -⟩ <;> rw [e3] <;> omega

theorem counters_inv_loop (M : Libm) (T : Tableau) (target : deriv_func)
    (output : output_func) (max : Nat) (fuel : Nat) (s r : integrate_state)
    (hI : counters_inv max s)
    (hr : while_true (dopri_integrate_body M T target output) fuel s = some r) :
    counters_inv max r := by
  refine while_true_inv (dopri_integrate_body M T target output) (counters_inv max)
    (counters_inv max) ?_ ?_ fuel s r hI hr
  · intro s s' hI hb
    have := counters_inv_body M T target output max s hI
    rwa [(body_cont M T target output s s' hb).1] at this
  · intro s s' hI hb
    have := counters_inv_body M T target output max s hI
    rwa [(body_brk M T target output s s' hb).1] at this

theorem counters_inv_head (M : Libm) (T : Tableau) (target : deriv_func)
    (output : output_func) (max : Nat) (k : Nat) (s r : integrate_state)
    (hI : counters_inv max s)
    (hr : loop_head (dopri_integrate_body M T target output) k s = some r) :
    counters_inv max r := by
  refine loop_head_inv (dopri_integrate_body M T target output) (counters_inv max)
    ?_ k s r hI hr
  intro s s' hI hb
  have := counters_inv_body M T target output max s hI
  rwa [(body_cont M T target output s s' hb).1] at this
end dopri

namespace dopri5

theorem legacy_emit_outputs_frame (fuel : Nat) (o : dopri5_data) (y_out : List ℚ) :
    (emit_outputs fuel o y_out).1
      = { o with times_idx := (emit_outputs fuel o y_out).1.times_idx } := by
  induction fuel generalizing o y_out with
  | zero => rfl
  | succ fuel ih =>
    rw [emit_outputs]
    split
    · rw [ih { o with times_idx := o.times_idx + 1 }
        (y_out ++ dopri5_interpolate o (o.times.getD o.times_idx 0))]
    · rfl

theorem legacy_emit_outputs_counters (fuel : Nat) (o : dopri5_data) (y_out : List ℚ) :
    (emit_outputs fuel o y_out).1.n_step = o.n_step ∧
    (emit_outputs fuel o y_out).1.step_max_n = o.step_max_n := by
  rw [legacy_emit_outputs_frame fuel o y_out]
  exact ⟨rfl, rfl⟩

theorem legacy_save_history_counters (o : dopri5_data) (h : ℚ) :
    (save_history o h).n_step = o.n_step ∧ (save_history o h).step_max_n = o.step_max_n :=
  ⟨rfl, rfl⟩

theorem legacy_accept_counters (s : integrate_state) (err h_new : ℚ) :
    (dopri5_integrate_accept s err h_new).state.obj.n_step = s.obj.n_step ∧
    (dopri5_integrate_accept s err h_new).state.obj.step_max_n = s.obj.step_max_n := by
  have e := legacy_emit_outputs_counters
  unfold dopri5_integrate_accept
  simp only
  split_ifs <;>
    simp only [loop_ctl.state, e, legacy_save_history_counters, and_self]

theorem legacy_reject_counters (M : Libm) (s : integrate_state) (err : ℚ) :
    (dopri5_integrate_reject M s err).state.obj.n_step = s.obj.n_step ∧
    (dopri5_integrate_reject M s err).state.obj.step_max_n = s.obj.step_max_n := by
  unfold dopri5_integrate_reject
  simp only
  split_ifs <;> exact ⟨rfl, rfl⟩

theorem legacy_trial_counters (T : Tableau) (target : deriv_func) (s : integrate_state) :
    (dopri5_integrate_trial T target s).obj.n_step = s.obj.n_step + 1 ∧
    (dopri5_integrate_trial T target s).obj.step_max_n = s.obj.step_max_n := by
  unfold dopri5_integrate_trial
  simp only
  split_ifs <;> exact ⟨rfl, rfl⟩

/-- How one pass of the main loop of the legacy driver changes the step count. -/
theorem legacy_body_counters (M : Libm) (T : Tableau) (target : deriv_func) (s : integrate_state) :
    (dopri5_integrate_body M T target s).state.obj.step_max_n = s.obj.step_max_n ∧
    (((dopri5_integrate_body M T target s).is_brk = true ∧
        (dopri5_integrate_body M T target s).state.obj.n_step = s.obj.n_step) ∨
      (s.obj.n_step ≤ s.obj.step_max_n ∧
        (dopri5_integrate_body M T target s).state.obj.n_step = s.obj.n_step + 1)) := by
  unfold dopri5_integrate_body
  simp only
  by_cases h1 : s.obj.n_step > s.obj.step_max_n
  · rw [if_pos h1]
    simp [loop_ctl.state, loop_ctl.is_brk]
  rw [if_neg h1]
  by_cases h2 : 1 / 10 * fabs s.h ≤ fabs s.obj.t * (10 * DBL_EPSILON)
  · rw [if_pos h2]
    simp [loop_ctl.state, loop_ctl.is_brk]
  rw [if_neg h2]
  obtain ⟨t1, t2⟩ := legacy_trial_counters T target s
  by_cases h3 : dopri5_error M (dopri5_integrate_trial T target s).obj ≤ 1
  · rw [if_pos h3]
    obtain ⟨a1, a2⟩ := legacy_accept_counters (dopri5_integrate_trial T target s)
      (dopri5_error M (dopri5_integrate_trial T target s).obj)
      (dopri5_h_new M (dopri5_integrate_trial T target s).obj
        (dopri5_integrate_trial T target s).fac_old
        (dopri5_integrate_trial T target s).h (dopri5_error M (dopri5_integrate_trial T target s).obj))
    rw [a1, a2, t1, t2]
    exact ⟨rfl, Or.inr ⟨by omega, rfl⟩⟩
  · rw [if_neg h3]
    obtain ⟨r1, r2⟩ := legacy_reject_counters M (dopri5_integrate_trial T target s)
      (dopri5_error M (dopri5_integrate_trial T target s).obj)
    rw [r1, r2, t1, t2]
    exact ⟨rfl, Or.inr ⟨by omega, rfl⟩⟩

theorem legacy_init_counters (M : Libm) (target : deriv_func) (obj : dopri5_data)
    (y times : List ℚ) :
    (dopri5_integrate_init M target obj y times).obj.n_step = 0 ∧
    (dopri5_integrate_init M target obj y times).obj.step_max_n = obj.step_max_n := by
  unfold dopri5_integrate_init dopri5_h_init
  simp only
  split_ifs <;> exact ⟨rfl, rfl⟩

theorem steps_inv_body (M : Libm) (T : Tableau) (target : deriv_func) (max : Nat)
    (s : integrate_state) (hI : steps_inv max s) :
    steps_inv max (dopri5_integrate_body M T target s).state := by
  obtain ⟨c1, c2⟩ := legacy_body_counters M T target s
  obtain ⟨h1, h2⟩ := hI
  unfold steps_inv
  rcases c2 with ⟨-, e1⟩ | ⟨h0, e1⟩
  · rw [c1, e1]; exact ⟨h1, h2⟩
  · rw [c1, e1]; exact ⟨h1, by omega⟩

theorem ctl_cont {σ : Type} (c : loop_ctl σ) (s' : σ) (h : c = loop_ctl.cont s') :
    c.state = s' ∧ c.is_brk = false := by
  rw [h]; exact ⟨rfl, rfl⟩

theorem ctl_brk {σ : Type} (c : loop_ctl σ) (s' : σ) (h : c = loop_ctl.brk s') :
    c.state = s' ∧ c.is_brk = true := by
  rw [h]; exact ⟨rfl, rfl⟩

theorem dopri5_integrate_some (M : Libm) (T : Tableau) (target : deriv_func)
    (obj : dopri5_data) (y times : List ℚ) :
    ∃ r, dopri5_integrate M T target obj y times = some r := by
  obtain ⟨i1, i2⟩ := legacy_init_counters M target obj y times
  apply while_true_terminates (dopri5_integrate_body M T target)
    (fun s => s.obj.step_max_n + 1 - s.obj.n_step) _ (obj.step_max_n + 2)
    (dopri5_integrate_init M target obj y times) (by simp only [i1, i2]; omega)
  intro s s' hb
  obtain ⟨e1, e2⟩ := ctl_cont _ s' hb
  obtain ⟨c1, c2⟩ := legacy_body_counters M T target s
  rw [e1] at c1 c2
  rw [e2] at c2
  simp only [c1]
  rcases c2 with ⟨hf, -⟩ | ⟨h0, h1⟩
  · simp at hf
  · omega

end dopri5

theorem length7 {α : Type} (l : List α) (h : l.length = 7) :
    ∃ a0 a1 a2 a3 a4 a5 a6, l = [a0, a1, a2, a3, a4, a5, a6] := by
  match l, h with
  | [a0, a1, a2, a3, a4, a5, a6], _ => exact ⟨a0, a1, a2, a3, a4, a5, a6, rfl⟩

theorem ext_getD (l1 l2 : List ℚ) (hl : l1.length = l2.length)
    (h : ∀ j, j < l1.length → l1.getD j 0 = l2.getD j 0) : l1 = l2 := by
  apply List.ext_getElem hl
  intro j h1 h2
  have := h j h1
  simpa [List.getD_eq_getElem?_getD, List.getElem?_eq_getElem h1,
    List.getElem?_eq_getElem h2] using this

/-- The two trailing scalars of a record, and its length, after the four planes and
the two scalars have been stored. -/
theorem record_tail (mem : List ℚ) (n : Nat) (c0 c1 c2 c3 : Nat → ℚ) (t h : ℚ)
    (hlen : mem.length = 5 * n + 2) :
    let r := write (write (write (write (write (write mem 0 (vec n c0)) n (vec n c1))
      (2 * n) (vec n c2)) (3 * n) (vec n c3)) (5 * n) [t]) (5 * n + 1) [h]
    r.getD (5 * n) 0 = t ∧ r.getD (5 * n + 1) 0 = h ∧ r.length = 5 * n + 2 := by
  intro r
  have l0 : (write mem 0 (vec n c0)).length = 5 * n + 2 := by
    rw [write_length _ _ _ (by simp [vec_length]; omega), hlen]
  have l1 : (write (write mem 0 (vec n c0)) n (vec n c1)).length = 5 * n + 2 := by
    rw [write_length _ _ _ (by simp [vec_length]; omega), l0]
  have l2 : (write (write (write mem 0 (vec n c0)) n (vec n c1)) (2 * n) (vec n c2)).length
      = 5 * n + 2 := by
    rw [write_length _ _ _ (by simp [vec_length]; omega), l1]
  have l3 : (write (write (write (write mem 0 (vec n c0)) n (vec n c1)) (2 * n) (vec n c2))
      (3 * n) (vec n c3)).length = 5 * n + 2 := by
    rw [write_length _ _ _ (by simp [vec_length]; omega), l2]
  have l4 : (write (write (write (write (write mem 0 (vec n c0)) n (vec n c1)) (2 * n)
      (vec n c2)) (3 * n) (vec n c3)) (5 * n) [t]).length = 5 * n + 2 := by
    rw [write_length _ _ _ (by simp; omega), l3]
  have l5 : r.length = 5 * n + 2 := by
    show (write _ _ _).length = _
    rw [write_length _ _ _ (by simp; omega), l4]
  refine ⟨?_, ?_, l5⟩
  · show (write _ _ _).getD _ _ = _
    rw [write_getD_lt _ _ _ _ _ (by omega) (by omega),
      write_getD_mid _ _ _ _ _ (by omega) (by omega) (by simp)]
    simp
  · show (write _ _ _).getD _ _ = _
    rw [write_getD_mid _ _ _ _ _ (by omega) (by omega) (by simp)]
    simp

/-- The record that the six stores build depends on the slot they go to only through
its fifth plane. -/
theorem six_writes_eq (mem mem' : List ℚ) (n : Nat) (c0 c1 c2 c3 : Nat → ℚ) (t h : ℚ)
    (hlen : mem.length = 5 * n + 2) (hlen' : mem'.length = 5 * n + 2)
    (h4 : ∀ j, 4 * n ≤ j → j < 5 * n → mem.getD j 0 = mem'.getD j 0) :
    write (write (write (write (write (write mem 0 (vec n c0)) n (vec n c1))
      (2 * n) (vec n c2)) (3 * n) (vec n c3)) (5 * n) [t]) (5 * n + 1) [h]
    = write (write (write (write (write (write mem' 0 (vec n c0)) n (vec n c1))
      (2 * n) (vec n c2)) (3 * n) (vec n c3)) (5 * n) [t]) (5 * n + 1) [h] := by
  obtain ⟨a5, a6, al⟩ := record_tail mem n c0 c1 c2 c3 t h hlen
  obtain ⟨b5, b6, bl⟩ := record_tail mem' n c0 c1 c2 c3 t h hlen'
  apply ext_getD _ _ (by rw [al, bl])
  intro j hj
  rw [al] at hj
  by_cases h5 : j = 5 * n
  · subst h5; rw [a5, b5]
  by_cases h6 : j = 5 * n + 1
  · subst h6; rw [a6, b6]
  have hn : 0 < n := by omega
  by_cases c : j < n
  · obtain ⟨a, -⟩ := record_reads mem n c0 c1 c2 c3 t h hlen j c
    obtain ⟨b, -⟩ := record_reads mem' n c0 c1 c2 c3 t h hlen' j c
    rw [a, b]
  by_cases c' : j < 2 * n
  · obtain ⟨-, a, -⟩ := record_reads mem n c0 c1 c2 c3 t h hlen (j - n) (by omega)
    obtain ⟨-, b, -⟩ := record_reads mem' n c0 c1 c2 c3 t h hlen' (j - n) (by omega)
    have e : n + (j - n) = j := by omega
    rw [e] at a b
    rw [a, b]
  by_cases c'' : j < 3 * n
  · obtain ⟨-, -, a, -⟩ := record_reads mem n c0 c1 c2 c3 t h hlen (j - 2 * n) (by omega)
    obtain ⟨-, -, b, -⟩ := record_reads mem' n c0 c1 c2 c3 t h hlen' (j - 2 * n) (by omega)
    have e : 2 * n + (j - 2 * n) = j := by omega
    rw [e] at a b
    rw [a, b]
  by_cases c''' : j < 4 * n
  · obtain ⟨-, -, -, a, -⟩ := record_reads mem n c0 c1 c2 c3 t h hlen (j - 3 * n) (by omega)
    obtain ⟨-, -, -, b, -⟩ := record_reads mem' n c0 c1 c2 c3 t h hlen' (j - 3 * n) (by omega)
    have e : 3 * n + (j - 3 * n) = j := by omega
    rw [e] at a b
    rw [a, b]
  · obtain ⟨-, -, -, -, a, -⟩ := record_reads mem n c0 c1 c2 c3 t h hlen (j - 4 * n) (by omega)
    obtain ⟨-, -, -, -, b, -⟩ := record_reads mem' n c0 c1 c2 c3 t h hlen' (j - 4 * n) (by omega)
    have e : 4 * n + (j - 4 * n) = j := by omega
    rw [e] at a b
    rw [a, b]
    exact h4 j (by omega) (by omega)

theorem record_eq (n : Nat) (y y1 k1 k2 : List ℚ) (t h : ℚ) (mem mem' : List ℚ)
    (hlen : mem.length = 5 * n + 2) (hlen' : mem'.length = 5 * n + 2)
    (h4 : ∀ j, 4 * n ≤ j → j < 5 * n → mem.getD j 0 = mem'.getD j 0) :
    history_record n y y1 k1 k2 t h mem = history_record n y y1 k1 k2 t h mem' :=
  six_writes_eq mem mem' n _ _ _ _ t h hlen hlen' h4

theorem record_length (n : Nat) (y y1 k1 k2 : List ℚ) (t h : ℚ) (mem : List ℚ)
    (hlen : mem.length = 5 * n + 2) :
    (history_record n y y1 k1 k2 t h mem).length = 5 * n + 2 :=
  (record_tail mem n _ _ _ _ t h hlen).2.2

namespace dopri

/-- A trial step does not read the trial state, the stage arrays other than `k[0]`,
or the history: on a solver in which these are replaced, it gives the same solver
but for the history, in whose scratch slot the same fifth plane is stored. -/
theorem step_comm (T : Tableau) (g : ℚ → List ℚ → List ℚ) (a : dopri_data) (h : ℚ)
    (y1' : List ℚ) (k' : List (List ℚ)) (hist : ring_buffer)
    (hk : a.k.length = 7) (hk' : k'.length = 7) (hk0 : k'.getD 0 [] = a.k.getD 0 []) :
    ∃ P : List ℚ, P.length = a.n ∧
      dopri_step T (fun _ => g) { a with y1 := y1', k := k', history := hist } h
        = { dopri_step T (fun _ => g) a h with
            history := { hist with head := write hist.head (4 * a.n) P } } ∧
      (dopri_step T (fun _ => g) a h).history
        = { a.history with head := write a.history.head (4 * a.n) P } ∧
      (dopri_step T (fun _ => g) a h).k.length = 7 := by
  obtain ⟨a0, a1, a2, a3, a4, a5, a6, hA⟩ := length7 _ hk
  obtain ⟨b0, b1, b2, b3, b4, b5, b6, hB⟩ := length7 _ hk'
  subst hB
  cases a with
  | mk order n n_out n_times times times_idx n_tcrit tcrit tcrit_idx t0 t sign y0 y y1 k
      history_len history history_time_idx atol rtol step_factor_min step_factor_max
      step_size_max step_size_initial step_max_n step_beta step_factor_safe n_eval n_step
      n_accept n_reject error code =>
  simp only at hA
  subst hA
  simp only [List.getD_cons_zero] at hk0
  subst hk0
  refine ⟨_, ?_, rfl, rfl, rfl⟩
  exact vec_length _ _

theorem trial_comm (T : Tableau) (g : ℚ → List ℚ → List ℚ) (s : integrate_state)
    (y1' : List ℚ) (k' : List (List ℚ)) (hist : ring_buffer)
    (hk : s.obj.k.length = 7) (hk' : k'.length = 7) (hk0 : k'.getD 0 [] = s.obj.k.getD 0 []) :
    ∃ P : List ℚ, P.length = s.obj.n ∧
      dopri_integrate_trial T (fun _ => g)
          { s with obj := { s.obj with y1 := y1', k := k', history := hist } }
        = { dopri_integrate_trial T (fun _ => g) s with
            obj := { (dopri_integrate_trial T (fun _ => g) s).obj with
              history := { hist with head := write hist.head (4 * s.obj.n) P } } } ∧
      (dopri_integrate_trial T (fun _ => g) s).obj.history
        = { s.obj.history with head := write s.obj.history.head (4 * s.obj.n) P } ∧
      (dopri_integrate_trial T (fun _ => g) s).obj.k.length = 7 ∧
      (dopri_integrate_trial T (fun _ => g) s).obj.n = s.obj.n := by
  unfold dopri_integrate_trial
  simp only
  split_ifs with c1 c2
  · obtain ⟨P, hP, e1, e2, e3⟩ := step_comm T g { s.obj with n_step := s.obj.n_step + 1 }
      (s.t_end - s.obj.t) y1' k' hist hk hk' hk0
    exact ⟨P, hP, by rw [e1], e2, e3, rfl⟩
  · obtain ⟨P, hP, e1, e2, e3⟩ := step_comm T g { s.obj with n_step := s.obj.n_step + 1 }
      (s.t_stop - s.obj.t) y1' k' hist hk hk' hk0
    exact ⟨P, hP, by rw [e1], e2, e3, rfl⟩
  · obtain ⟨P, hP, e1, e2, e3⟩ := step_comm T g { s.obj with n_step := s.obj.n_step + 1 }
      s.h y1' k' hist hk hk' hk0
    exact ⟨P, hP, by rw [e1], e2, e3, rfl⟩

theorem emit_comm (og : ℚ → List ℚ → List ℚ) (fuel : Nat) (o : dopri_data)
    (hist : ring_buffer) (y_out out : List ℚ) (hh : hist.head = o.history.head) :
    emit_outputs (fun _ => og) fuel { o with history := hist } y_out out
      = ({ (emit_outputs (fun _ => og) fuel o y_out out).1 with history := hist },
         (emit_outputs (fun _ => og) fuel o y_out out).2.1,
         (emit_outputs (fun _ => og) fuel o y_out out).2.2) := by
  induction fuel generalizing o y_out out with
  | zero => rfl
  | succ fuel ih =>
    rw [emit_outputs, emit_outputs]
    simp only [hh]
    split
    · exact ih { o with times_idx := o.times_idx + 1 } _ _ hh
    · rfl

theorem accept_move_comm (a : integrate_state) (hist : ring_buffer) (err : ℚ)
    (ha : a.obj.history.head.length = 5 * a.obj.n + 2)
    (hb : hist.head.length = 5 * a.obj.n + 2)
    (h4 : ∀ j, 4 * a.obj.n ≤ j → j < 5 * a.obj.n →
      a.obj.history.head.getD j 0 = hist.head.getD j 0) :
    dopri_integrate_accept_move { a with obj := { a.obj with history := hist } } err
      = { dopri_integrate_accept_move a err with
          obj := { (dopri_integrate_accept_move a err).obj with
            history := { hist with
              head := (dopri_integrate_accept_move a err).obj.history.head } } } ∧
    (dopri_integrate_accept_move a err).obj.history.head.length = 5 * a.obj.n + 2 ∧
    (dopri_integrate_accept_move a err).obj.k.length = a.obj.k.length ∧
    (dopri_integrate_accept_move a err).obj.n = a.obj.n := by
  have e := record_eq a.obj.n a.obj.y a.obj.y1 (a.obj.k.getD 0 []) (a.obj.k.getD 1 [])
    a.obj.t a.h _ _ ha hb h4
  have l := record_length a.obj.n a.obj.y a.obj.y1 (a.obj.k.getD 0 []) (a.obj.k.getD 1 [])
    a.obj.t a.h _ ha
  refine ⟨?_, l, ?_, rfl⟩
  · simp only [dopri_integrate_accept_move, dopri_save_history, dopri_5.dopri5_save_history, e]
  · simp only [dopri_integrate_accept_move, dopri_save_history, dopri_5.dopri5_save_history,
      List.length_set]

theorem report_comm (og : ℚ → List ℚ → List ℚ) (m : integrate_state) (H : ring_buffer)
    (hH : H.head = m.obj.history.head) :
    dopri_integrate_accept_report (fun _ => og) { m with obj := { m.obj with history := H } }
      = { dopri_integrate_accept_report (fun _ => og) m with
          obj := { (dopri_integrate_accept_report (fun _ => og) m).obj with
            history := ring_buffer_head_advance H } } := by
  unfold dopri_integrate_accept_report
  simp only
  rw [emit_comm og _ m.obj H _ _ hH]

theorem report_frame (og : ℚ → List ℚ → List ℚ) (m : integrate_state) :
    (dopri_integrate_accept_report (fun _ => og) m).obj.history.head = m.obj.history.head ∧
    (dopri_integrate_accept_report (fun _ => og) m).obj.k = m.obj.k ∧
    (dopri_integrate_accept_report (fun _ => og) m).obj.n = m.obj.n := by
  unfold dopri_integrate_accept_report
  simp only
  rw [(emit_outputs_frame (fun _ => og) _ m.obj m.y_out m.out).1]
  exact ⟨rfl, rfl, rfl⟩

theorem tail_comm (s : integrate_state) (H : ring_buffer) (h_new : ℚ) :
    (dopri_integrate_accept_tail { s with obj := { s.obj with history := H } } h_new).is_brk
      = (dopri_integrate_accept_tail s h_new).is_brk ∧
    (dopri_integrate_accept_tail { s with obj := { s.obj with history := H } } h_new).state
      = { (dopri_integrate_accept_tail s h_new).state with
          obj := { (dopri_integrate_accept_tail s h_new).state.obj with history := H } } ∧
    (dopri_integrate_accept_tail s h_new).state.obj.history = s.obj.history ∧
    (dopri_integrate_accept_tail s h_new).state.obj.k = s.obj.k ∧
    (dopri_integrate_accept_tail s h_new).state.obj.n = s.obj.n := by
  unfold dopri_integrate_accept_tail
  simp only
  split_ifs <;> exact ⟨rfl, rfl, rfl, rfl, rfl⟩

theorem reject_comm (M : Libm) (s : integrate_state) (H : ring_buffer) (err : ℚ) :
    (dopri_integrate_reject M { s with obj := { s.obj with history := H } } err).is_brk
      = (dopri_integrate_reject M s err).is_brk ∧
    (dopri_integrate_reject M { s with obj := { s.obj with history := H } } err).state
      = { (dopri_integrate_reject M s err).state with
          obj := { (dopri_integrate_reject M s err).state.obj with history := H } } ∧
    (dopri_integrate_reject M s err).state.obj.history = s.obj.history ∧
    (dopri_integrate_reject M s err).state.obj.k = s.obj.k ∧
    (dopri_integrate_reject M s err).state.obj.n = s.obj.n := by
  unfold dopri_integrate_reject
  simp only
  split_ifs <;> exact ⟨rfl, rfl, rfl, rfl, rfl⟩

theorem accept_comm (og : ℚ → List ℚ → List ℚ) (a : integrate_state)
    (hist : ring_buffer) (err h_new : ℚ)
    (ha : a.obj.history.head.length = 5 * a.obj.n + 2)
    (hb : hist.head.length = 5 * a.obj.n + 2)
    (h4 : ∀ j, 4 * a.obj.n ≤ j → j < 5 * a.obj.n →
      a.obj.history.head.getD j 0 = hist.head.getD j 0) :
    ∃ H : ring_buffer,
      (dopri_integrate_accept (fun _ => og)
          { a with obj := { a.obj with history := hist } } err h_new).is_brk
        = (dopri_integrate_accept (fun _ => og) a err h_new).is_brk ∧
      (dopri_integrate_accept (fun _ => og)
          { a with obj := { a.obj with history := hist } } err h_new).state
        = { (dopri_integrate_accept (fun _ => og) a err h_new).state with
            obj := { (dopri_integrate_accept (fun _ => og) a err h_new).state.obj with
              history := H } } ∧
      H.head.length = 5 * a.obj.n + 2 ∧
      (dopri_integrate_accept (fun _ => og) a err h_new).state.obj.history.head.length
        = 5 * a.obj.n + 2 ∧
      (dopri_integrate_accept (fun _ => og) a err h_new).state.obj.k.length = a.obj.k.length ∧
      (dopri_integrate_accept (fun _ => og) a err h_new).state.obj.n = a.obj.n := by
  obtain ⟨m1, m2, m3, m4⟩ := accept_move_comm a hist err ha hb h4
  obtain ⟨r1, r2, r3⟩ := report_frame og (dopri_integrate_accept_move a err)
  obtain ⟨q1, q2, q3, q4, q5⟩ := tail_comm
    (dopri_integrate_accept_report (fun _ => og) (dopri_integrate_accept_move a err))
    (ring_buffer_head_advance { hist with
      head := (dopri_integrate_accept_move a err).obj.history.head }) h_new
  have e : dopri_integrate_accept (fun _ => og)
      { a with obj := { a.obj with history := hist } } err h_new
      = dopri_integrate_accept_tail
        { dopri_integrate_accept_report (fun _ => og) (dopri_integrate_accept_move a err) with
          obj := { (dopri_integrate_accept_report (fun _ => og)
              (dopri_integrate_accept_move a err)).obj with
            history := ring_buffer_head_advance { hist with
              head := (dopri_integrate_accept_move a err).obj.history.head } } } h_new := by
    exact congrArg (fun x => dopri_integrate_accept_tail x h_new)
      ((congrArg (dopri_integrate_accept_report (fun _ => og)) m1).trans
        (report_comm og (dopri_integrate_accept_move a err) _ rfl))
  refine ⟨ring_buffer_head_advance { hist with
      head := (dopri_integrate_accept_move a err).obj.history.head }, ?_, ?_, m2, ?_, ?_, ?_⟩
  · rw [e, q1]; rfl
  · rw [e, q2]; rfl
  · show (dopri_integrate_accept_tail _ h_new).state.obj.history.head.length = _
    rw [q3, r1, m2]
  · show (dopri_integrate_accept_tail _ h_new).state.obj.k.length = _
    rw [q4, r2, m3]
  · show (dopri_integrate_accept_tail _ h_new).state.obj.n = _
    rw [q5, r3, m4]

theorem body_guard1 (M : Libm) (T : Tableau) (target : deriv_func) (output : output_func)
    (s : integrate_state) (h1 : s.obj.n_step > s.obj.step_max_n) :
    dopri_integrate_body M T target output s
      = loop_ctl.brk { s with obj := { s.obj with error := true,
                                                  code := return_code.ERR_TOO_MANY_STEPS } } := by
  unfold dopri_integrate_body
  simp only
  rw [if_pos h1]

theorem body_guard2 (M : Libm) (T : Tableau) (target : deriv_func) (output : output_func)
    (s : integrate_state) (h1 : ¬ s.obj.n_step > s.obj.step_max_n)
    (h2 : 1 / 10 * fabs s.h ≤ fabs s.obj.t * (10 * DBL_EPSILON)) :
    dopri_integrate_body M T target output s
      = loop_ctl.brk { s with obj := { s.obj with error := true,
                                                  code := return_code.ERR_STEP_SIZE_TOO_SMALL } } := by
  unfold dopri_integrate_body
  simp only
  rw [if_neg h1, if_pos h2]

theorem body_accept (M : Libm) (T : Tableau) (target : deriv_func) (output : output_func)
    (s : integrate_state) (h1 : ¬ s.obj.n_step > s.obj.step_max_n)
    (h2 : ¬ 1 / 10 * fabs s.h ≤ fabs s.obj.t * (10 * DBL_EPSILON))
    (h3 : dopri_error M (dopri_integrate_trial T target s).obj ≤ 1) :
    dopri_integrate_body M T target output s
      = dopri_integrate_accept output (dopri_integrate_trial T target s)
          (dopri_error M (dopri_integrate_trial T target s).obj)
          (dopri_h_new M (dopri_integrate_trial T target s).obj
            (dopri_integrate_trial T target s).fac_old (dopri_integrate_trial T target s).h
            (dopri_error M (dopri_integrate_trial T target s).obj)) := by
  unfold dopri_integrate_body
  simp only
  rw [if_neg h1, if_neg h2, if_pos h3]

theorem body_reject (M : Libm) (T : Tableau) (target : deriv_func) (output : output_func)
    (s : integrate_state) (h1 : ¬ s.obj.n_step > s.obj.step_max_n)
    (h2 : ¬ 1 / 10 * fabs s.h ≤ fabs s.obj.t * (10 * DBL_EPSILON))
    (h3 : ¬ dopri_error M (dopri_integrate_trial T target s).obj ≤ 1) :
    dopri_integrate_body M T target output s
      = dopri_integrate_reject M (dopri_integrate_trial T target s)
          (dopri_error M (dopri_integrate_trial T target s).obj) := by
  unfold dopri_integrate_body
  simp only
  rw [if_neg h1, if_neg h2, if_neg h3]

theorem body_rel (M : Libm) (T : Tableau) (g og : ℚ → List ℚ → List ℚ)
    (s s' : integrate_state) (h : same_core s s') :
    (dopri_integrate_body M T (fun _ => g) (fun _ => og) s').is_brk
      = (dopri_integrate_body M T (fun _ => g) (fun _ => og) s).is_brk ∧
    same_core (dopri_integrate_body M T (fun _ => g) (fun _ => og) s).state
      (dopri_integrate_body M T (fun _ => g) (fun _ => og) s').state := by
  obtain ⟨y1', k', hist, hs', hk, hk', hk0, hh, hh'⟩ := h
  have e1 : s'.obj.n_step = s.obj.n_step := by rw [hs']
  have e2 : s'.obj.step_max_n = s.obj.step_max_n := by rw [hs']
  have e3 : s'.h = s.h := by rw [hs']
  have e4 : s'.obj.t = s.obj.t := by rw [hs']
  by_cases h1 : s.obj.n_step > s.obj.step_max_n
  · rw [body_guard1 M T _ _ s h1, body_guard1 M T _ _ s' (by rw [e1, e2]; exact h1)]
    refine ⟨rfl, y1', k', hist, ?_, hk, hk', hk0, hh, hh'⟩
    rw [hs']; rfl
  by_cases h2 : 1 / 10 * fabs s.h ≤ fabs s.obj.t * (10 * DBL_EPSILON)
  · rw [body_guard2 M T _ _ s h1 h2,
      body_guard2 M T _ _ s' (by rw [e1, e2]; exact h1) (by rw [e3, e4]; exact h2)]
    refine ⟨rfl, y1', k', hist, ?_, hk, hk', hk0, hh, hh'⟩
    rw [hs']; rfl
  obtain ⟨P, hP, t1, t2, t3, t4⟩ := trial_comm T g s y1' k' hist hk hk' hk0
  rw [← hs'] at t1
  have la : (dopri_integrate_trial T (fun _ => g) s).obj.history.head.length
      = 5 * (dopri_integrate_trial T (fun _ => g) s).obj.n + 2 := by
    rw [t2, t4]
    show (write _ _ _).length = _
    rw [write_length _ _ _ (by omega), hh]
  have lb : (write hist.head (4 * s.obj.n) P).length
      = 5 * (dopri_integrate_trial T (fun _ => g) s).obj.n + 2 := by
    rw [t4, write_length _ _ _ (by omega), hh']
  have l4 : ∀ j, 4 * (dopri_integrate_trial T (fun _ => g) s).obj.n ≤ j →
      j < 5 * (dopri_integrate_trial T (fun _ => g) s).obj.n →
      (dopri_integrate_trial T (fun _ => g) s).obj.history.head.getD j 0
        = (write hist.head (4 * s.obj.n) P).getD j 0 := by
    intro j j1 j2
    rw [t4] at j1 j2
    rw [t2]
    show (write _ _ _).getD j 0 = _
    rw [write_getD_mid _ _ _ _ _ (by omega) j1 (by omega),
      write_getD_mid _ _ _ _ _ (by omega) j1 (by omega)]
  have herr : dopri_error M (dopri_integrate_trial T (fun _ => g) s').obj
      = dopri_error M (dopri_integrate_trial T (fun _ => g) s).obj := by
    rw [t1]; rfl
  by_cases h3 : dopri_error M (dopri_integrate_trial T (fun _ => g) s).obj ≤ 1
  · obtain ⟨H, c1, c2, c3, c4, c5, c6⟩ := accept_comm og (dopri_integrate_trial T (fun _ => g) s)
      { hist with head := write hist.head (4 * s.obj.n) P }
      (dopri_error M (dopri_integrate_trial T (fun _ => g) s).obj)
      (dopri_h_new M (dopri_integrate_trial T (fun _ => g) s).obj
        (dopri_integrate_trial T (fun _ => g) s).fac_old (dopri_integrate_trial T (fun _ => g) s).h
        (dopri_error M (dopri_integrate_trial T (fun _ => g) s).obj)) la lb l4
    have eb : dopri_integrate_body M T (fun _ => g) (fun _ => og) s'
        = dopri_integrate_accept (fun _ => og)
          { dopri_integrate_trial T (fun _ => g) s with
            obj := { (dopri_integrate_trial T (fun _ => g) s).obj with
              history := { hist with head := write hist.head (4 * s.obj.n) P } } }
          (dopri_error M (dopri_integrate_trial T (fun _ => g) s).obj)
          (dopri_h_new M (dopri_integrate_trial T (fun _ => g) s).obj
            (dopri_integrate_trial T (fun _ => g) s).fac_old
            (dopri_integrate_trial T (fun _ => g) s).h
            (dopri_error M (dopri_integrate_trial T (fun _ => g) s).obj)) := by
      rw [body_accept M T _ _ s' (by rw [e1, e2]; exact h1) (by rw [e3, e4]; exact h2)
        (by rw [herr]; exact h3), t1]
      rfl
    rw [eb, body_accept M T _ _ s h1 h2 h3, c1, c2]
    refine ⟨rfl, _, _, H, rfl, ?_, ?_, rfl, ?_, ?_⟩
    · rw [c5, t3]
    · rw [c5, t3]
    · rw [c4, c6]
    · rw [c3, c6]
  · obtain ⟨c1, c2, c3, c4, c5⟩ := reject_comm M (dopri_integrate_trial T (fun _ => g) s)
      { hist with head := write hist.head (4 * s.obj.n) P }
      (dopri_error M (dopri_integrate_trial T (fun _ => g) s).obj)
    have eb : dopri_integrate_body M T (fun _ => g) (fun _ => og) s'
        = dopri_integrate_reject M
          { dopri_integrate_trial T (fun _ => g) s with
            obj := { (dopri_integrate_trial T (fun _ => g) s).obj with
              history := { hist with head := write hist.head (4 * s.obj.n) P } } }
          (dopri_error M (dopri_integrate_trial T (fun _ => g) s).obj) := by
      rw [body_reject M T _ _ s' (by rw [e1, e2]; exact h1) (by rw [e3, e4]; exact h2)
        (by rw [herr]; exact h3), t1]
      rfl
    rw [eb, body_reject M T _ _ s h1 h2 h3, c1, c2]
    refine ⟨rfl, _, _, { hist with head := write hist.head (4 * s.obj.n) P }, rfl,
      ?_, ?_, rfl, ?_, ?_⟩
    · rw [c4, t3]
    · rw [c4, t3]
    · rw [c3, c5]; exact la
    · rw [c5]; exact lb

end dopri

theorem while_true_rel {σ : Type} (body : σ → loop_ctl σ) (R : σ → σ → Prop)
    (hR : ∀ s s', R s s' → (body s').is_brk = (body s).is_brk ∧ R (body s).state (body s').state) :
    ∀ fuel s s' r, R s s' → while_true body fuel s = some r →
      ∃ r', while_true body fuel s' = some r' ∧ R r r' := by
  intro fuel
  induction fuel with
  | zero => intro s s' r _ h; simp [while_true] at h
  | succ fuel ih =>
    intro s s' r hss h
    obtain ⟨hb, hs⟩ := hR s s' hss
    rw [while_true] at h ⊢
    cases h1 : body s with
    | brk x =>
      rw [h1] at h hb hs
      cases h2 : body s' with
      | brk x' =>
        rw [h2] at hs
        simp only [Option.some.injEq] at h
        subst h
        exact ⟨x', rfl, hs⟩
      | cont x' => rw [h2] at hb; simp [loop_ctl.is_brk] at hb
    | cont x =>
      rw [h1] at h hb hs
      cases h2 : body s' with
      | brk x' => rw [h2] at hb; simp [loop_ctl.is_brk] at hb
      | cont x' =>
        rw [h2] at hs
        exact ih x x' r hs h

namespace dopri

theorem config_trial (T : Tableau) (target : deriv_func) (s : integrate_state) :
    config (dopri_integrate_trial T target s).obj = config s.obj := by
  unfold dopri_integrate_trial
  simp only
  split_ifs <;> rfl

theorem config_move (s : integrate_state) (err : ℚ) :
    config (dopri_integrate_accept_move s err).obj = config s.obj := rfl

theorem config_report (output : output_func) (s : integrate_state) :
    config (dopri_integrate_accept_report output s).obj = config s.obj := by
  unfold dopri_integrate_accept_report
  simp only
  rw [(emit_outputs_frame output _ s.obj s.y_out s.out).1]
  rfl

theorem config_tail (s : integrate_state) (h_new : ℚ) :
    config (dopri_integrate_accept_tail s h_new).state.obj = config s.obj := by
  unfold dopri_integrate_accept_tail
  simp only
  split_ifs <;> rfl

theorem config_accept (output : output_func) (s : integrate_state) (err h_new : ℚ) :
    config (dopri_integrate_accept output s err h_new).state.obj = config s.obj := by
  unfold dopri_integrate_accept
  rw [config_tail, config_report, config_move]

theorem config_reject (M : Libm) (s : integrate_state) (err : ℚ) :
    config (dopri_integrate_reject M s err).state.obj = config s.obj := by
  unfold dopri_integrate_reject
  simp only
  split_ifs <;> rfl

theorem config_body (M : Libm) (T : Tableau) (target : deriv_func) (output : output_func)
    (s : integrate_state) :
    config (dopri_integrate_body M T target output s).state.obj = config s.obj := by
  unfold dopri_integrate_body
  simp only
  split_ifs
  · rfl
  · rfl
  · rw [config_accept, config_trial]
  · rw [config_reject, config_trial]

theorem config_init (M : Libm) (target : deriv_func) (obj : dopri_data)
    (y times tcrit : List ℚ) :
    config (dopri_integrate_init M target obj y times tcrit).obj = config obj := by
  unfold dopri_integrate_init dopri_h_init
  simp only
  split_ifs <;> rfl

theorem h_init_comm (M : Libm) (g : ℚ → List ℚ → List ℚ) (o : dopri_data)
    (y1' : List ℚ) (k' : List (List ℚ)) (hist : ring_buffer)
    (hk : o.k.length = 7) (hk' : k'.length = 7) (hk0 : k'.getD 0 [] = o.k.getD 0 []) :
    ∃ K : List (List ℚ), K.length = 7 ∧
      K.getD 0 [] = (dopri_h_init M (fun _ => g) o).2.k.getD 0 [] ∧
      dopri_h_init M (fun _ => g) { o with y1 := y1', k := k', history := hist }
        = ((dopri_h_init M (fun _ => g) o).1,
           { (dopri_h_init M (fun _ => g) o).2 with y1 := y1', k := K, history := hist }) ∧
      (dopri_h_init M (fun _ => g) o).2.k.length = 7 ∧
      (dopri_h_init M (fun _ => g) o).2.history = o.history ∧
      (dopri_h_init M (fun _ => g) o).2.n = o.n := by
  refine ⟨(dopri_h_init M (fun _ => g) { o with y1 := y1', k := k', history := hist }).2.k, ?_⟩
  obtain ⟨a0, a1, a2, a3, a4, a5, a6, hA⟩ := length7 _ hk
  obtain ⟨b0, b1, b2, b3, b4, b5, b6, hB⟩ := length7 _ hk'
  subst hB
  cases o with
  | mk order n n_out n_times times times_idx n_tcrit tcrit tcrit_idx t0 t sign y0 y y1 k
      history_len history history_time_idx atol rtol step_factor_min step_factor_max
      step_size_max step_size_initial step_max_n step_beta step_factor_safe n_eval n_step
      n_accept n_reject error code =>
  simp only at hA
  subst hA
  simp only [List.getD_cons_zero] at hk0
  subst hk0
  unfold dopri_h_init
  by_cases hp : step_size_initial > 0
  · simp only [hp, if_true]
    refine ⟨?_, ?_, ?_, ?_, ?_, ?_⟩ <;> first | rfl | trivial
  · simp only [hp, if_false]
    exact ⟨rfl, rfl, rfl, rfl, rfl, rfl⟩

theorem reset_comm (a b : dopri_data) (y times tcrit : List ℚ) (hc : config a = config b)
    (hs : a.step_size_initial = b.step_size_initial) :
    dopri_data_reset b y times tcrit
      = { dopri_data_reset a y times tcrit with y1 := b.y1, k := b.k, history := b.history } := by
  cases a
  cases b
  simp only [config, Prod.mk.injEq] at hc
  obtain ⟨c1, c2, c3, c4, c5, c6, c7, c8, c9, c10, c11, c12, c13⟩ := hc
  simp only at hs
  subst c1 c2 c3 c4 c5 c6 c7 c8 c9 c10 c11 c12 c13 hs
  rfl

theorem init_rel (M : Libm) (g : ℚ → List ℚ → List ℚ) (a b : dopri_data)
    (y times tcrit : List ℚ) (hc : config a = config b)
    (hs : a.step_size_initial = b.step_size_initial)
    (hka : a.k.length = 7) (hkb : b.k.length = 7)
    (hha : a.history.head.length = 5 * a.n + 2) (hhb : b.history.head.length = 5 * a.n + 2) :
    same_core (dopri_integrate_init M (fun _ => g) a y times tcrit)
      (dopri_integrate_init M (fun _ => g) b y times tcrit) := by
  have hr := reset_comm a b y times tcrit hc hs
  have hk0 : (b.k.set 0 (g (dopri_data_reset a y times tcrit).t
      (dopri_data_reset a y times tcrit).y)).getD 0 []
      = ((dopri_data_reset a y times tcrit).k.set 0
        (g (dopri_data_reset a y times tcrit).t (dopri_data_reset a y times tcrit).y)).getD 0 [] := by
    obtain ⟨a0, a1, a2, a3, a4, a5, a6, hA⟩ := length7 _ hka
    obtain ⟨b0, b1, b2, b3, b4, b5, b6, hB⟩ := length7 _ hkb
    have e : (dopri_data_reset a y times tcrit).k = a.k := rfl
    rw [e, hA, hB]
    rfl
  obtain ⟨K, K1, K2, K3, K4, K5, K6⟩ := h_init_comm M g
    { dopri_data_reset a y times tcrit with
      k := (dopri_data_reset a y times tcrit).k.set 0
        (g (dopri_data_reset a y times tcrit).t (dopri_data_reset a y times tcrit).y),
      n_eval := (dopri_data_reset a y times tcrit).n_eval + 1 }
    b.y1 (b.k.set 0 (g (dopri_data_reset a y times tcrit).t (dopri_data_reset a y times tcrit).y))
    b.history
    (by simp only [List.length_set]; exact hka)
    (by simp only [List.length_set]; exact hkb) hk0
  have eb : dopri_integrate_init M (fun _ => g) b y times tcrit
      = { dopri_integrate_init M (fun _ => g) a y times tcrit with
          obj := { (dopri_integrate_init M (fun _ => g) a y times tcrit).obj with
            y1 := b.y1, k := K, history := b.history } } := by
    unfold dopri_integrate_init
    simp only
    rw [hr]
    simp only
    rw [K3]
  refine ⟨b.y1, K, b.history, eb, K4, K1, K2, ?_, ?_⟩
  · show (dopri_h_init M (fun _ => g) _).2.history.head.length
      = 5 * (dopri_h_init M (fun _ => g) _).2.n + 2
    rw [K5, K6]
    exact hha
  · show _ = 5 * (dopri_h_init M (fun _ => g) _).2.n + 2
    rw [K6]
    exact hhb

theorem config_loop (M : Libm) (T : Tableau) (target : deriv_func) (output : output_func)
    (fuel : Nat) (s r : integrate_state)
    (hr : while_true (dopri_integrate_body M T target output) fuel s = some r) :
    config r.obj = config s.obj := by
  refine while_true_inv (dopri_integrate_body M T target output)
    (fun x => config x.obj = config s.obj) (fun x => config x.obj = config s.obj)
    ?_ ?_ fuel s r rfl hr
  · intro x x' hx hb
    have := config_body M T target output x
    rw [(body_cont M T target output x x' hb).1] at this
    rw [this, hx]
  · intro x x' hx hb
    have := config_body M T target output x
    rw [(body_brk M T target output x x' hb).1] at this
    rw [this, hx]

theorem dopri_integrate_eq (M : Libm) (T : Tableau) (target : deriv_func)
    (output : output_func) (obj : dopri_data) (y times tcrit : List ℚ) (r1 : integrate_state)
    (h1 : dopri_integrate M T target output obj y times tcrit = some r1) :
    ∃ r, while_true (dopri_integrate_body M T target output) (obj.step_max_n + 2)
        (dopri_integrate_init M target obj y times tcrit) = some r ∧
      r1 = { r with dde_global_obj := false } := by
  unfold dopri_integrate at h1
  cases hw : while_true (dopri_integrate_body M T target output) (obj.step_max_n + 2)
      (dopri_integrate_init M target obj y times tcrit) with
  | none => rw [hw] at h1; simp at h1
  | some r =>
    rw [hw] at h1
    simp only [Option.map_some', Option.some.injEq] at h1
    exact ⟨r, rfl, h1.symm⟩

end dopri

namespace dopri

theorem body_first_accepted (M : Libm) (T : Tableau) (target : deriv_func) (output : output_func)
    (s : integrate_state) (h : dopri_error M (dopri_integrate_trial T target s).obj ≤ 1) :
    ((dopri_integrate_body M T target output s).state.obj.n_step = s.obj.n_step ∧
      (dopri_integrate_body M T target output s).state.obj.n_accept = s.obj.n_accept ∧
      (dopri_integrate_body M T target output s).state.obj.n_reject = s.obj.n_reject) ∨
    ((dopri_integrate_body M T target output s).state.obj.n_step = s.obj.n_step + 1 ∧
      (dopri_integrate_body M T target output s).state.obj.n_accept = s.obj.n_accept + 1 ∧
      (dopri_integrate_body M T target output s).state.obj.n_reject = s.obj.n_reject) := by
  unfold dopri_integrate_body
  simp only
  by_cases h1 : s.obj.n_step > s.obj.step_max_n
  · rw [if_pos h1]
    simp [loop_ctl.state]
  rw [if_neg h1]
  by_cases h2 : 1 / 10 * fabs s.h ≤ fabs s.obj.t * (10 * DBL_EPSILON)
  · rw [if_pos h2]
    simp [loop_ctl.state]
  rw [if_neg h2, if_pos h]
  obtain ⟨t1, t2, t3, t4, t5, t6⟩ := trial_counters T target s
  obtain ⟨a1, a2, a3, a4, a5, a6, a7⟩ := accept_counters output (dopri_integrate_trial T target s)
    (dopri_error M (dopri_integrate_trial T target s).obj)
    (dopri_h_new M (dopri_integrate_trial T target s).obj (dopri_integrate_trial T target s).fac_old
      (dopri_integrate_trial T target s).h (dopri_error M (dopri_integrate_trial T target s).obj))
  rw [a1, a2, a3, t1, t2, t3]
  exact Or.inr ⟨rfl, rfl, rfl⟩

theorem counted_body (M : Libm) (T : Tableau) (target : deriv_func)
    (output : output_func) (s : integrate_state) (hI : counted s) :
    counted (dopri_integrate_body M T target output s).state := by
  obtain ⟨-, -, -, c4⟩ := body_counters M T target output s
  obtain ⟨h1, h2⟩ := hI
  unfold counted
  rcases c4 with ⟨-, e1, e2, e3, -⟩ | ⟨-, e1, e2, e3⟩ | ⟨-, -, e1, e2, e3, -⟩
  · rw [e1, e2, e3]; exact ⟨h1, h2⟩
  · rw [e1, e2, e3]; exact ⟨by omega, by omega⟩
  · rw [e1, e2]
    rcases e3 with ⟨e3, -⟩ | ⟨-, e0⟩
    · rw [e3]; exact ⟨h1, by omega⟩
    · omega

theorem counted_loop (M : Libm) (T : Tableau) (target : deriv_func)
    (output : output_func) (fuel : Nat) (s r : integrate_state)
    (hI : counted s)
    (hr : while_true (dopri_integrate_body M T target output) fuel s = some r) :
    counted r := by
  refine while_true_inv (dopri_integrate_body M T target output) counted counted
    ?_ ?_ fuel s r hI hr
  · intro s s' hI hb
    have := counted_body M T target output s hI
    rwa [(body_cont M T target output s s' hb).1] at this
  · intro s s' hI hb
    have := counted_body M T target output s hI
    rwa [(body_brk M T target output s s' hb).1] at this

theorem first_accepted_loop (M : Libm) (T : Tableau) (target : deriv_func)
    (output : output_func) (fuel : Nat) (s r : integrate_state)
    (h0 : s.obj.n_step = 0) (h1 : s.obj.n_accept = 0) (h2 : s.obj.n_reject = 0)
    (h : dopri_error M (dopri_integrate_trial T target s).obj ≤ 1)
    (hr : while_true (dopri_integrate_body M T target output) fuel s = some r) :
    r.obj.n_step = r.obj.n_accept + r.obj.n_reject := by
  cases fuel with
  | zero => simp [while_true] at hr
  | succ fuel =>
    rw [while_true] at hr
    have hf := body_first_accepted M T target output s h
    cases hbody : dopri_integrate_body M T target output s with
    | brk r' =>
      rw [hbody] at hr hf
      simp only [Option.some.injEq] at hr
      subst hr
      simp only [loop_ctl.state] at hf
      rcases hf with ⟨e1, e2, e3⟩ | ⟨e1, e2, e3⟩ <;> omega
    | cont s' =>
      rw [hbody] at hr hf
      simp only [loop_ctl.state] at hf
      have hb := body_cont M T target output s s' hbody
      obtain ⟨-, -, -, c4⟩ := body_counters M T target output s
      rw [hb.1, hb.2] at c4
      rcases hf with ⟨e1, e2, e3⟩ | ⟨e1, e2, e3⟩
      · rcases c4 with ⟨hf, -⟩ | ⟨-, e1', -⟩ | ⟨-, -, e1', -⟩
        · simp at hf
        · omega
        · omega
      · exact (counted_loop M T target output fuel s' r ⟨by omega, by omega⟩ hr).2

end dopri

namespace dopri5

theorem steps_inv_init (M : Libm) (target : deriv_func) (obj : dopri5_data)
    (y times : List ℚ) :
    steps_inv obj.step_max_n (dopri5_integrate_init M target obj y times) := by
  obtain ⟨i1, i2⟩ := legacy_init_counters M target obj y times
  exact ⟨i2, by rw [i1]; omega⟩

theorem steps_inv_loop (M : Libm) (T : Tableau) (target : deriv_func)
    (max : Nat) (fuel : Nat) (s r : integrate_state) (hI : steps_inv max s)
    (hr : while_true (dopri5_integrate_body M T target) fuel s = some r) :
    steps_inv max r := by
  refine while_true_inv (dopri5_integrate_body M T target) (steps_inv max) (steps_inv max)
    ?_ ?_ fuel s r hI hr
  · intro s s' hI hb
    have := steps_inv_body M T target max s hI
    rwa [(ctl_cont _ s' hb).1] at this
  · intro s s' hI hb
    have := steps_inv_body M T target max s hI
    rwa [(ctl_brk _ s' hb).1] at this

theorem steps_inv_head (M : Libm) (T : Tableau) (target : deriv_func)
    (max : Nat) (k : Nat) (s r : integrate_state) (hI : steps_inv max s)
    (hr : loop_head (dopri5_integrate_body M T target) k s = some r) :
    steps_inv max r := by
  refine loop_head_inv (dopri5_integrate_body M T target) (steps_inv max) ?_ k s r hI hr
  intro s s' hI hb
  have := steps_inv_body M T target max s hI
  rwa [(ctl_cont _ s' hb).1] at this

end dopri5

/-! ## Lemmas on the status, the stages and the step size -/

theorem clamp_bracket (a b x : ℚ) (ha : 0 < a) (hab : a ≤ b) :
    1 / b ≤ fmax (1 / b) (fmin (1 / a) x) ∧ fmax (1 / b) (fmin (1 / a) x) ≤ 1 / a := by
  have hb : 0 < b := lt_of_lt_of_le ha hab
  have h1 : 1 / b ≤ 1 / a := one_div_le_one_div_of_le ha hab
  unfold fmax fmin
  exact ⟨le_max_left _ _, max_le h1 (min_le_left _ _)⟩

theorem ratio_bracket (a b fac h : ℚ) (ha : 0 < a) (hab : a ≤ b)
    (h1 : 1 / b ≤ fac) (h2 : fac ≤ 1 / a) :
    (0 < h → 0 < h / fac) ∧ (h < 0 → h / fac < 0) ∧ (h = 0 → h / fac = 0) ∧
    a * |h| ≤ |h / fac| ∧ |h / fac| ≤ b * |h| := by
  have hb : 0 < b := lt_of_lt_of_le ha hab
  have hf : 0 < fac := lt_of_lt_of_le (one_div_pos.mpr hb) h1
  have habs : |h / fac| = |h| / fac := by rw [abs_div, abs_of_pos hf]
  refine ⟨fun hh => div_pos hh hf, fun hh => div_neg_of_neg_of_pos hh hf,
    fun hh => by rw [hh, zero_div], ?_, ?_⟩
  · rw [habs, le_div_iff₀ hf]
    have : fac * a ≤ 1 := by
      have := mul_le_mul_of_nonneg_right h2 ha.le
      rwa [one_div, inv_mul_cancel₀ ha.ne'] at this
    calc a * |h| * fac = |h| * (fac * a) := by ring
      _ ≤ |h| * 1 := mul_le_mul_of_nonneg_left this (abs_nonneg h)
      _ = |h| := mul_one _
  · rw [habs, div_le_iff₀ hf]
    have : 1 ≤ b * fac := by
      have := mul_le_mul_of_nonneg_left h1 hb.le
      rwa [one_div, mul_inv_cancel₀ hb.ne'] at this
    calc |h| = |h| * 1 := (mul_one _).symm
      _ ≤ |h| * (b * fac) := mul_le_mul_of_nonneg_left this (abs_nonneg h)
      _ = b * |h| * fac := by ring

theorem while_true_exit {σ : Type} (body : σ → loop_ctl σ) :
    ∀ fuel s r, while_true body fuel s = some r →
      ∃ k s', loop_head body k s = some s' ∧ body s' = loop_ctl.brk r := by
  intro fuel
  induction fuel with
  | zero => intro s r h; simp [while_true] at h
  | succ fuel ih =>
    intro s r h
    rw [while_true] at h
    cases hbody : body s with
    | brk r' =>
      rw [hbody] at h
      simp only [Option.some.injEq] at h
      subst h
      exact ⟨0, s, rfl, hbody⟩
    | cont s1 =>
      rw [hbody] at h
      obtain ⟨k, s', h1, h2⟩ := ih s1 r h
      refine ⟨k + 1, s', ?_, h2⟩
      rw [loop_head, hbody]
      exact h1

theorem while_true_mono {σ : Type} (body : σ → loop_ctl σ) :
    ∀ fuel s r, while_true body fuel s = some r →
      ∀ fuel', fuel ≤ fuel' → while_true body fuel' s = some r := by
  intro fuel
  induction fuel with
  | zero => intro s r h; simp [while_true] at h
  | succ fuel ih =>
    intro s r h fuel' hle
    obtain ⟨m, rfl⟩ : ∃ m, fuel' = m + 1 := ⟨fuel' - 1, by omega⟩
    rw [while_true] at h ⊢
    cases hbody : body s with
    | brk r' => rw [hbody] at h; exact h
    | cont s1 =>
      rw [hbody] at h
      exact ih s1 r h m (by omega)

namespace dopri

theorem emit_outputs_flags (output : output_func) (fuel : Nat) (o : dopri_data)
    (y_out out : List ℚ) :
    (emit_outputs output fuel o y_out out).1.error = o.error ∧
    (emit_outputs output fuel o y_out out).1.n_eval = o.n_eval ∧
    (emit_outputs output fuel o y_out out).1.n = o.n := by
  rw [(emit_outputs_frame output fuel o y_out out).1]
  exact ⟨rfl, rfl, rfl⟩

theorem trial_flags (T : Tableau) (target : deriv_func) (s : integrate_state) :
    (dopri_integrate_trial T target s).obj.error = s.obj.error ∧
    (dopri_integrate_trial T target s).dde_global_obj = s.dde_global_obj ∧
    (dopri_integrate_trial T target s).obj.n_eval = s.obj.n_eval := by
  unfold dopri_integrate_trial
  simp only
  split_ifs <;> exact ⟨rfl, rfl, rfl⟩

theorem move_flags (s : integrate_state) (err : ℚ) :
    (dopri_integrate_accept_move s err).obj.error = s.obj.error ∧
    (dopri_integrate_accept_move s err).dde_global_obj = s.dde_global_obj ∧
    (dopri_integrate_accept_move s err).obj.n_eval = s.obj.n_eval :=
  ⟨rfl, rfl, rfl⟩

theorem report_flags (output : output_func) (s : integrate_state) :
    (dopri_integrate_accept_report output s).obj.error = s.obj.error ∧
    (dopri_integrate_accept_report output s).dde_global_obj = s.dde_global_obj ∧
    (dopri_integrate_accept_report output s).obj.n_eval = s.obj.n_eval := by
  obtain ⟨e1, e2, -⟩ := emit_outputs_flags output (s.obj.n_times - s.obj.times_idx) s.obj
    s.y_out s.out
  exact ⟨e1, rfl, e2⟩

theorem tail_flags (s : integrate_state) (h_new : ℚ) :
    (dopri_integrate_accept_tail s h_new).state.obj.error = s.obj.error ∧
    (dopri_integrate_accept_tail s h_new).state.dde_global_obj = s.dde_global_obj ∧
    (dopri_integrate_accept_tail s h_new).state.obj.n_eval = s.obj.n_eval := by
  unfold dopri_integrate_accept_tail
  simp only
  split_ifs <;> exact ⟨rfl, rfl, rfl⟩

theorem accept_flags (output : output_func) (s : integrate_state) (err h_new : ℚ) :
    (dopri_integrate_accept output s err h_new).state.obj.error = s.obj.error ∧
    (dopri_integrate_accept output s err h_new).state.dde_global_obj = s.dde_global_obj ∧
    (dopri_integrate_accept output s err h_new).state.obj.n_eval = s.obj.n_eval := by
  unfold dopri_integrate_accept
  obtain ⟨a1, a2, a3⟩ := tail_flags
    (dopri_integrate_accept_report output (dopri_integrate_accept_move s err)) h_new
  obtain ⟨b1, b2, b3⟩ := report_flags output (dopri_integrate_accept_move s err)
  obtain ⟨c1, c2, c3⟩ := move_flags s err
  exact ⟨a1.trans (b1.trans c1), a2.trans (b2.trans c2), a3.trans (b3.trans c3)⟩

theorem reject_flags (M : Libm) (s : integrate_state) (err : ℚ) :
    (dopri_integrate_reject M s err).state.obj.error = s.obj.error ∧
    (dopri_integrate_reject M s err).state.dde_global_obj = s.dde_global_obj ∧
    (dopri_integrate_reject M s err).state.obj.n_eval = s.obj.n_eval := by
  unfold dopri_integrate_reject
  simp only
  split_ifs <;> exact ⟨rfl, rfl, rfl⟩

/-- What one pass of the main loop does to the error flag, the static pointer and
the count of evaluations. -/
theorem body_flags (M : Libm) (T : Tableau) (target : deriv_func) (output : output_func)
    (s : integrate_state) :
    (dopri_integrate_body M T target output s).state.dde_global_obj = s.dde_global_obj ∧
    (dopri_integrate_body M T target output s).state.obj.n_eval = s.obj.n_eval ∧
    ((dopri_integrate_body M T target output s).is_brk = false →
      (dopri_integrate_body M T target output s).state.obj.error = s.obj.error) := by
  unfold dopri_integrate_body
  simp only
  split_ifs
  · exact ⟨rfl, rfl, fun h => by simp [loop_ctl.is_brk] at h⟩
  · exact ⟨rfl, rfl, fun h => by simp [loop_ctl.is_brk] at h⟩
  · obtain ⟨a1, a2, a3⟩ := accept_flags output (dopri_integrate_trial T target s)
      (dopri_error M (dopri_integrate_trial T target s).obj)
      (dopri_h_new M (dopri_integrate_trial T target s).obj
        (dopri_integrate_trial T target s).fac_old
        (dopri_integrate_trial T target s).h (dopri_error M (dopri_integrate_trial T target s).obj))
    obtain ⟨t1, t2, t3⟩ := trial_flags T target s
    exact ⟨a2.trans t2, a3.trans t3, fun _ => a1.trans t1⟩
  · obtain ⟨a1, a2, a3⟩ := reject_flags M (dopri_integrate_trial T target s)
      (dopri_error M (dopri_integrate_trial T target s).obj)
    obtain ⟨t1, t2, t3⟩ := trial_flags T target s
    exact ⟨a2.trans t2, a3.trans t3, fun _ => a1.trans t1⟩

/-- How a pass of the main loop that leaves the loop sets the code and the error
flag. -/
theorem body_exit (M : Libm) (T : Tableau) (target : deriv_func) (output : output_func)
    (s r : integrate_state) (h : dopri_integrate_body M T target output s = loop_ctl.brk r) :
    (s.obj.n_step > s.obj.step_max_n ∧ r.obj.code = return_code.ERR_TOO_MANY_STEPS ∧
      r.obj.error = true) ∨
    (¬ s.obj.n_step > s.obj.step_max_n ∧
      1 / 10 * fabs s.h ≤ fabs s.obj.t * (10 * DBL_EPSILON) ∧
      r.obj.code = return_code.ERR_STEP_SIZE_TOO_SMALL ∧ r.obj.error = true) ∨
    (¬ s.obj.n_step > s.obj.step_max_n ∧
      ¬ 1 / 10 * fabs s.h ≤ fabs s.obj.t * (10 * DBL_EPSILON) ∧
      r.obj.code = return_code.OK_COMPLETE ∧ r.obj.error = s.obj.error) := by
  have hs : (dopri_integrate_body M T target output s).state = r := by rw [h]; rfl
  have hb : (dopri_integrate_body M T target output s).is_brk = true := by rw [h]; rfl
  unfold dopri_integrate_body at hs hb
  simp only at hs hb
  by_cases h1 : s.obj.n_step > s.obj.step_max_n
  · rw [if_pos h1] at hs
    left
    rw [← hs]
    exact ⟨h1, rfl, rfl⟩
  rw [if_neg h1] at hs hb
  by_cases h2 : 1 / 10 * fabs s.h ≤ fabs s.obj.t * (10 * DBL_EPSILON)
  · rw [if_pos h2] at hs
    right; left
    rw [← hs]
    exact ⟨h1, h2, rfl, rfl⟩
  rw [if_neg h2] at hs hb
  right; right
  by_cases h3 : dopri_error M (dopri_integrate_trial T target s).obj ≤ 1
  · rw [if_pos h3] at hs hb
    obtain ⟨-, -, -, -, -, a6, -⟩ := accept_counters output (dopri_integrate_trial T target s)
      (dopri_error M (dopri_integrate_trial T target s).obj)
      (dopri_h_new M (dopri_integrate_trial T target s).obj
        (dopri_integrate_trial T target s).fac_old
        (dopri_integrate_trial T target s).h (dopri_error M (dopri_integrate_trial T target s).obj))
    obtain ⟨f1, -, -⟩ := accept_flags output (dopri_integrate_trial T target s)
      (dopri_error M (dopri_integrate_trial T target s).obj)
      (dopri_h_new M (dopri_integrate_trial T target s).obj
        (dopri_integrate_trial T target s).fac_old
        (dopri_integrate_trial T target s).h (dopri_error M (dopri_integrate_trial T target s).obj))
    have a := a6 hb
    rw [hs] at a f1
    exact ⟨h1, h2, a, f1.trans (trial_flags T target s).1⟩
  · rw [if_neg h3] at hb
    rw [(reject_counters M _ _).1] at hb
    simp at hb

/-- The status at the head of every pass of the main loop. -/
theorem head_status (M : Libm) (T : Tableau) (target : deriv_func) (output : output_func)
    (obj : dopri_data) (y times tcrit : List ℚ) (k : Nat) (s : integrate_state)
    (h : loop_head (dopri_integrate_body M T target output) k
      (dopri_integrate_init M target obj y times tcrit) = some s) :
    s.obj.code = return_code.NOT_SET ∧ s.obj.error = false ∧ s.dde_global_obj = true ∧
    1 ≤ s.obj.n_eval := by
  refine loop_head_inv (dopri_integrate_body M T target output)
    (fun s => s.obj.code = return_code.NOT_SET ∧ s.obj.error = false ∧ s.dde_global_obj = true ∧
      1 ≤ s.obj.n_eval) ?_ k _ s ?_ h
  · intro x x' ⟨h1, h2, h3, h4⟩ hb
    obtain ⟨e1, e2⟩ := body_cont M T target output x x' hb
    obtain ⟨-, -, c3, -⟩ := body_counters M T target output x
    obtain ⟨f1, f2, f3⟩ := body_flags M T target output x
    rw [e1] at c3 f1 f2 f3
    exact ⟨(c3 e2).trans h1, (f3 e2).trans h2, f1.trans h3, by rw [f2]; exact h4⟩
  · unfold dopri_integrate_init dopri_h_init
    simp only
    split_ifs
    · refine ⟨?_, ?_, ?_, ?_⟩ <;> first | rfl | trivial
    · refine ⟨?_, ?_, ?_, ?_⟩ <;> first | rfl | trivial |
        exact le_trans (Nat.le_add_left 1 _) (Nat.le_succ _)

/-- The loop that reports output times leaves by its condition: the fuel
`n_times - times_idx` is never used up before the condition fails. -/
theorem emit_outputs_done (output : output_func) (fuel : Nat) (o : dopri_data)
    (y_out out : List ℚ) (hf : o.n_times - o.times_idx ≤ fuel) :
    ¬ ((emit_outputs output fuel o y_out out).1.times_idx
        < (emit_outputs output fuel o y_out out).1.n_times ∧
      (emit_outputs output fuel o y_out out).1.times.getD
        (emit_outputs output fuel o y_out out).1.times_idx 0
        ≤ (emit_outputs output fuel o y_out out).1.t) := by
  induction fuel generalizing o y_out out with
  | zero =>
    rw [emit_outputs]
    rintro ⟨h1, -⟩
    dsimp only at h1
    omega
  | succ fuel ih =>
    rw [emit_outputs]
    split
    · apply ih
      show o.n_times - (o.times_idx + 1) ≤ fuel
      omega
    · assumption

/-- The loop of `dopri_data_reset` that skips critical times leaves by its
condition. -/
theorem skip_tcrit_done (tcrit : List ℚ) (n_tcrit : Nat) (t0 : ℚ) (fuel idx : Nat)
    (hf : n_tcrit - idx ≤ fuel) :
    ¬ (tcrit.getD (skip_tcrit tcrit n_tcrit t0 fuel idx) 0 < t0 ∧
      skip_tcrit tcrit n_tcrit t0 fuel idx < n_tcrit) := by
  induction fuel generalizing idx with
  | zero =>
    rw [skip_tcrit]
    rintro ⟨-, h1⟩
    omega
  | succ fuel ih =>
    rw [skip_tcrit]
    split
    · apply ih
      omega
    · assumption

end dopri

theorem while_true_congr {σ : Type} (body body' : σ → loop_ctl σ) (I : σ → Prop)
    (hc : ∀ s s', I s → body s = loop_ctl.cont s' → I s')
    (he : ∀ s, I s → body' s = body s) :
    ∀ fuel s, I s → while_true body' fuel s = while_true body fuel s := by
  intro fuel
  induction fuel with
  | zero => intro s _; rfl
  | succ fuel ih =>
    intro s hI
    rw [while_true, while_true, he s hI]
    cases hbody : body s with
    | brk r => rfl
    | cont s1 => exact ih s1 (hc s s1 hI hbody)

namespace dopri

theorem step_handle (T : Tableau) (target : deriv_func) (o : dopri_data) (h : ℚ) (n : Nat)
    (hn : o.n = n) :
    dopri_step T (fun g => target { g with n := n }) o h = dopri_step T target o h := by
  subst hn
  rfl

theorem step_wrap (T : Tableau) (target : deriv_func) (s : integrate_state) (n : Nat)
    (hn : s.obj.n = n) :
    ({ s with obj := dopri_step T (fun g => target { g with n := n }) s.obj s.h } : integrate_state)
      = { s with obj := dopri_step T target s.obj s.h } := by
  rw [step_handle T target s.obj s.h n hn]

theorem trial_handle (T : Tableau) (target : deriv_func) (s : integrate_state) :
    dopri_integrate_trial T (fun g => target { g with n := s.obj.n }) s
      = dopri_integrate_trial T target s := by
  unfold dopri_integrate_trial
  simp only
  split_ifs
  · exact step_wrap T target
      { s with h_save := s.h, h := s.t_end - s.obj.t, last := true,
               obj := { s.obj with n_step := s.obj.n_step + 1 } } s.obj.n rfl
  · exact step_wrap T target
      { s with h := s.t_stop - s.obj.t, stop := true,
               obj := { s.obj with n_step := s.obj.n_step + 1 } } s.obj.n rfl
  · exact step_wrap T target
      { s with obj := { s.obj with n_step := s.obj.n_step + 1 } } s.obj.n rfl

theorem body_handle (M : Libm) (T : Tableau) (target : deriv_func) (output : output_func)
    (s : integrate_state) :
    dopri_integrate_body M T (fun g => target { g with n := s.obj.n }) output s
      = dopri_integrate_body M T target output s := by
  unfold dopri_integrate_body
  rw [trial_handle]

theorem init_handle (M : Libm) (target : deriv_func) (obj : dopri_data)
    (y times tcrit : List ℚ) :
    dopri_integrate_init M (fun g => target { g with n := obj.n }) obj y times tcrit
      = dopri_integrate_init M target obj y times tcrit := by
  unfold dopri_integrate_init dopri_h_init
  simp only
  split_ifs <;> rfl

theorem body_n (M : Libm) (T : Tableau) (target : deriv_func) (output : output_func)
    (s : integrate_state) :
    (dopri_integrate_body M T target output s).state.obj.n = s.obj.n :=
  congrArg (fun c => c.2.1) (config_body M T target output s)

theorem init_n (M : Libm) (target : deriv_func) (obj : dopri_data)
    (y times tcrit : List ℚ) :
    (dopri_integrate_init M target obj y times tcrit).obj.n = obj.n :=
  congrArg (fun c => c.2.1) (config_init M target obj y times tcrit)

theorem integrate_handle (M : Libm) (T : Tableau) (target : deriv_func) (output : output_func)
    (obj : dopri_data) (y times tcrit : List ℚ) :
    dopri_integrate M T (fun g => target { g with n := obj.n }) output obj y times tcrit
      = dopri_integrate M T target output obj y times tcrit := by
  unfold dopri_integrate
  rw [init_handle]
  rw [while_true_congr (dopri_integrate_body M T target output)
    (dopri_integrate_body M T (fun g => target { g with n := obj.n }) output)
    (fun s => s.obj.n = obj.n) ?_ ?_ _ _ (init_n M target obj y times tcrit)]
  · intro s s' hI hb
    have := body_n M T target output s
    rw [(body_cont M T target output s s' hb).1] at this
    rw [this, hI]
  · intro s hI
    rw [← hI]
    exact body_handle M T target output s

/-- What a trial step of the kernel leaves in the stage arrays, for a derivative
function of `(t, y)` alone. -/
theorem step_fsal (T : Tableau) (g : ℚ → List ℚ → List ℚ) (o : dopri_data) (h : ℚ)
    (hk : o.k.length = 7) :
    (dopri_step T (fun _ => g) o h).k.getD 1 [] = g (o.t + h) (dopri_step T (fun _ => g) o h).y1 ∧
    (dopri_step T (fun _ => g) o h).k.getD 0 [] = o.k.getD 0 [] ∧
    (dopri_step T (fun _ => g) o h).y = o.y ∧
    (dopri_step T (fun _ => g) o h).t = o.t ∧
    (dopri_step T (fun _ => g) o h).n = o.n ∧
    (dopri_step T (fun _ => g) o h).k.length = 7 ∧
    (dopri_step T (fun _ => g) o h).y1.length = o.n := by
  obtain ⟨a0, a1, a2, a3, a4, a5, a6, hA⟩ := length7 _ hk
  cases o with
  | mk order n n_out n_times times times_idx n_tcrit tcrit tcrit_idx t0 t sign y0 y y1 k
      history_len history history_time_idx atol rtol step_factor_min step_factor_max
      step_size_max step_size_initial step_max_n step_beta step_factor_safe n_eval n_step
      n_accept n_reject error code =>
  simp only at hA
  subst hA
  refine ⟨rfl, rfl, rfl, rfl, rfl, rfl, ?_⟩
  exact vec_length _ _

theorem trial_fsal (T : Tableau) (g : ℚ → List ℚ → List ℚ) (s : integrate_state)
    (hk : s.obj.k.length = 7) :
    (dopri_integrate_trial T (fun _ => g) s).obj.k.getD 1 []
      = g (s.obj.t + (dopri_integrate_trial T (fun _ => g) s).h)
          (dopri_integrate_trial T (fun _ => g) s).obj.y1 ∧
    (dopri_integrate_trial T (fun _ => g) s).obj.k.getD 0 [] = s.obj.k.getD 0 [] ∧
    (dopri_integrate_trial T (fun _ => g) s).obj.y = s.obj.y ∧
    (dopri_integrate_trial T (fun _ => g) s).obj.t = s.obj.t ∧
    (dopri_integrate_trial T (fun _ => g) s).obj.n = s.obj.n ∧
    (dopri_integrate_trial T (fun _ => g) s).obj.k.length = 7 ∧
    (dopri_integrate_trial T (fun _ => g) s).obj.y1.length = s.obj.n := by
  unfold dopri_integrate_trial
  simp only
  split_ifs
  · exact step_fsal T g { s.obj with n_step := s.obj.n_step + 1 } (s.t_end - s.obj.t) hk
  · exact step_fsal T g { s.obj with n_step := s.obj.n_step + 1 } (s.t_stop - s.obj.t) hk
  · exact step_fsal T g { s.obj with n_step := s.obj.n_step + 1 } s.h hk

theorem emit_outputs_core (output : output_func) (fuel : Nat) (o : dopri_data)
    (y_out out : List ℚ) :
    (emit_outputs output fuel o y_out out).1.k = o.k ∧
    (emit_outputs output fuel o y_out out).1.y = o.y ∧
    (emit_outputs output fuel o y_out out).1.t = o.t ∧
    (emit_outputs output fuel o y_out out).1.n = o.n := by
  rw [(emit_outputs_frame output fuel o y_out out).1]
  exact ⟨rfl, rfl, rfl, rfl⟩

theorem report_core (output : output_func) (s : integrate_state) :
    (dopri_integrate_accept_report output s).obj.k = s.obj.k ∧
    (dopri_integrate_accept_report output s).obj.y = s.obj.y ∧
    (dopri_integrate_accept_report output s).obj.t = s.obj.t ∧
    (dopri_integrate_accept_report output s).obj.n = s.obj.n :=
  emit_outputs_core output (s.obj.n_times - s.obj.times_idx) s.obj s.y_out s.out

theorem tail_core (s : integrate_state) (h_new : ℚ) :
    (dopri_integrate_accept_tail s h_new).state.obj.k = s.obj.k ∧
    (dopri_integrate_accept_tail s h_new).state.obj.y = s.obj.y ∧
    (dopri_integrate_accept_tail s h_new).state.obj.t = s.obj.t ∧
    (dopri_integrate_accept_tail s h_new).state.obj.n = s.obj.n := by
  unfold dopri_integrate_accept_tail
  simp only
  split_ifs <;> exact ⟨rfl, rfl, rfl, rfl⟩

theorem accept_core (output : output_func) (s : integrate_state) (err h_new : ℚ) :
    (dopri_integrate_accept output s err h_new).state.obj.k
      = s.obj.k.set 0 ((s.obj.k.getD 1 []).take s.obj.n) ∧
    (dopri_integrate_accept output s err h_new).state.obj.y = s.obj.y1.take s.obj.n ∧
    (dopri_integrate_accept output s err h_new).state.obj.t = s.obj.t + s.h ∧
    (dopri_integrate_accept output s err h_new).state.obj.n = s.obj.n := by
  unfold dopri_integrate_accept
  obtain ⟨a1, a2, a3, a4⟩ := tail_core
    (dopri_integrate_accept_report output (dopri_integrate_accept_move s err)) h_new
  obtain ⟨b1, b2, b3, b4⟩ := report_core output (dopri_integrate_accept_move s err)
  exact ⟨a1.trans b1, a2.trans b2, a3.trans b3, a4.trans b4⟩

theorem reject_core (M : Libm) (s : integrate_state) (err : ℚ) :
    (dopri_integrate_reject M s err).state.obj.k = s.obj.k ∧
    (dopri_integrate_reject M s err).state.obj.y = s.obj.y ∧
    (dopri_integrate_reject M s err).state.obj.t = s.obj.t ∧
    (dopri_integrate_reject M s err).state.obj.n = s.obj.n := by
  unfold dopri_integrate_reject
  simp only
  split_ifs <;> exact ⟨rfl, rfl, rfl, rfl⟩

theorem getD_set_zero (k : List (List ℚ)) (v : List ℚ) (hk : k.length = 7) :
    (k.set 0 v).getD 0 [] = v ∧ (k.set 0 v).length = 7 := by
  obtain ⟨a0, a1, a2, a3, a4, a5, a6, hA⟩ := length7 _ hk
  subst hA
  exact ⟨rfl, rfl⟩

/-- One pass of the main loop on a state in which `k[0]` holds the derivative at
`(t, y)`: an accepted step moves to `(t + h, y1)` with the derivative there in
`k[0]`, a rejected step leaves `k[0]`, `y` and `t` alone. -/
theorem body_fsal (M : Libm) (T : Tableau) (g : ℚ → List ℚ → List ℚ) (output : output_func)
    (s : integrate_state) (hk : s.obj.k.length = 7)
    (hg : ∀ t x, (g t x).length = s.obj.n)
    (h1 : ¬ s.obj.n_step > s.obj.step_max_n)
    (h2 : ¬ 1 / 10 * fabs s.h ≤ fabs s.obj.t * (10 * DBL_EPSILON)) :
    (dopri_integrate_body M T (fun _ => g) output s).state.obj.k.length = 7 ∧
    (dopri_integrate_body M T (fun _ => g) output s).state.obj.n = s.obj.n ∧
    (dopri_error M (dopri_integrate_trial T (fun _ => g) s).obj ≤ 1 →
      (dopri_integrate_body M T (fun _ => g) output s).state.obj.t
        = s.obj.t + (dopri_integrate_trial T (fun _ => g) s).h ∧
      (dopri_integrate_body M T (fun _ => g) output s).state.obj.y
        = (dopri_integrate_trial T (fun _ => g) s).obj.y1 ∧
      (dopri_integrate_body M T (fun _ => g) output s).state.obj.k.getD 0 []
        = g (dopri_integrate_body M T (fun _ => g) output s).state.obj.t
            (dopri_integrate_body M T (fun _ => g) output s).state.obj.y) ∧
    (¬ dopri_error M (dopri_integrate_trial T (fun _ => g) s).obj ≤ 1 →
      (dopri_integrate_body M T (fun _ => g) output s).is_brk = false ∧
      (dopri_integrate_body M T (fun _ => g) output s).state.obj.k.getD 0 []
        = s.obj.k.getD 0 [] ∧
      (dopri_integrate_body M T (fun _ => g) output s).state.obj.y = s.obj.y ∧
      (dopri_integrate_body M T (fun _ => g) output s).state.obj.t = s.obj.t) := by
  obtain ⟨t1, t2, t3, t4, t5, t6, t7⟩ := trial_fsal T g s hk
  unfold dopri_integrate_body
  simp only
  rw [if_neg h1, if_neg h2]
  by_cases h3 : dopri_error M (dopri_integrate_trial T (fun _ => g) s).obj ≤ 1
  · rw [if_pos h3]
    obtain ⟨a1, a2, a3, a4⟩ := accept_core output (dopri_integrate_trial T (fun _ => g) s)
      (dopri_error M (dopri_integrate_trial T (fun _ => g) s).obj)
      (dopri_h_new M (dopri_integrate_trial T (fun _ => g) s).obj
        (dopri_integrate_trial T (fun _ => g) s).fac_old
        (dopri_integrate_trial T (fun _ => g) s).h
        (dopri_error M (dopri_integrate_trial T (fun _ => g) s).obj))
    obtain ⟨z1, z2⟩ := getD_set_zero (dopri_integrate_trial T (fun _ => g) s).obj.k
      (((dopri_integrate_trial T (fun _ => g) s).obj.k.getD 1 []).take
        (dopri_integrate_trial T (fun _ => g) s).obj.n) t6
    have hy : (dopri_integrate_trial T (fun _ => g) s).obj.y1.take
        (dopri_integrate_trial T (fun _ => g) s).obj.n
        = (dopri_integrate_trial T (fun _ => g) s).obj.y1 := by
      rw [t5]
      exact List.take_of_length_le (le_of_eq t7)
    rw [a1, a2, a3, a4, z1, z2, hy, t4]
    refine ⟨rfl, t5, fun _ => ⟨rfl, rfl, ?_⟩, fun h => absurd h3 h⟩
    rw [t1, t5]
    exact List.take_of_length_le (le_of_eq (hg _ _))
  · rw [if_neg h3]
    obtain ⟨r1, r2, r3, r4⟩ := reject_core M (dopri_integrate_trial T (fun _ => g) s)
      (dopri_error M (dopri_integrate_trial T (fun _ => g) s).obj)
    rw [r1, r2, r3, r4, (reject_counters M _ _).1]
    exact ⟨t6, t5, fun h => absurd h h3, fun _ => ⟨rfl, t2, t3, t4⟩⟩

theorem body_cont_guards (M : Libm) (T : Tableau) (target : deriv_func) (output : output_func)
    (s s' : integrate_state) (hb : dopri_integrate_body M T target output s = loop_ctl.cont s') :
    ¬ s.obj.n_step > s.obj.step_max_n ∧
    ¬ 1 / 10 * fabs s.h ≤ fabs s.obj.t * (10 * DBL_EPSILON) := by
  have hb' : (dopri_integrate_body M T target output s).is_brk = false := by rw [hb]; rfl
  unfold dopri_integrate_body at hb'
  simp only at hb'
  by_cases h1 : s.obj.n_step > s.obj.step_max_n
  · rw [if_pos h1] at hb'
    simp [loop_ctl.is_brk] at hb'
  rw [if_neg h1] at hb'
  by_cases h2 : 1 / 10 * fabs s.h ≤ fabs s.obj.t * (10 * DBL_EPSILON)
  · rw [if_pos h2] at hb'
    simp [loop_ctl.is_brk] at hb'
  exact ⟨h1, h2⟩

theorem init_fsal (M : Libm) (g : ℚ → List ℚ → List ℚ) (obj : dopri_data)
    (y times tcrit : List ℚ) (hk : obj.k.length = 7) :
    (dopri_integrate_init M (fun _ => g) obj y times tcrit).obj.k.getD 0 []
      = g (times.getD 0 0) (y.take obj.n) ∧
    (dopri_integrate_init M (fun _ => g) obj y times tcrit).obj.t = times.getD 0 0 ∧
    (dopri_integrate_init M (fun _ => g) obj y times tcrit).obj.y = y.take obj.n ∧
    (dopri_integrate_init M (fun _ => g) obj y times tcrit).obj.k.length = 7 ∧
    (dopri_integrate_init M (fun _ => g) obj y times tcrit).obj.n = obj.n := by
  obtain ⟨a0, a1, a2, a3, a4, a5, a6, hA⟩ := length7 _ hk
  cases obj with
  | mk order n n_out n_times times' times_idx n_tcrit tcrit' tcrit_idx t0 t sign y0 y' y1 k
      history_len history history_time_idx atol rtol step_factor_min step_factor_max
      step_size_max step_size_initial step_max_n step_beta step_factor_safe n_eval n_step
      n_accept n_reject error code =>
  simp only at hA
  subst hA
  unfold dopri_integrate_init dopri_h_init
  simp only
  split_ifs <;> exact ⟨rfl, rfl, rfl, rfl, rfl⟩

/-- At the head of every pass of the main loop `k[0]` holds the derivative at
`(t, y)`. -/
theorem head_fsal (M : Libm) (T : Tableau) (g : ℚ → List ℚ → List ℚ) (output : output_func)
    (obj : dopri_data) (y times tcrit : List ℚ) (hk : obj.k.length = 7)
    (hg : ∀ t x, (g t x).length = obj.n) (k : Nat) (s : integrate_state)
    (h : loop_head (dopri_integrate_body M T (fun _ => g) output) k
      (dopri_integrate_init M (fun _ => g) obj y times tcrit) = some s) :
    s.obj.k.length = 7 ∧ s.obj.n = obj.n ∧ s.obj.k.getD 0 [] = g s.obj.t s.obj.y := by
  obtain ⟨i1, i2, i3, i4, i5⟩ := init_fsal M g obj y times tcrit hk
  refine loop_head_inv (dopri_integrate_body M T (fun _ => g) output)
    (fun s => s.obj.k.length = 7 ∧ s.obj.n = obj.n ∧ s.obj.k.getD 0 [] = g s.obj.t s.obj.y)
    ?_ k _ s ⟨i4, i5, by rw [i1, i2, i3]⟩ h
  intro x x' ⟨x1, x2, x3⟩ hb
  obtain ⟨g1, g2⟩ := body_cont_guards M T _ output x x' hb
  obtain ⟨b1, b2, b3, b4⟩ := body_fsal M T g output x x1 (by rw [x2]; exact hg) g1 g2
  rw [(body_cont M T _ output x x' hb).1] at b1 b2 b3 b4
  refine ⟨b1, b2.trans x2, ?_⟩
  by_cases h3 : dopri_error M (dopri_integrate_trial T (fun _ => g) x).obj ≤ 1
  · exact (b3 h3).2.2
  · obtain ⟨-, c1, c2, c3⟩ := b4 h3
    rw [c1, c2, c3]
    exact x3

end dopri

namespace dopri5

theorem legacy_step_fsal (T : Tableau) (g : deriv_func) (o : dopri5_data) (h : ℚ) :
    (dopri5_step T g o h).k2 = g (o.t + h) (dopri5_step T g o h).y1 ∧
    (dopri5_step T g o h).k1 = o.k1 ∧
    (dopri5_step T g o h).y = o.y ∧
    (dopri5_step T g o h).t = o.t ∧
    (dopri5_step T g o h).n = o.n ∧
    (dopri5_step T g o h).y1.length = o.n :=
  ⟨rfl, rfl, rfl, rfl, rfl, vec_length _ _⟩

theorem legacy_trial_fsal (T : Tableau) (g : deriv_func) (s : integrate_state) :
    (dopri5_integrate_trial T g s).obj.k2
      = g (s.obj.t + (dopri5_integrate_trial T g s).h) (dopri5_integrate_trial T g s).obj.y1 ∧
    (dopri5_integrate_trial T g s).obj.k1 = s.obj.k1 ∧
    (dopri5_integrate_trial T g s).obj.y = s.obj.y ∧
    (dopri5_integrate_trial T g s).obj.t = s.obj.t ∧
    (dopri5_integrate_trial T g s).obj.n = s.obj.n ∧
    (dopri5_integrate_trial T g s).obj.y1.length = s.obj.n := by
  unfold dopri5_integrate_trial
  simp only
  split_ifs
  · exact legacy_step_fsal T g { s.obj with n_step := s.obj.n_step + 1 } (s.t_end - s.obj.t)
  · exact legacy_step_fsal T g { s.obj with n_step := s.obj.n_step + 1 } s.h

theorem legacy_emit_outputs_core (fuel : Nat) (o : dopri5_data) (y_out : List ℚ) :
    (emit_outputs fuel o y_out).1.k1 = o.k1 ∧
    (emit_outputs fuel o y_out).1.y = o.y ∧
    (emit_outputs fuel o y_out).1.t = o.t ∧
    (emit_outputs fuel o y_out).1.n = o.n := by
  rw [legacy_emit_outputs_frame fuel o y_out]
  exact ⟨rfl, rfl, rfl, rfl⟩

theorem legacy_accept_core (s : integrate_state) (err h_new : ℚ) :
    (dopri5_integrate_accept s err h_new).state.obj.k1 = s.obj.k2.take s.obj.n ∧
    (dopri5_integrate_accept s err h_new).state.obj.y = s.obj.y1.take s.obj.n ∧
    (dopri5_integrate_accept s err h_new).state.obj.t = s.obj.t + s.h ∧
    (dopri5_integrate_accept s err h_new).state.obj.n = s.obj.n := by
  have e := legacy_emit_outputs_core
  unfold dopri5_integrate_accept
  simp only
  split_ifs <;> simp only [loop_ctl.state, e, save_history, and_self]

theorem legacy_reject_core (M : Libm) (s : integrate_state) (err : ℚ) :
    (dopri5_integrate_reject M s err).is_brk = false ∧
    (dopri5_integrate_reject M s err).state.obj.k1 = s.obj.k1 ∧
    (dopri5_integrate_reject M s err).state.obj.y = s.obj.y ∧
    (dopri5_integrate_reject M s err).state.obj.t = s.obj.t ∧
    (dopri5_integrate_reject M s err).state.obj.n = s.obj.n := by
  unfold dopri5_integrate_reject
  simp only
  split_ifs <;> exact ⟨rfl, rfl, rfl, rfl, rfl⟩

theorem legacy_body_fsal (M : Libm) (T : Tableau) (g : deriv_func) (s : integrate_state)
    (hg : ∀ t x, (g t x).length = s.obj.n)
    (h1 : ¬ s.obj.n_step > s.obj.step_max_n)
    (h2 : ¬ 1 / 10 * fabs s.h ≤ fabs s.obj.t * (10 * DBL_EPSILON)) :
    (dopri5_integrate_body M T g s).state.obj.n = s.obj.n ∧
    (dopri5_error M (dopri5_integrate_trial T g s).obj ≤ 1 →
      (dopri5_integrate_body M T g s).state.obj.t = s.obj.t + (dopri5_integrate_trial T g s).h ∧
      (dopri5_integrate_body M T g s).state.obj.y = (dopri5_integrate_trial T g s).obj.y1 ∧
      (dopri5_integrate_body M T g s).state.obj.k1
        = g (dopri5_integrate_body M T g s).state.obj.t
            (dopri5_integrate_body M T g s).state.obj.y) ∧
    (¬ dopri5_error M (dopri5_integrate_trial T g s).obj ≤ 1 →
      (dopri5_integrate_body M T g s).is_brk = false ∧
      (dopri5_integrate_body M T g s).state.obj.k1 = s.obj.k1 ∧
      (dopri5_integrate_body M T g s).state.obj.y = s.obj.y ∧
      (dopri5_integrate_body M T g s).state.obj.t = s.obj.t) := by
  obtain ⟨t1, t2, t3, t4, t5, t7⟩ := legacy_trial_fsal T g s
  unfold dopri5_integrate_body
  simp only
  rw [if_neg h1, if_neg h2]
  by_cases h3 : dopri5_error M (dopri5_integrate_trial T g s).obj ≤ 1
  · rw [if_pos h3]
    obtain ⟨a1, a2, a3, a4⟩ := legacy_accept_core (dopri5_integrate_trial T g s)
      (dopri5_error M (dopri5_integrate_trial T g s).obj)
      (dopri5_h_new M (dopri5_integrate_trial T g s).obj (dopri5_integrate_trial T g s).fac_old
        (dopri5_integrate_trial T g s).h (dopri5_error M (dopri5_integrate_trial T g s).obj))
    have hy : (dopri5_integrate_trial T g s).obj.y1.take (dopri5_integrate_trial T g s).obj.n
        = (dopri5_integrate_trial T g s).obj.y1 := by
      rw [t5]
      exact List.take_of_length_le (le_of_eq t7)
    rw [a1, a2, a3, a4, hy, t4]
    refine ⟨t5, fun _ => ⟨rfl, rfl, ?_⟩, fun h => absurd h3 h⟩
    rw [t1, t5]
    exact List.take_of_length_le (le_of_eq (hg _ _))
  · rw [if_neg h3]
    obtain ⟨r0, r1, r2, r3, r4⟩ := legacy_reject_core M (dopri5_integrate_trial T g s)
      (dopri5_error M (dopri5_integrate_trial T g s).obj)
    rw [r0, r1, r2, r3, r4]
    exact ⟨t5, fun h => absurd h h3, fun _ => ⟨rfl, t2, t3, t4⟩⟩

theorem legacy_body_cont_guards (M : Libm) (T : Tableau) (target : deriv_func)
    (s s' : integrate_state) (hb : dopri5_integrate_body M T target s = loop_ctl.cont s') :
    ¬ s.obj.n_step > s.obj.step_max_n ∧
    ¬ 1 / 10 * fabs s.h ≤ fabs s.obj.t * (10 * DBL_EPSILON) := by
  have hb' : (dopri5_integrate_body M T target s).is_brk = false := by rw [hb]; rfl
  unfold dopri5_integrate_body at hb'
  simp only at hb'
  by_cases h1 : s.obj.n_step > s.obj.step_max_n
  · rw [if_pos h1] at hb'
    simp [loop_ctl.is_brk] at hb'
  rw [if_neg h1] at hb'
  by_cases h2 : 1 / 10 * fabs s.h ≤ fabs s.obj.t * (10 * DBL_EPSILON)
  · rw [if_pos h2] at hb'
    simp [loop_ctl.is_brk] at hb'
  exact ⟨h1, h2⟩

theorem legacy_init_fsal (M : Libm) (g : deriv_func) (obj : dopri5_data) (y times : List ℚ) :
    (dopri5_integrate_init M g obj y times).obj.k1 = g (times.getD 0 0) (y.take obj.n) ∧
    (dopri5_integrate_init M g obj y times).obj.t = times.getD 0 0 ∧
    (dopri5_integrate_init M g obj y times).obj.y = y.take obj.n ∧
    (dopri5_integrate_init M g obj y times).obj.n = obj.n := by
  unfold dopri5_integrate_init dopri5_h_init
  simp only
  split_ifs <;> exact ⟨rfl, rfl, rfl, rfl⟩

theorem legacy_head_fsal (M : Libm) (T : Tableau) (g : deriv_func) (obj : dopri5_data)
    (y times : List ℚ) (hg : ∀ t x, (g t x).length = obj.n) (k : Nat) (s : integrate_state)
    (h : loop_head (dopri5_integrate_body M T g) k (dopri5_integrate_init M g obj y times)
      = some s) :
    s.obj.n = obj.n ∧ s.obj.k1 = g s.obj.t s.obj.y := by
  obtain ⟨i1, i2, i3, i5⟩ := legacy_init_fsal M g obj y times
  refine loop_head_inv (dopri5_integrate_body M T g)
    (fun s => s.obj.n = obj.n ∧ s.obj.k1 = g s.obj.t s.obj.y)
    ?_ k _ s ⟨i5, by rw [i1, i2, i3]⟩ h
  intro x x' ⟨x2, x3⟩ hb
  obtain ⟨g1, g2⟩ := legacy_body_cont_guards M T _ x x' hb
  obtain ⟨b2, b3, b4⟩ := legacy_body_fsal M T g x (by rw [x2]; exact hg) g1 g2
  rw [(ctl_cont _ x' hb).1] at b2 b3 b4
  refine ⟨b2.trans x2, ?_⟩
  by_cases h3 : dopri5_error M (dopri5_integrate_trial T g x).obj ≤ 1
  · exact (b3 h3).2.2
  · obtain ⟨-, c1, c2, c3⟩ := b4 h3
    rw [c1, c2, c3]
    exact x3

end dopri5

theorem fabs_copysign (x s : ℚ) : fabs (copysign x s) = fabs x := by
  unfold fabs copysign
  split_ifs
  · exact abs_abs x
  · rw [abs_neg, abs_abs]

theorem copysign_one (s : ℚ) : copysign 1 s = 1 ∨ copysign 1 s = -1 := by
  unfold copysign
  split_ifs
  · left; exact abs_one
  · right; rw [abs_one]

/-- The clamp of a step at a time `e` that lies ahead: the clamped step is shorter
than 1.01 times the step it replaces. -/
theorem clamp_shorter (t h e sign : ℚ) (hs : sign = 1 ∨ sign = -1)
    (hc : (t + 101 / 100 * h - e) * sign > 0) (ha : (e - t) * sign ≥ 0) :
    fabs (e - t) < 101 / 100 * fabs h := by
  unfold fabs
  rcases hs with rfl | rfl
  · have h1 : 0 ≤ e - t := by linarith
    rw [abs_of_nonneg h1]
    have := le_abs_self h
    linarith
  · have h1 : e - t ≤ 0 := by linarith
    rw [abs_of_nonpos h1]
    have := neg_abs_le h
    linarith

theorem nonneg_ite (c : Prop) [Decidable c] (a b : ℚ) (ha : 0 ≤ a) (hb : 0 ≤ b) :
    0 ≤ (if c then a else b) := by
  split_ifs <;> assumption

theorem ceiling_form (a b m s : ℚ) (ha : 0 ≤ a) (hb : 0 ≤ b) (hm : 0 < m) :
    fabs (copysign (fmin (fmin a b) m) s) ≤ m := by
  rw [fabs_copysign]
  unfold fabs fmin
  rw [abs_of_nonneg (le_min (le_min ha hb) hm.le)]
  exact min_le_right _ _

namespace dopri

theorem emit_outputs_sign (output : output_func) (fuel : Nat) (o : dopri_data)
    (y_out out : List ℚ) :
    (emit_outputs output fuel o y_out out).1.sign = o.sign := by
  rw [(emit_outputs_frame output fuel o y_out out).1]

theorem trial_sign (T : Tableau) (target : deriv_func) (s : integrate_state) :
    (dopri_integrate_trial T target s).obj.sign = s.obj.sign ∧
    (dopri_integrate_trial T target s).reject = s.reject := by
  unfold dopri_integrate_trial
  simp only
  split_ifs <;> exact ⟨rfl, rfl⟩

theorem report_locals (output : output_func) (s : integrate_state) :
    (dopri_integrate_accept_report output s).obj.sign = s.obj.sign ∧
    (dopri_integrate_accept_report output s).h = s.h ∧
    (dopri_integrate_accept_report output s).last = s.last ∧
    (dopri_integrate_accept_report output s).stop = s.stop ∧
    (dopri_integrate_accept_report output s).reject = s.reject :=
  ⟨emit_outputs_sign output _ s.obj s.y_out s.out, rfl, rfl, rfl, rfl⟩

theorem tail_sign (s : integrate_state) (h_new : ℚ) :
    (dopri_integrate_accept_tail s h_new).state.obj.sign = s.obj.sign := by
  unfold dopri_integrate_accept_tail
  simp only
  split_ifs <;> rfl

theorem reject_sign (M : Libm) (s : integrate_state) (err : ℚ) :
    (dopri_integrate_reject M s err).state.obj.sign = s.obj.sign := by
  unfold dopri_integrate_reject
  simp only
  split_ifs <;> rfl

theorem body_sign (M : Libm) (T : Tableau) (target : deriv_func) (output : output_func)
    (s : integrate_state) :
    (dopri_integrate_body M T target output s).state.obj.sign = s.obj.sign := by
  unfold dopri_integrate_body dopri_integrate_accept
  simp only
  split_ifs
  · rfl
  · rfl
  · rw [tail_sign, (report_locals output _).1]
    exact (trial_sign T target s).1
  · rw [reject_sign]
    exact (trial_sign T target s).1

theorem init_sign (M : Libm) (target : deriv_func) (obj : dopri_data)
    (y times tcrit : List ℚ) :
    (dopri_integrate_init M target obj y times tcrit).obj.sign
      = copysign 1 (times.getD 1 0 - times.getD 0 0) := by
  unfold dopri_integrate_init dopri_h_init
  simp only
  split_ifs <;> rfl

/-- The step size that the accepted branch leaves for the next pass, when the step
was neither the last nor stopped at a critical time, is at most `step_size_max`. -/
theorem tail_ceiling (s : integrate_state) (h_new : ℚ) (hmax : 0 ≤ s.obj.step_size_max)
    (hl : s.last = false) (hs : s.stop = false) :
    (dopri_integrate_accept_tail s h_new).is_brk = false ∧
    fabs (dopri_integrate_accept_tail s h_new).state.h ≤ s.obj.step_size_max := by
  have key : fabs (if fabs h_new ≥ s.obj.step_size_max
      then copysign s.obj.step_size_max s.obj.sign else h_new) ≤ s.obj.step_size_max := by
    split_ifs with c
    · rw [fabs_copysign]
      unfold fabs
      rw [abs_of_nonneg hmax]
    · exact le_of_lt (not_le.mp c)
  unfold dopri_integrate_accept_tail
  simp only
  rw [hl, hs]
  simp only [Bool.false_eq_true, if_false, loop_ctl.is_brk, loop_ctl.state, true_and]
  by_cases hr : s.reject = true
  · rw [if_pos hr, fabs_copysign]
    have h1 : fabs (fmin (fabs (if fabs h_new ≥ s.obj.step_size_max
        then copysign s.obj.step_size_max s.obj.sign else h_new)) (fabs s.h))
        = fmin (fabs (if fabs h_new ≥ s.obj.step_size_max
        then copysign s.obj.step_size_max s.obj.sign else h_new)) (fabs s.h) := by
      unfold fabs fmin
      exact abs_of_nonneg (le_min (abs_nonneg _) (abs_nonneg _))
    rw [h1]
    exact le_trans (min_le_left _ _) key
  · rw [if_neg hr]
    exact key

/-- The automatic initial step size is at most `step_size_max` when `pow` is not
negative. -/
theorem h_init_auto_ceiling (M : Libm) (target : deriv_func) (obj : dopri_data)
    (hmax : 0 < obj.step_size_max) (hpow : ∀ x e, 0 ≤ M.pow x e) :
    fabs (dopri_h_init_auto M target obj).1 ≤ obj.step_size_max := by
  unfold dopri_h_init_auto
  simp only
  refine ceiling_form _ _ _ _ (mul_nonneg (by norm_num) (abs_nonneg _)) ?_ hmax
  refine nonneg_ite _ _ _ ?_ (hpow _ _)
  exact le_trans (by norm_num) (le_max_left _ _)

end dopri

theorem root_pow_nonneg (x e : ℚ) : 0 ≤ root_pow x e := by
  unfold root_pow
  exact pow_nonneg (div_nonneg (Nat.cast_nonneg _) (Nat.cast_nonneg _)) _

theorem libm_roots_pow_nonneg (x e : ℚ) : 0 ≤ libm_roots.pow x e := by
  show 0 ≤ (if e = 0 then (1 : ℚ) else if x ≤ 0 then 0
    else if e < 0 then 1 / root_pow x (-e) else root_pow x e)
  split_ifs
  · exact zero_le_one
  · exact le_refl _
  · exact div_nonneg zero_le_one (root_pow_nonneg _ _)
  · exact root_pow_nonneg _ _

namespace dopri

theorem h_init_ceiling (M : Libm) (target : deriv_func) (obj : dopri_data)
    (hmax : 0 < obj.step_size_max) (hinit : obj.step_size_initial ≤ 0)
    (hpow : ∀ x e, 0 ≤ M.pow x e) :
    fabs (dopri_h_init M target obj).1 ≤ obj.step_size_max := by
  unfold dopri_h_init
  rw [if_neg (not_lt.mpr hinit)]
  exact h_init_auto_ceiling M target obj hmax hpow

theorem head_config (M : Libm) (T : Tableau) (target : deriv_func) (output : output_func)
    (obj : dopri_data) (y times tcrit : List ℚ) (k : Nat) (s : integrate_state)
    (h : loop_head (dopri_integrate_body M T target output) k
      (dopri_integrate_init M target obj y times tcrit) = some s) :
    config s.obj = config obj ∧ (s.obj.sign = 1 ∨ s.obj.sign = -1) := by
  refine loop_head_inv (dopri_integrate_body M T target output)
    (fun s => config s.obj = config obj ∧ (s.obj.sign = 1 ∨ s.obj.sign = -1)) ?_ k _ s ?_ h
  · intro x x' ⟨hx, hs⟩ hb
    have e := (body_cont M T target output x x' hb).1
    have c := config_body M T target output x
    have g := body_sign M T target output x
    rw [e] at c g
    exact ⟨c.trans hx, by rw [g]; exact hs⟩
  · refine ⟨config_init M target obj y times tcrit, ?_⟩
    rw [init_sign]
    exact copysign_one _

theorem tail_last (s : integrate_state) (h_new : ℚ) (hl : s.last = true) :
    (dopri_integrate_accept_tail s h_new).is_brk = true := by
  unfold dopri_integrate_accept_tail
  simp only
  rw [if_pos hl]
  rfl

theorem accept_ceiling (output : output_func) (s : integrate_state) (err h_new : ℚ)
    (hmax : 0 ≤ s.obj.step_size_max) (hs : s.stop = false)
    (hb : (dopri_integrate_accept output s err h_new).is_brk = false) :
    fabs (dopri_integrate_accept output s err h_new).state.h ≤ s.obj.step_size_max := by
  unfold dopri_integrate_accept at hb ⊢
  have hc : (dopri_integrate_accept_report output
      (dopri_integrate_accept_move s err)).obj.step_size_max = s.obj.step_size_max :=
    congrArg (fun c => c.2.2.2.2.2.2.2.2.2.2.1)
      ((config_report output (dopri_integrate_accept_move s err)).trans (config_move s err))
  have hl : (dopri_integrate_accept_report output (dopri_integrate_accept_move s err)).last
      = false := by
    cases hlast : (dopri_integrate_accept_report output (dopri_integrate_accept_move s err)).last
      with
    | false => rfl
    | true =>
      rw [tail_last _ h_new hlast] at hb
      cases hb
  have t := (tail_ceiling (dopri_integrate_accept_report output
    (dopri_integrate_accept_move s err)) h_new (by rw [hc]; exact hmax) hl hs).2
  rw [hc] at t
  exact t

/-- The step size that an accepted step leaves for the next pass. -/
theorem body_ceiling (M : Libm) (T : Tableau) (target : deriv_func) (output : output_func)
    (s s' : integrate_state) (hmax : 0 ≤ s.obj.step_size_max)
    (hb : dopri_integrate_body M T target output s = loop_ctl.cont s')
    (he : dopri_error M (dopri_integrate_trial T target s).obj ≤ 1)
    (hs : (dopri_integrate_trial T target s).stop = false) :
    fabs s'.h ≤ s.obj.step_size_max := by
  obtain ⟨g1, g2⟩ := body_cont_guards M T target output s s' hb
  obtain ⟨e1, e2⟩ := body_cont M T target output s s' hb
  have hm : (dopri_integrate_trial T target s).obj.step_size_max = s.obj.step_size_max :=
    congrArg (fun c => c.2.2.2.2.2.2.2.2.2.2.1) (config_trial T target s)
  have key : (dopri_integrate_body M T target output s).is_brk = false →
      fabs (dopri_integrate_body M T target output s).state.h ≤ s.obj.step_size_max := by
    unfold dopri_integrate_body
    simp only
    rw [if_neg g1, if_neg g2, if_pos he]
    intro hbrk
    have := accept_ceiling output (dopri_integrate_trial T target s) _ _
      (by rw [hm]; exact hmax) hs hbrk
    rw [hm] at this
    exact this
  have := key e2
  rw [e1] at this
  exact this

/-- The step size that a pass hands to the kernel: the step size at the head of
the pass, or the distance to the end or to the next critical time, which is
shorter than 1.01 times that step size when that time lies ahead. -/
theorem trial_clamp (T : Tableau) (target : deriv_func) (s : integrate_state)
    (hsign : s.obj.sign = 1 ∨ s.obj.sign = -1) :
    (dopri_integrate_trial T target s).h = s.h ∨
    ((dopri_integrate_trial T target s).h = s.t_end - s.obj.t ∧
      ((s.t_end - s.obj.t) * s.obj.sign ≥ 0 →
        fabs (dopri_integrate_trial T target s).h < 101 / 100 * fabs s.h)) ∨
    ((dopri_integrate_trial T target s).h = s.t_stop - s.obj.t ∧
      ((s.t_stop - s.obj.t) * s.obj.sign ≥ 0 →
        fabs (dopri_integrate_trial T target s).h < 101 / 100 * fabs s.h)) := by
  unfold dopri_integrate_trial
  simp only
  split_ifs with c1 c2
  · exact Or.inr (Or.inl ⟨rfl, fun ha => clamp_shorter _ _ _ _ hsign c1 ha⟩)
  · exact Or.inr (Or.inr ⟨rfl, fun ha => clamp_shorter _ _ _ _ hsign c2 ha⟩)
  · exact Or.inl rfl

end dopri

/-! ## Lemmas on the rejected pass, the dense output, the error norm and the history -/

namespace dopri

theorem skip_tcrit_reads_last (tcrit : List ℚ) (n_tcrit : Nat) (t0 : ℚ) (fuel idx : Nat)
    (hf : n_tcrit - idx ≤ fuel) :
    (skip_tcrit_reads tcrit n_tcrit t0 (fuel + 1) idx).getLast?
      = some (skip_tcrit tcrit n_tcrit t0 fuel idx) := by
  induction fuel generalizing idx with
  | zero =>
    rw [skip_tcrit_reads, skip_tcrit]
    have : ¬ (tcrit.getD idx 0 < t0 ∧ idx < n_tcrit) := by
      rintro ⟨-, h⟩
      omega
    rw [if_neg this]
    rfl
  | succ fuel ih =>
    rw [skip_tcrit_reads, skip_tcrit]
    split_ifs with c
    · rw [← ih (idx + 1) (by omega)]
      rw [skip_tcrit_reads]
      rfl
    · rfl

theorem skip_tcrit_reads_end (tcrit : List ℚ) (n_tcrit : Nat) (t0 : ℚ) (fuel idx : Nat)
    (hi : idx ≤ n_tcrit) (hf : n_tcrit - idx < fuel)
    (hall : ∀ i, idx ≤ i → i < n_tcrit → tcrit.getD i 0 < t0) :
    n_tcrit ∈ skip_tcrit_reads tcrit n_tcrit t0 fuel idx := by
  induction fuel generalizing idx with
  | zero => omega
  | succ fuel ih =>
    rw [skip_tcrit_reads]
    by_cases h : idx = n_tcrit
    · rw [h]
      exact List.mem_cons_self _ _
    · have hlt : idx < n_tcrit := lt_of_le_of_ne hi h
      rw [if_pos ⟨hall idx (le_refl _) hlt, hlt⟩]
      exact List.mem_cons_of_mem _ (ih (idx + 1) hlt (by omega)
        (fun i h1 h2 => hall i (by omega) h2))

end dopri

theorem shrink_bracket (a safe p h : ℚ) (ha : 0 < a) (ha1 : a < 1) (hs : 0 < safe)
    (hs1 : safe ≤ 1) (hp : 1 < p) (hh : h ≠ 0) :
    (0 < h → 0 < h / fmin (1 / a) (p / safe)) ∧
    (h < 0 → h / fmin (1 / a) (p / safe) < 0) ∧
    a * |h| ≤ |h / fmin (1 / a) (p / safe)| ∧
    |h / fmin (1 / a) (p / safe)| < |h| := by
  have h1 : 1 < 1 / a := by
    rw [lt_div_iff₀ ha]
    linarith
  have h2 : 1 < p / safe := by
    rw [lt_div_iff₀ hs]
    linarith
  have hd : 1 < fmin (1 / a) (p / safe) := lt_min h1 h2
  have hd0 : 0 < fmin (1 / a) (p / safe) := lt_trans zero_lt_one hd
  have hle : fmin (1 / a) (p / safe) ≤ 1 / a := min_le_left _ _
  have habs : |h / fmin (1 / a) (p / safe)| = |h| / fmin (1 / a) (p / safe) := by
    rw [abs_div, abs_of_pos hd0]
  have hpos : 0 < |h| := abs_pos.mpr hh
  refine ⟨fun h0 => div_pos h0 hd0, fun h0 => div_neg_of_neg_of_pos h0 hd0, ?_, ?_⟩
  · rw [habs, le_div_iff₀ hd0]
    have : fmin (1 / a) (p / safe) * a ≤ 1 := by
      have := mul_le_mul_of_nonneg_right hle ha.le
      rwa [div_mul_cancel₀ 1 ha.ne'] at this
    calc a * |h| * fmin (1 / a) (p / safe) = |h| * (fmin (1 / a) (p / safe) * a) := by ring
      _ ≤ |h| * 1 := mul_le_mul_of_nonneg_left this hpos.le
      _ = |h| := mul_one _
  · rw [habs, div_lt_iff₀ hd0]
    calc |h| = |h| * 1 := (mul_one _).symm
      _ < |h| * fmin (1 / a) (p / safe) := mul_lt_mul_of_pos_left hd hpos

namespace dopri

theorem reject_h (M : Libm) (s : integrate_state) (err : ℚ) :
    (dopri_integrate_reject M s err).state.h
      = s.h / fmin (1 / s.obj.step_factor_min)
          (M.pow err (2 / 10 - s.obj.step_beta * (75 / 100)) / s.obj.step_factor_safe) := by
  unfold dopri_integrate_reject
  simp only
  split_ifs <;> rfl

end dopri

namespace dopri5

theorem legacy_reject_h (M : Libm) (s : integrate_state) (err : ℚ) :
    (dopri5_integrate_reject M s err).state.h
      = s.h / fmin (1 / s.obj.step_factor_min)
          (M.pow err (2 / 10 - s.obj.step_beta * (75 / 100)) / s.obj.step_factor_safe) := by
  unfold dopri5_integrate_reject
  simp only
  split_ifs <;> rfl

end dopri5

theorem foldl_add_range (f : ℕ → ℚ) (n : ℕ) :
    (List.range n).foldl (fun acc i => acc + f i) 0 = Finset.sum (Finset.range n) f := by
  induction n with
  | zero => rfl
  | succ n ih => rw [List.range_succ, List.foldl_append, ih, Finset.sum_range_succ]; rfl

/-- The properties of a scaled root mean square, for a `sqrt` that is not negative,
vanishes only at 0 and is at most 1 on `[0, 1]`. -/
theorem rms_properties (M : Libm) (n : ℕ) (e s : ℕ → ℚ) (hn : 1 ≤ n)
    (hs : ∀ i, 0 < s i)
    (hs0 : ∀ x, 0 ≤ x → 0 ≤ M.sqrt x)
    (hs1 : ∀ x, 0 ≤ x → (M.sqrt x = 0 ↔ x = 0))
    (hs2 : ∀ x, 0 ≤ x → x ≤ 1 → M.sqrt x ≤ 1) :
    0 ≤ M.sqrt (Finset.sum (Finset.range n) (fun i => square (e i / s i)) / n) ∧
    (M.sqrt (Finset.sum (Finset.range n) (fun i => square (e i / s i)) / n) = 0 ↔
      ∀ i, i < n → e i = 0) ∧
    ((∀ i, i < n → |e i| ≤ s i) →
      M.sqrt (Finset.sum (Finset.range n) (fun i => square (e i / s i)) / n) ≤ 1) := by
  have hn0 : (0 : ℚ) < n := by exact_mod_cast hn
  have hterm : ∀ i ∈ Finset.range n, 0 ≤ (fun i => square (e i / s i)) i :=
    fun i _ => mul_self_nonneg _
  have hsum : 0 ≤ Finset.sum (Finset.range n) (fun i => square (e i / s i)) :=
    Finset.sum_nonneg hterm
  have hx : 0 ≤ Finset.sum (Finset.range n) (fun i => square (e i / s i)) / n :=
    div_nonneg hsum hn0.le
  refine ⟨hs0 _ hx, ?_, ?_⟩
  · rw [hs1 _ hx, div_eq_zero_iff, Finset.sum_eq_zero_iff_of_nonneg hterm]
    constructor
    · rintro (h | h) i hi
      · have := h i (Finset.mem_range.mpr hi)
        have h2 : e i / s i = 0 := mul_self_eq_zero.mp this
        rcases div_eq_zero_iff.mp h2 with h3 | h3
        · exact h3
        · exact absurd h3 (hs i).ne'
      · exact absurd h hn0.ne'
    · intro h
      left
      intro i hi
      show square (e i / s i) = 0
      rw [h i (Finset.mem_range.mp hi), zero_div]
      exact mul_zero 0
  · intro hb
    apply hs2 _ hx
    rw [div_le_one hn0]
    have : ∀ i ∈ Finset.range n, (fun i => square (e i / s i)) i ≤ 1 := by
      intro i hi
      have h1 : |e i / s i| ≤ 1 := by
        rw [abs_div, abs_of_pos (hs i), div_le_one (hs i)]
        exact hb i (Finset.mem_range.mp hi)
      have h2 := abs_le.mp h1
      show e i / s i * (e i / s i) ≤ 1
      nlinarith [h2.1, h2.2]
    calc Finset.sum (Finset.range n) (fun i => square (e i / s i))
        ≤ Finset.sum (Finset.range n) (fun _ => (1 : ℚ)) := Finset.sum_le_sum this
      _ = n := by simp

theorem scale_pos (atol rtol a b : ℚ) (ha : 0 < atol) (hr : 0 ≤ rtol) :
    atol ≤ atol + rtol * fmax (fabs a) (fabs b) ∧ 0 < atol + rtol * fmax (fabs a) (fabs b) := by
  have : 0 ≤ rtol * fmax (fabs a) (fabs b) :=
    mul_nonneg hr (le_trans (abs_nonneg a) (le_max_left _ _))
  exact ⟨by linarith, by linarith⟩

/-- The integer root computed by bisection: between `lo` and `hi`, the largest `r`
with `r ^ q ≤ a`. -/
theorem nat_root_bisect_spec (q a : ℕ) :
    ∀ fuel lo hi, hi - lo ≤ fuel + 1 → lo < hi → lo ^ q ≤ a → a < hi ^ q →
      (nat_root_bisect q a fuel lo hi) ^ q ≤ a ∧ a < (nat_root_bisect q a fuel lo hi + 1) ^ q := by
  intro fuel
  induction fuel with
  | zero =>
    intro lo hi hf hlt h1 h2
    rw [nat_root_bisect]
    refine ⟨h1, lt_of_lt_of_le h2 (Nat.pow_le_pow_left (by omega) q)⟩
  | succ fuel ih =>
    intro lo hi hf hlt h1 h2
    rw [nat_root_bisect]
    split_ifs with c1 c2
    · exact ⟨h1, lt_of_lt_of_le h2 (Nat.pow_le_pow_left c1 q)⟩
    · exact ih _ _ (by omega) (by omega) c2 h2
    · exact ih _ _ (by omega) (by omega) h1 (not_le.mp c2)

theorem nat_root_spec (q a : ℕ) (hq : 1 ≤ q) :
    (nat_root q a) ^ q ≤ a ∧ a < (nat_root q a + 1) ^ q := by
  unfold nat_root
  apply nat_root_bisect_spec q a (a + 2) 0 (a + 1) (by omega) (by omega)
  · rw [zero_pow (by omega)]
    exact Nat.zero_le _
  · calc a < a + 1 := Nat.lt_succ_self a
      _ = (a + 1) ^ 1 := (pow_one _).symm
      _ ≤ (a + 1) ^ q := Nat.pow_le_pow_right (by omega) hq

theorem nat_root_pos (q a : ℕ) (hq : 1 ≤ q) (ha : 1 ≤ a) : 1 ≤ nat_root q a := by
  by_contra h
  have h0 : nat_root q a = 0 := by omega
  have := (nat_root_spec q a hq).2
  rw [h0, zero_add, one_pow] at this
  omega

theorem nat_root_mono (q a b : ℕ) (hq : 1 ≤ q) (hab : a ≤ b) : nat_root q a ≤ nat_root q b := by
  by_contra h
  have h1 : nat_root q b + 1 ≤ nat_root q a := by omega
  have h2 := (nat_root_spec q a hq).1
  have h3 := (nat_root_spec q b hq).2
  have h4 := Nat.pow_le_pow_left h1 q
  omega

theorem libm_roots_sqrt_eq (x : ℚ) (hx : 0 < x) :
    libm_roots.sqrt x = (nat_root 2 x.num.toNat : ℚ) / (nat_root 2 x.den : ℚ) := by
  show (if x ≤ 0 then 0 else root_pow x (1 / 2)) = _
  rw [if_neg (not_le.mpr hx)]
  unfold root_pow
  have h1 : ((1 : ℚ) / 2).den = 2 := by decide!
  have h2 : ((1 : ℚ) / 2).num.toNat = 1 := by decide!
  rw [h1, h2, pow_one]

theorem libm_roots_sqrt (x : ℚ) (hx : 0 ≤ x) :
    0 ≤ libm_roots.sqrt x ∧ (libm_roots.sqrt x = 0 ↔ x = 0) ∧
    (x ≤ 1 → libm_roots.sqrt x ≤ 1) := by
  rcases eq_or_lt_of_le hx with h0 | hpos
  · subst h0
    have : libm_roots.sqrt 0 = 0 := by decide!
    rw [this]
    exact ⟨le_refl _, ⟨fun _ => rfl, fun _ => rfl⟩, fun _ => zero_le_one⟩
  · have hnum : 0 < x.num := Rat.num_pos.mpr hpos
    have hn1 : 1 ≤ x.num.toNat := by omega
    have hd1 : 1 ≤ x.den := x.den_pos
    have r1 := nat_root_pos 2 x.num.toNat (by norm_num) hn1
    have r2 := nat_root_pos 2 x.den (by norm_num) hd1
    have c1 : (0 : ℚ) < (nat_root 2 x.num.toNat : ℚ) := by exact_mod_cast r1
    have c2 : (0 : ℚ) < (nat_root 2 x.den : ℚ) := by exact_mod_cast r2
    rw [libm_roots_sqrt_eq x hpos]
    refine ⟨(div_pos c1 c2).le, ⟨fun h => absurd h (div_pos c1 c2).ne',
      fun h => absurd h hpos.ne'⟩, ?_⟩
    intro hle
    rw [div_le_one c2]
    have hnd : x.num.toNat ≤ x.den := by
      have h1 : x.num ≤ x.den := by
        have := Rat.num_div_den x
        have hd : (0 : ℚ) < (x.den : ℚ) := by exact_mod_cast x.den_pos
        rw [← this, div_le_one hd] at hle
        exact_mod_cast hle
      omega
    exact_mod_cast nat_root_mono 2 _ _ (by norm_num) hnd

/-- The derivative of the nested interpolation polynomial. -/
theorem hermite_poly (c0 c1 c2 c3 c4 x : ℚ) :
    HasDerivAt (fun θ : ℚ => c0 + θ * (c1 + (1 - θ) * (c2 + θ * (c3 + (1 - θ) * c4))))
      ((c1 + (1 - x) * (c2 + x * (c3 + (1 - x) * c4)))
        + x * (-(c2 + x * (c3 + (1 - x) * c4))
          + (1 - x) * ((c3 + (1 - x) * c4) + x * (-c4)))) x := by
  have hid : HasDerivAt (fun θ : ℚ => θ) 1 x := hasDerivAt_id x
  have h1 : HasDerivAt (fun θ : ℚ => 1 - θ) (-1) x := by
    simpa using hid.const_sub 1
  have h4 : HasDerivAt (fun θ : ℚ => c3 + (1 - θ) * c4) (-c4) x := by
    simpa using (h1.mul_const c4).const_add c3
  have h3 : HasDerivAt (fun θ : ℚ => c2 + θ * (c3 + (1 - θ) * c4))
      ((c3 + (1 - x) * c4) + x * (-c4)) x := by
    simpa using (hid.mul h4).const_add c2
  have h2 : HasDerivAt (fun θ : ℚ => c1 + (1 - θ) * (c2 + θ * (c3 + (1 - θ) * c4)))
      (-(c2 + x * (c3 + (1 - x) * c4)) + (1 - x) * ((c3 + (1 - x) * c4) + x * (-c4))) x := by
    simpa using (h1.mul h3).const_add c1
  simpa using (hid.mul h2).const_add c0

/-- The interpolation polynomial of a record with planes `y`, `ydiff`,
`h k1 - ydiff`, `-h k2 + ydiff - (h k1 - ydiff)` and any fifth plane: its
derivative in `θ` is `h k1` at 0 and `h k2` at 1, and, read as a function of the
time `t = t0 + θ h`, its derivative in `t` is `k1` at `t0` and `k2` at `t0 + h`. -/
theorem hermite_record (y yd k1 k2 c4 t0 h : ℚ) (hh : h ≠ 0) :
    HasDerivAt (fun θ : ℚ => y + θ * (yd + (1 - θ) * ((h * k1 - yd)
      + θ * ((-h * k2 + yd - (h * k1 - yd)) + (1 - θ) * c4)))) (h * k1) 0 ∧
    HasDerivAt (fun θ : ℚ => y + θ * (yd + (1 - θ) * ((h * k1 - yd)
      + θ * ((-h * k2 + yd - (h * k1 - yd)) + (1 - θ) * c4)))) (h * k2) 1 ∧
    HasDerivAt (fun t : ℚ => y + (t - t0) / h * (yd + (1 - (t - t0) / h) * ((h * k1 - yd)
      + (t - t0) / h * ((-h * k2 + yd - (h * k1 - yd)) + (1 - (t - t0) / h) * c4)))) k1 t0 ∧
    HasDerivAt (fun t : ℚ => y + (t - t0) / h * (yd + (1 - (t - t0) / h) * ((h * k1 - yd)
      + (t - t0) / h * ((-h * k2 + yd - (h * k1 - yd)) + (1 - (t - t0) / h) * c4)))) k2
      (t0 + h) := by
  have p0 := hermite_poly y yd (h * k1 - yd) (-h * k2 + yd - (h * k1 - yd)) c4 0
  have p1 := hermite_poly y yd (h * k1 - yd) (-h * k2 + yd - (h * k1 - yd)) c4 1
  have e0 : (yd + (1 - 0) * ((h * k1 - yd) + 0 * ((-h * k2 + yd - (h * k1 - yd)) + (1 - 0) * c4)))
      + 0 * (-((h * k1 - yd) + 0 * ((-h * k2 + yd - (h * k1 - yd)) + (1 - 0) * c4))
        + (1 - 0) * (((-h * k2 + yd - (h * k1 - yd)) + (1 - 0) * c4) + 0 * (-c4)))
      = h * k1 := by ring
  have e1 : (yd + (1 - 1) * ((h * k1 - yd) + 1 * ((-h * k2 + yd - (h * k1 - yd)) + (1 - 1) * c4)))
      + 1 * (-((h * k1 - yd) + 1 * ((-h * k2 + yd - (h * k1 - yd)) + (1 - 1) * c4))
        + (1 - 1) * (((-h * k2 + yd - (h * k1 - yd)) + (1 - 1) * c4) + 1 * (-c4)))
      = h * k2 := by ring
  rw [e0] at p0
  rw [e1] at p1
  have hθ : ∀ t : ℚ, HasDerivAt (fun t : ℚ => (t - t0) / h) (1 / h) t := by
    intro t
    simpa using ((hasDerivAt_id t).sub_const t0).div_const h
  refine ⟨p0, p1, ?_, ?_⟩
  · have q0 : HasDerivAt (fun θ : ℚ => y + θ * (yd + (1 - θ) * ((h * k1 - yd)
        + θ * ((-h * k2 + yd - (h * k1 - yd)) + (1 - θ) * c4)))) (h * k1) ((t0 - t0) / h) := by
      rw [sub_self, zero_div]
      exact p0
    have := HasDerivAt.comp t0 q0 (hθ t0)
    have e : h * k1 * (1 / h) = k1 := by field_simp
    rw [e] at this
    exact this
  · have q1 : HasDerivAt (fun θ : ℚ => y + θ * (yd + (1 - θ) * ((h * k1 - yd)
        + θ * ((-h * k2 + yd - (h * k1 - yd)) + (1 - θ) * c4)))) (h * k2)
        ((t0 + h - t0) / h) := by
      have : (t0 + h - t0) / h = 1 := by field_simp
      rw [this]
      exact p1
    have := HasDerivAt.comp (t0 + h) q1 (hθ (t0 + h))
    have e : h * k2 * (1 / h) = k2 := by field_simp
    rw [e] at this
    exact this

theorem save_history_planes (obj : dopri5.dopri5_data) (h : ℚ) (i : Nat) (hi : i < obj.n)
    (hlen : obj.history.head.length = 5 * obj.n + 2) :
    (dopri5.save_history obj h).history.head.getD i 0 = obj.y.getD i 0 ∧
    (dopri5.save_history obj h).history.head.getD (obj.n + i) 0
      = obj.y1.getD i 0 - obj.y.getD i 0 ∧
    (dopri5.save_history obj h).history.head.getD (2 * obj.n + i) 0
      = h * obj.k1.getD i 0 - (obj.y1.getD i 0 - obj.y.getD i 0) ∧
    (dopri5.save_history obj h).history.head.getD (3 * obj.n + i) 0
      = -h * obj.k2.getD i 0 + (obj.y1.getD i 0 - obj.y.getD i 0)
        - (h * obj.k1.getD i 0 - (obj.y1.getD i 0 - obj.y.getD i 0)) ∧
    (dopri5.save_history obj h).history.head.getD (4 * obj.n + i) 0
      = obj.history.head.getD (4 * obj.n + i) 0 ∧
    (dopri5.save_history obj h).history.head.getD (5 * obj.n) 0 = obj.t ∧
    (dopri5.save_history obj h).history.head.getD (5 * obj.n + 1) 0 = h := by
  obtain ⟨r0, r1, r2, r3, r4, r5, r6, -⟩ := record_reads obj.history.head obj.n
    (fun i => obj.y.getD i 0) (fun i => obj.y1.getD i 0 - obj.y.getD i 0)
    (fun i => h * obj.k1.getD i 0 - (obj.y1.getD i 0 - obj.y.getD i 0))
    (fun i => -h * obj.k2.getD i 0 + (obj.y1.getD i 0 - obj.y.getD i 0)
      - (h * obj.k1.getD i 0 - (obj.y1.getD i 0 - obj.y.getD i 0))) obj.t h hlen i hi
  exact ⟨r0, r1, r2, r3, r4, r5, r6⟩

theorem dopri5_save_history_planes (o : dopri.dopri_data) (h : ℚ) (i : Nat) (hi : i < o.n)
    (hlen : o.history.head.length = 5 * o.n + 2) :
    (dopri.dopri_save_history o h).history.head.getD i 0 = o.y.getD i 0 ∧
    (dopri.dopri_save_history o h).history.head.getD (o.n + i) 0
      = o.y1.getD i 0 - o.y.getD i 0 ∧
    (dopri.dopri_save_history o h).history.head.getD (2 * o.n + i) 0
      = h * (o.k.getD 0 []).getD i 0 - (o.y1.getD i 0 - o.y.getD i 0) ∧
    (dopri.dopri_save_history o h).history.head.getD (3 * o.n + i) 0
      = -h * (o.k.getD 1 []).getD i 0 + (o.y1.getD i 0 - o.y.getD i 0)
        - (h * (o.k.getD 0 []).getD i 0 - (o.y1.getD i 0 - o.y.getD i 0)) ∧
    (dopri.dopri_save_history o h).history.head.getD (4 * o.n + i) 0
      = o.history.head.getD (4 * o.n + i) 0 ∧
    (dopri.dopri_save_history o h).history.head.getD (5 * o.n) 0 = o.t ∧
    (dopri.dopri_save_history o h).history.head.getD (5 * o.n + 1) 0 = h := by
  obtain ⟨r0, r1, r2, r3, r4, r5, r6, -⟩ := record_reads o.history.head o.n
    (fun i => o.y.getD i 0) (fun i => o.y1.getD i 0 - o.y.getD i 0)
    (fun i => h * (o.k.getD 0 []).getD i 0 - (o.y1.getD i 0 - o.y.getD i 0))
    (fun i => -h * (o.k.getD 1 []).getD i 0 + (o.y1.getD i 0 - o.y.getD i 0)
      - (h * (o.k.getD 0 []).getD i 0 - (o.y1.getD i 0 - o.y.getD i 0))) o.t h hlen i hi
  exact ⟨r0, r1, r2, r3, r4, r5, r6⟩

theorem getD_set_succ (l : List (List ℚ)) (i : Nat) (v : List ℚ) :
    (l.set (i + 1) v).getD 0 [] = l.getD 0 [] := by
  cases l <;> rfl

namespace dopri

/-- A trial step of the kernel writes the trial state, the stage arrays other than
`k[0]` and the scratch slot of the history, and nothing else. -/
theorem step_frame_k0 (T : Tableau) (target : deriv_func) (o : dopri_data) (h : ℚ) :
    dopri_step T target o h
      = { o with y1 := (dopri_step T target o h).y1, k := (dopri_step T target o h).k,
                 history := { o.history with head := (dopri_step T target o h).history.head } } ∧
    (dopri_step T target o h).k.getD 0 [] = o.k.getD 0 [] := by
  refine ⟨rfl, ?_⟩
  unfold dopri_step dopri_5.dopri5_step
  simp only [getD_set_succ]

/-- The trial step of a pass writes the step size, `h_save`, the flags `last` and
`stop`, the step count, the trial state, the stage arrays other than `k[0]` and
the scratch slot of the history, and nothing else. -/
theorem trial_frame (T : Tableau) (target : deriv_func) (s : integrate_state) :
    dopri_integrate_trial T target s
      = { s with
          h := (dopri_integrate_trial T target s).h
          h_save := (dopri_integrate_trial T target s).h_save
          last := (dopri_integrate_trial T target s).last
          stop := (dopri_integrate_trial T target s).stop
          obj := { s.obj with
            n_step := s.obj.n_step + 1
            y1 := (dopri_integrate_trial T target s).obj.y1
            k := (dopri_integrate_trial T target s).obj.k
            history := { s.obj.history with
              head := (dopri_integrate_trial T target s).obj.history.head } } } ∧
    (dopri_integrate_trial T target s).obj.k.getD 0 [] = s.obj.k.getD 0 [] ∧
    ((dopri_integrate_trial T target s).h_save = s.h_save ∨
      (dopri_integrate_trial T target s).h_save = s.h) := by
  unfold dopri_integrate_trial
  simp only
  split_ifs
  · exact ⟨rfl, (step_frame_k0 T target _ _).2, Or.inr rfl⟩
  · exact ⟨rfl, (step_frame_k0 T target _ _).2, Or.inl rfl⟩
  · exact ⟨rfl, (step_frame_k0 T target _ _).2, Or.inl rfl⟩

/-- The rejected branch writes the step size, the three flags and the count of
rejections, and nothing else. -/
theorem reject_frame (M : Libm) (s : integrate_state) (err : ℚ) :
    dopri_integrate_reject M s err
      = loop_ctl.cont { s with
          h := (dopri_integrate_reject M s err).state.h
          reject := true
          last := false
          stop := false
          obj := { s.obj with n_reject := (dopri_integrate_reject M s err).state.obj.n_reject } } := by
  unfold dopri_integrate_reject
  simp only
  split_ifs <;> rfl

/-- A pass of the main loop whose trial step is rejected. -/
theorem body_rejected (M : Libm) (T : Tableau) (target : deriv_func) (output : output_func)
    (s : integrate_state)
    (h1 : ¬ s.obj.n_step > s.obj.step_max_n)
    (h2 : ¬ 1 / 10 * fabs s.h ≤ fabs s.obj.t * (10 * DBL_EPSILON))
    (h3 : ¬ dopri_error M (dopri_integrate_trial T target s).obj ≤ 1) :
    ∃ (h h_save : ℚ) (n_reject : Nat) (y1 : List ℚ) (k : List (List ℚ)) (head : List ℚ),
      dopri_integrate_body M T target output s
        = loop_ctl.cont { s with
            h := h
            h_save := h_save
            reject := true
            last := false
            stop := false
            obj := { s.obj with
              n_step := s.obj.n_step + 1
              n_reject := n_reject
              y1 := y1
              k := k
              history := { s.obj.history with head := head } } } ∧
      k.getD 0 [] = s.obj.k.getD 0 [] ∧
      (h_save = s.h_save ∨ h_save = s.h) ∧
      (n_reject = s.obj.n_reject ∨ n_reject = s.obj.n_reject + 1) := by
  obtain ⟨t1, t2, t3⟩ := trial_frame T target s
  have r := reject_frame M (dopri_integrate_trial T target s)
    (dopri_error M (dopri_integrate_trial T target s).obj)
  have hb : dopri_integrate_body M T target output s
      = dopri_integrate_reject M (dopri_integrate_trial T target s)
          (dopri_error M (dopri_integrate_trial T target s).obj) := by
    unfold dopri_integrate_body
    simp only
    rw [if_neg h1, if_neg h2, if_neg h3]
  refine ⟨(dopri_integrate_reject M (dopri_integrate_trial T target s)
      (dopri_error M (dopri_integrate_trial T target s).obj)).state.h,
    (dopri_integrate_trial T target s).h_save,
    (dopri_integrate_reject M (dopri_integrate_trial T target s)
      (dopri_error M (dopri_integrate_trial T target s).obj)).state.obj.n_reject,
    (dopri_integrate_trial T target s).obj.y1, (dopri_integrate_trial T target s).obj.k,
    (dopri_integrate_trial T target s).obj.history.head, ?_, t2, t3, ?_⟩
  · rw [hb, r]
    exact congrArg (fun x : integrate_state => loop_ctl.cont { x with
      h := (dopri_integrate_reject M (dopri_integrate_trial T target s)
        (dopri_error M (dopri_integrate_trial T target s).obj)).state.h
      reject := true
      last := false
      stop := false
      obj := { x.obj with
        n_reject := (dopri_integrate_reject M (dopri_integrate_trial T target s)
          (dopri_error M (dopri_integrate_trial T target s).obj)).state.obj.n_reject } }) t1
  · obtain ⟨-, -, -, r4, -⟩ := reject_counters M (dopri_integrate_trial T target s)
      (dopri_error M (dopri_integrate_trial T target s).obj)
    rw [r4, (trial_counters T target s).2.2.1]
    split_ifs
    · right; rfl
    · left; rfl

end dopri

namespace dopri5

theorem legacy_trial_frame (T : Tableau) (target : deriv_func) (s : integrate_state) :
    dopri5_integrate_trial T target s
      = { s with
          h := (dopri5_integrate_trial T target s).h
          last := (dopri5_integrate_trial T target s).last
          obj := { s.obj with
            n_step := s.obj.n_step + 1
            y1 := (dopri5_integrate_trial T target s).obj.y1
            k2 := (dopri5_integrate_trial T target s).obj.k2
            k3 := (dopri5_integrate_trial T target s).obj.k3
            k4 := (dopri5_integrate_trial T target s).obj.k4
            k5 := (dopri5_integrate_trial T target s).obj.k5
            k6 := (dopri5_integrate_trial T target s).obj.k6
            ysti := (dopri5_integrate_trial T target s).obj.ysti
            history := { s.obj.history with
              head := (dopri5_integrate_trial T target s).obj.history.head } } } := by
  unfold dopri5_integrate_trial
  simp only
  split_ifs <;> rfl

theorem legacy_reject_frame (M : Libm) (s : integrate_state) (err : ℚ) :
    dopri5_integrate_reject M s err
      = loop_ctl.cont { s with
          h := (dopri5_integrate_reject M s err).state.h
          reject := true
          last := false
          obj := { s.obj with
            n_reject := (dopri5_integrate_reject M s err).state.obj.n_reject } } ∧
    ((dopri5_integrate_reject M s err).state.obj.n_reject = s.obj.n_reject ∨
      (dopri5_integrate_reject M s err).state.obj.n_reject = s.obj.n_reject + 1) := by
  unfold dopri5_integrate_reject
  simp only
  split_ifs
  · exact ⟨rfl, Or.inr rfl⟩
  · exact ⟨rfl, Or.inl rfl⟩

/-- A pass of the main loop of the legacy driver whose trial step is rejected. -/
theorem legacy_body_rejected (M : Libm) (T : Tableau) (target : deriv_func)
    (s : integrate_state)
    (h1 : ¬ s.obj.n_step > s.obj.step_max_n)
    (h2 : ¬ 1 / 10 * fabs s.h ≤ fabs s.obj.t * (10 * DBL_EPSILON))
    (h3 : ¬ dopri5_error M (dopri5_integrate_trial T target s).obj ≤ 1) :
    ∃ (h : ℚ) (n_reject : Nat) (y1 k2 k3 k4 k5 k6 ysti head : List ℚ),
      dopri5_integrate_body M T target s
        = loop_ctl.cont { s with
            h := h
            reject := true
            last := false
            obj := { s.obj with
              n_step := s.obj.n_step + 1
              n_reject := n_reject
              y1 := y1
              k2 := k2
              k3 := k3
              k4 := k4
              k5 := k5
              k6 := k6
              ysti := ysti
              history := { s.obj.history with head := head } } } ∧
      (n_reject = s.obj.n_reject ∨ n_reject = s.obj.n_reject + 1) := by
  have t1 := legacy_trial_frame T target s
  obtain ⟨r, r4⟩ := legacy_reject_frame M (dopri5_integrate_trial T target s)
    (dopri5_error M (dopri5_integrate_trial T target s).obj)
  have hb : dopri5_integrate_body M T target s
      = dopri5_integrate_reject M (dopri5_integrate_trial T target s)
          (dopri5_error M (dopri5_integrate_trial T target s).obj) := by
    unfold dopri5_integrate_body
    simp only
    rw [if_neg h1, if_neg h2, if_neg h3]
  refine ⟨(dopri5_integrate_reject M (dopri5_integrate_trial T target s)
      (dopri5_error M (dopri5_integrate_trial T target s).obj)).state.h,
    (dopri5_integrate_reject M (dopri5_integrate_trial T target s)
      (dopri5_error M (dopri5_integrate_trial T target s).obj)).state.obj.n_reject,
    (dopri5_integrate_trial T target s).obj.y1, (dopri5_integrate_trial T target s).obj.k2,
    (dopri5_integrate_trial T target s).obj.k3, (dopri5_integrate_trial T target s).obj.k4,
    (dopri5_integrate_trial T target s).obj.k5, (dopri5_integrate_trial T target s).obj.k6,
    (dopri5_integrate_trial T target s).obj.ysti,
    (dopri5_integrate_trial T target s).obj.history.head, ?_, ?_⟩
  · rw [hb, r]
    exact congrArg (fun x : integrate_state => loop_ctl.cont { x with
      h := (dopri5_integrate_reject M (dopri5_integrate_trial T target s)
        (dopri5_error M (dopri5_integrate_trial T target s).obj)).state.h
      reject := true
      last := false
      obj := { x.obj with
        n_reject := (dopri5_integrate_reject M (dopri5_integrate_trial T target s)
          (dopri5_error M (dopri5_integrate_trial T target s).obj)).state.obj.n_reject } }) t1
  · have e : (dopri5_integrate_trial T target s).obj.n_reject = s.obj.n_reject := by
      have := congrArg (fun x : integrate_state => x.obj.n_reject) t1
      exact this
    rw [e] at r4
    exact r4

end dopri5

theorem history_chain_nil (n : Nat) (t0 : ℚ) : history_chain n t0 t0 0 [] := by
  refine ⟨List.chain'_nil, ?_, fun _ => rfl, le_refl _, ?_⟩
  · intro r hr; simp at hr
  · intro _ r hr; simp at hr

theorem history_chain_append (n : Nat) (t0 t h : ℚ) (n_accept : Nat) (live : List (List ℚ))
    (r : List ℚ) (hc : history_chain n t0 t n_accept live)
    (h1 : r.getD (5 * n) 0 = t) (h2 : r.getD (5 * n + 1) 0 = h) :
    history_chain n t0 (t + h) (n_accept + 1) (live ++ [r]) := by
  obtain ⟨c1, c2, c3, c4, c5⟩ := hc
  refine ⟨?_, ?_, ?_, ?_, ?_⟩
  · refine List.Chain'.append c1 (List.chain'_singleton r) ?_
    intro x hx y hy
    simp only [List.head?_cons, Option.mem_def, Option.some.injEq] at hy
    subst hy
    unfold history_contiguous
    rw [c2 x hx, h1]
  · intro x hx
    rw [List.getLast?_concat] at hx
    simp only [Option.mem_def, Option.some.injEq] at hx
    subst hx
    rw [h1, h2]
  · intro h0; omega
  · rw [List.length_append, List.length_singleton]; omega
  · intro hl x hx
    rw [List.length_append, List.length_singleton] at hl
    have hl' : live.length = n_accept := by omega
    cases live with
    | nil =>
      simp only [List.nil_append, List.head?_cons, Option.mem_def, Option.some.injEq] at hx
      subst hx
      rw [h1]
      exact c3 hl'.symm
    | cons a l =>
      simp only [List.cons_append, List.head?_cons, Option.mem_def, Option.some.injEq] at hx
      subst hx
      exact c5 hl' a rfl

/-- The chain of the live records is kept when `head_advance` makes a record that
starts at `t` and has the size `h` the newest live record. -/
theorem history_chain_advance (n : Nat) (t0 t h : ℚ) (n_accept : Nat) (H : ring_buffer)
    (r : List ℚ) (hc : history_chain n t0 t n_accept H.live)
    (h1 : r.getD (5 * n) 0 = t) (h2 : r.getD (5 * n + 1) 0 = h) :
    history_chain n t0 (t + h) (n_accept + 1)
      (ring_buffer_head_advance { H with head := r }).live := by
  have ha := history_chain_append n t0 t h n_accept H.live r hc h1 h2
  unfold ring_buffer_head_advance
  simp only
  split_ifs with hs
  · exact ha
  · obtain ⟨a1, a2, a3, a4, a5⟩ := ha
    have hl : ((H.live ++ [r]).drop 1).length = H.live.length := by
      rw [List.length_drop, List.length_append, List.length_singleton]; omega
    refine ⟨a1.drop 1, ?_, a3, ?_, ?_⟩
    · intro x hx
      cases hL : H.live with
      | nil => rw [hL] at hx; simp at hx
      | cons a l =>
        rw [hL] at hx
        simp only [List.cons_append, List.drop_succ_cons, List.drop_zero] at hx
        rw [List.getLast?_concat] at hx
        simp only [Option.mem_def, Option.some.injEq] at hx
        subst hx
        rw [h1, h2]
    · rw [hl]; exact le_trans hc.2.2.2.1 (Nat.le_succ _)
    · intro he
      rw [hl] at he
      have := hc.2.2.2.1
      omega

/-- Contiguous records whose step sizes all point in the direction `sign` start at
times that are strictly monotone in that direction. -/
theorem history_chain_monotone (n : Nat) (sign : ℚ) (live : List (List ℚ))
    (hc : List.Chain' (history_contiguous n) live)
    (hs : ∀ r ∈ live, 0 < r.getD (5 * n + 1) 0 * sign) :
    List.Pairwise (fun r1 r2 => 0 < (r2.getD (5 * n) 0 - r1.getD (5 * n) 0) * sign) live := by
  induction live with
  | nil => exact List.Pairwise.nil
  | cons a l ih =>
    have ih' := ih hc.tail (fun r hr => hs r (List.mem_cons_of_mem a hr))
    refine List.Pairwise.cons ?_ ih'
    cases l with
    | nil => intro x hx; simp at hx
    | cons b l' =>
      have hab : 0 < (b.getD (5 * n) 0 - a.getD (5 * n) 0) * sign := by
        have e : b.getD (5 * n) 0 = a.getD (5 * n) 0 + a.getD (5 * n + 1) 0 :=
          (List.chain'_cons.mp hc).1
        rw [e, add_sub_cancel_left]
        exact hs a (List.mem_cons_self a _)
      intro x hx
      rcases List.mem_cons.mp hx with hx | hx
      · rw [hx]; exact hab
      · have hbx := (List.pairwise_cons.mp ih').1 x hx
        have e : (x.getD (5 * n) 0 - a.getD (5 * n) 0) * sign
            = (x.getD (5 * n) 0 - b.getD (5 * n) 0) * sign
              + (b.getD (5 * n) 0 - a.getD (5 * n) 0) * sign := by ring
        rw [e]
        exact add_pos hbx hab

namespace dopri

/-- A trial step of the kernel keeps the length of the scratch slot of the history. -/
theorem step_history (T : Tableau) (target : deriv_func) (o : dopri_data) (h : ℚ) (n : Nat)
    (hlen : o.history.head.length = 5 * n + 2) (hn : o.n = n) :
    (dopri_step T target o h).history.head.length = 5 * n + 2 := by
  subst hn
  show (write o.history.head (4 * o.n) (vec o.n _)).length = _
  rw [write_length _ _ _ (by rw [vec_length, hlen]; omega), hlen]

theorem trial_history (T : Tableau) (target : deriv_func) (s : integrate_state)
    (hlen : s.obj.history.head.length = 5 * s.obj.n + 2) :
    (dopri_integrate_trial T target s).obj.history.live = s.obj.history.live ∧
    (dopri_integrate_trial T target s).obj.history.size = s.obj.history.size ∧
    (dopri_integrate_trial T target s).obj.history.head.length = 5 * s.obj.n + 2 ∧
    (dopri_integrate_trial T target s).obj.t = s.obj.t ∧
    (dopri_integrate_trial T target s).obj.n = s.obj.n ∧
    (dopri_integrate_trial T target s).obj.n_accept = s.obj.n_accept := by
  have f := (trial_frame T target s).1
  have e1 : (dopri_integrate_trial T target s).obj.history.live = s.obj.history.live := by
    have := congrArg (fun x : integrate_state => x.obj.history.live) f
    exact this
  have e2 : (dopri_integrate_trial T target s).obj.history.size = s.obj.history.size := by
    have := congrArg (fun x : integrate_state => x.obj.history.size) f
    exact this
  have e4 : (dopri_integrate_trial T target s).obj.t = s.obj.t := by
    have := congrArg (fun x : integrate_state => x.obj.t) f
    exact this
  have e5 : (dopri_integrate_trial T target s).obj.n = s.obj.n := by
    have := congrArg (fun x : integrate_state => x.obj.n) f
    exact this
  have e6 : (dopri_integrate_trial T target s).obj.n_accept = s.obj.n_accept := by
    have := congrArg (fun x : integrate_state => x.obj.n_accept) f
    exact this
  refine ⟨e1, e2, ?_, e4, e5, e6⟩
  unfold dopri_integrate_trial
  simp only
  split_ifs
  · exact step_history T target _ _ s.obj.n hlen rfl
  · exact step_history T target _ _ s.obj.n hlen rfl
  · exact step_history T target _ _ s.obj.n hlen rfl

theorem tail_history (s : integrate_state) (h_new : ℚ) :
    (dopri_integrate_accept_tail s h_new).state.obj.history = s.obj.history ∧
    (dopri_integrate_accept_tail s h_new).state.obj.n_accept = s.obj.n_accept := by
  unfold dopri_integrate_accept_tail
  simp only
  split_ifs <;> exact ⟨rfl, rfl⟩

theorem report_history (output : output_func) (s : integrate_state) :
    (dopri_integrate_accept_report output s).obj.history
      = ring_buffer_head_advance s.obj.history ∧
    (dopri_integrate_accept_report output s).obj.n_accept = s.obj.n_accept := by
  unfold dopri_integrate_accept_report
  simp only
  rw [(emit_outputs_frame output (s.obj.n_times - s.obj.times_idx) s.obj s.y_out s.out).1]
  exact ⟨rfl, rfl⟩

/-- The accepted branch finalises the record of the step, which starts at the time
of the solver and has the size of the step, and makes it the newest live record. -/
theorem accept_history (output : output_func) (s : integrate_state) (err h_new : ℚ)
    (hlen : s.obj.history.head.length = 5 * s.obj.n + 2) :
    ∃ r : List ℚ, r.getD (5 * s.obj.n) 0 = s.obj.t ∧ r.getD (5 * s.obj.n + 1) 0 = s.h ∧
      r.length = 5 * s.obj.n + 2 ∧
      (dopri_integrate_accept output s err h_new).state.obj.history
        = ring_buffer_head_advance { s.obj.history with head := r } ∧
      (dopri_integrate_accept output s err h_new).state.obj.n_accept = s.obj.n_accept + 1 := by
  obtain ⟨r1, r2, r3⟩ := record_tail s.obj.history.head s.obj.n
    (fun i => s.obj.y.getD i 0) (fun i => s.obj.y1.getD i 0 - s.obj.y.getD i 0)
    (fun i => s.h * (s.obj.k.getD 0 []).getD i 0 - (s.obj.y1.getD i 0 - s.obj.y.getD i 0))
    (fun i => -s.h * (s.obj.k.getD 1 []).getD i 0 + (s.obj.y1.getD i 0 - s.obj.y.getD i 0)
      - (s.h * (s.obj.k.getD 0 []).getD i 0 - (s.obj.y1.getD i 0 - s.obj.y.getD i 0)))
    s.obj.t s.h hlen
  refine ⟨history_record s.obj.n s.obj.y s.obj.y1 (s.obj.k.getD 0 []) (s.obj.k.getD 1 [])
    s.obj.t s.h s.obj.history.head, r1, r2, r3, ?_, ?_⟩
  · unfold dopri_integrate_accept
    rw [(tail_history _ h_new).1, (report_history output _).1]
    rfl
  · unfold dopri_integrate_accept
    rw [(tail_history _ h_new).2, (report_history output _).2]
    rfl

/-- What a pass of the main loop does to the history: an accepted step finalises
the record `[t, t + h]` and moves the solver to `t + h`; any other pass leaves the
live records and the time alone. -/
theorem body_history (M : Libm) (T : Tableau) (target : deriv_func) (output : output_func)
    (s : integrate_state) (hlen : s.obj.history.head.length = 5 * s.obj.n + 2) :
    (dopri_integrate_body M T target output s).state.obj.n = s.obj.n ∧
    (dopri_integrate_body M T target output s).state.obj.history.head.length
      = 5 * s.obj.n + 2 ∧
    (dopri_integrate_body M T target output s).state.obj.history.size
      = s.obj.history.size ∧
    ((¬ s.obj.n_step > s.obj.step_max_n ∧
      ¬ 1 / 10 * fabs s.h ≤ fabs s.obj.t * (10 * DBL_EPSILON) ∧
      dopri_error M (dopri_integrate_trial T target s).obj ≤ 1) →
      ∃ r : List ℚ, r.getD (5 * s.obj.n) 0 = s.obj.t ∧
        r.getD (5 * s.obj.n + 1) 0 = (dopri_integrate_trial T target s).h ∧
        (dopri_integrate_body M T target output s).state.obj.history.live
          = (ring_buffer_head_advance { s.obj.history with head := r }).live ∧
        (dopri_integrate_body M T target output s).state.obj.t
          = s.obj.t + (dopri_integrate_trial T target s).h ∧
        (dopri_integrate_body M T target output s).state.obj.n_accept
          = s.obj.n_accept + 1) ∧
    (¬ (¬ s.obj.n_step > s.obj.step_max_n ∧
      ¬ 1 / 10 * fabs s.h ≤ fabs s.obj.t * (10 * DBL_EPSILON) ∧
      dopri_error M (dopri_integrate_trial T target s).obj ≤ 1) →
      (dopri_integrate_body M T target output s).state.obj.history.live
          = s.obj.history.live ∧
        (dopri_integrate_body M T target output s).state.obj.t = s.obj.t ∧
        (dopri_integrate_body M T target output s).state.obj.n_accept = s.obj.n_accept) := by
  obtain ⟨t1, t2, t3, t4, t5, t6⟩ := trial_history T target s hlen
  unfold dopri_integrate_body
  simp only
  by_cases h1 : s.obj.n_step > s.obj.step_max_n
  · rw [if_pos h1]
    exact ⟨rfl, hlen, rfl, fun h => absurd h1 h.1, fun _ => ⟨rfl, rfl, rfl⟩⟩
  rw [if_neg h1]
  by_cases h2 : 1 / 10 * fabs s.h ≤ fabs s.obj.t * (10 * DBL_EPSILON)
  · rw [if_pos h2]
    exact ⟨rfl, hlen, rfl, fun h => absurd h2 h.2.1, fun _ => ⟨rfl, rfl, rfl⟩⟩
  rw [if_neg h2]
  by_cases h3 : dopri_error M (dopri_integrate_trial T target s).obj ≤ 1
  · rw [if_pos h3]
    obtain ⟨r, a1, a2, a3, a4, a5⟩ := accept_history output (dopri_integrate_trial T target s)
      (dopri_error M (dopri_integrate_trial T target s).obj)
      (dopri_h_new M (dopri_integrate_trial T target s).obj
        (dopri_integrate_trial T target s).fac_old (dopri_integrate_trial T target s).h
        (dopri_error M (dopri_integrate_trial T target s).obj)) (by rw [t3, t5])
    obtain ⟨c1, c2, c3, c4⟩ := accept_core output (dopri_integrate_trial T target s)
      (dopri_error M (dopri_integrate_trial T target s).obj)
      (dopri_h_new M (dopri_integrate_trial T target s).obj
        (dopri_integrate_trial T target s).fac_old (dopri_integrate_trial T target s).h
        (dopri_error M (dopri_integrate_trial T target s).obj))
    rw [t5] at a1 a2 a3
    rw [t4] at a1
    refine ⟨c4.trans t5, ?_, ?_, fun _ => ⟨r, a1, a2, ?_, ?_, ?_⟩,
      fun h => absurd ⟨h1, h2, h3⟩ h⟩
    · rw [a4]; exact a3
    · rw [a4]; exact t2
    · rw [a4]
      show (if _ then _ else _) = (if _ then _ else _)
      simp only [t1, t2]
    · rw [c3, t4]
    · rw [a5, t6]
  · rw [if_neg h3]
    obtain ⟨r1, r2, r3, r4⟩ := reject_core M (dopri_integrate_trial T target s)
      (dopri_error M (dopri_integrate_trial T target s).obj)
    have rf := reject_frame M (dopri_integrate_trial T target s)
      (dopri_error M (dopri_integrate_trial T target s).obj)
    have e : (dopri_integrate_reject M (dopri_integrate_trial T target s)
        (dopri_error M (dopri_integrate_trial T target s).obj)).state.obj.history
        = (dopri_integrate_trial T target s).obj.history := by
      have := congrArg (fun x : loop_ctl integrate_state => x.state.obj.history) rf
      exact this
    have e2 : (dopri_integrate_reject M (dopri_integrate_trial T target s)
        (dopri_error M (dopri_integrate_trial T target s).obj)).state.obj.n_accept
        = (dopri_integrate_trial T target s).obj.n_accept := by
      have := congrArg (fun x : loop_ctl integrate_state => x.state.obj.n_accept) rf
      exact this
    refine ⟨r4.trans t5, ?_, ?_, fun h => absurd h.2.2 h3, fun _ => ⟨?_, r3.trans t4, ?_⟩⟩
    · rw [e]; exact t3
    · rw [e]; exact t2
    · rw [e]; exact t1
    · rw [e2]; exact t6

theorem init_history (M : Libm) (target : deriv_func) (obj : dopri_data)
    (y times tcrit : List ℚ) :
    (dopri_integrate_init M target obj y times tcrit).obj.history = obj.history ∧
    (dopri_integrate_init M target obj y times tcrit).obj.t = times.getD 0 0 ∧
    (dopri_integrate_init M target obj y times tcrit).obj.n = obj.n ∧
    (dopri_integrate_init M target obj y times tcrit).obj.n_accept = 0 := by
  unfold dopri_integrate_init dopri_h_init
  simp only
  split_ifs <;> exact ⟨rfl, rfl, rfl, rfl⟩

/-- A pass of the main loop keeps the chain of the live records. -/
theorem history_chain_body (M : Libm) (T : Tableau) (target : deriv_func)
    (output : output_func) (n : Nat) (t0 : ℚ) (s : integrate_state)
    (hI : s.obj.n = n ∧ s.obj.history.head.length = 5 * n + 2 ∧
      history_chain n t0 s.obj.t s.obj.n_accept s.obj.history.live) :
    (dopri_integrate_body M T target output s).state.obj.n = n ∧
    (dopri_integrate_body M T target output s).state.obj.history.head.length = 5 * n + 2 ∧
    history_chain n t0 (dopri_integrate_body M T target output s).state.obj.t
      (dopri_integrate_body M T target output s).state.obj.n_accept
      (dopri_integrate_body M T target output s).state.obj.history.live := by
  obtain ⟨hn, hlen, hc⟩ := hI
  subst hn
  obtain ⟨b1, b2, -, b4, b5⟩ := body_history M T target output s hlen
  refine ⟨b1, b2, ?_⟩
  by_cases hg : ¬ s.obj.n_step > s.obj.step_max_n ∧
      ¬ 1 / 10 * fabs s.h ≤ fabs s.obj.t * (10 * DBL_EPSILON) ∧
      dopri_error M (dopri_integrate_trial T target s).obj ≤ 1
  · obtain ⟨r, r1, r2, r3, r4, r5⟩ := b4 hg
    rw [r3, r4, r5]
    exact history_chain_advance s.obj.n t0 s.obj.t _ s.obj.n_accept s.obj.history r hc r1 r2
  · obtain ⟨r3, r4, r5⟩ := b5 hg
    rw [r3, r4, r5]
    exact hc

theorem history_chain_init (M : Libm) (target : deriv_func) (obj : dopri_data)
    (y times tcrit : List ℚ) (hlive : obj.history.live = [])
    (hlen : obj.history.head.length = 5 * obj.n + 2) :
    (dopri_integrate_init M target obj y times tcrit).obj.n = obj.n ∧
    (dopri_integrate_init M target obj y times tcrit).obj.history.head.length
      = 5 * obj.n + 2 ∧
    history_chain obj.n (times.getD 0 0) (dopri_integrate_init M target obj y times tcrit).obj.t
      (dopri_integrate_init M target obj y times tcrit).obj.n_accept
      (dopri_integrate_init M target obj y times tcrit).obj.history.live := by
  obtain ⟨i1, i2, i3, i4⟩ := init_history M target obj y times tcrit
  rw [i1, i2, i3, i4, hlive]
  exact ⟨rfl, hlen, history_chain_nil obj.n (times.getD 0 0)⟩

/-- The chain of the live records at every head of the main loop. -/
theorem history_chain_head (M : Libm) (T : Tableau) (target : deriv_func)
    (output : output_func) (obj : dopri_data) (y times tcrit : List ℚ)
    (hlive : obj.history.live = []) (hlen : obj.history.head.length = 5 * obj.n + 2)
    (k : Nat) (s : integrate_state)
    (hs : loop_head (dopri_integrate_body M T target output) k
      (dopri_integrate_init M target obj y times tcrit) = some s) :
    s.obj.n = obj.n ∧ s.obj.history.head.length = 5 * obj.n + 2 ∧
    history_chain obj.n (times.getD 0 0) s.obj.t s.obj.n_accept s.obj.history.live := by
  refine loop_head_inv (dopri_integrate_body M T target output)
    (fun s => s.obj.n = obj.n ∧ s.obj.history.head.length = 5 * obj.n + 2 ∧
      history_chain obj.n (times.getD 0 0) s.obj.t s.obj.n_accept s.obj.history.live)
    ?_ k _ s (history_chain_init M target obj y times tcrit hlive hlen) hs
  intro a a' hI hb
  have := history_chain_body M T target output obj.n (times.getD 0 0) a hI
  rw [(body_cont M T target output a a' hb).1] at this
  exact this

/-- The chain of the live records when `dopri_integrate` returns. -/
theorem history_chain_return (M : Libm) (T : Tableau) (target : deriv_func)
    (output : output_func) (obj : dopri_data) (y times tcrit : List ℚ)
    (hlive : obj.history.live = []) (hlen : obj.history.head.length = 5 * obj.n + 2)
    (r : integrate_state)
    (hr : dopri_integrate M T target output obj y times tcrit = some r) :
    history_chain obj.n (times.getD 0 0) r.obj.t r.obj.n_accept r.obj.history.live := by
  obtain ⟨r', hr', e⟩ := dopri_integrate_eq M T target output obj y times tcrit r hr
  obtain ⟨k, s, h1, h2⟩ := while_true_exit _ _ _ _ hr'
  have hI := history_chain_head M T target output obj y times tcrit hlive hlen k s h1
  have := (history_chain_body M T target output obj.n (times.getD 0 0) s hI).2.2
  rw [(body_brk M T target output s r' h2).1] at this
  rw [e]
  exact this

end dopri

namespace dopri5

theorem legacy_step_history (T : Tableau) (target : deriv_func) (o : dopri5_data) (h : ℚ)
    (n : Nat) (hlen : o.history.head.length = 5 * n + 2) (hn : o.n = n) :
    (dopri5_step T target o h).history.head.length = 5 * n + 2 := by
  subst hn
  show (write o.history.head (4 * o.n) (vec o.n _)).length = _
  rw [write_length _ _ _ (by rw [vec_length, hlen]; omega), hlen]

theorem legacy_trial_history (T : Tableau) (target : deriv_func) (s : integrate_state)
    (hlen : s.obj.history.head.length = 5 * s.obj.n + 2) :
    (dopri5_integrate_trial T target s).obj.history.live = s.obj.history.live ∧
    (dopri5_integrate_trial T target s).obj.history.size = s.obj.history.size ∧
    (dopri5_integrate_trial T target s).obj.history.head.length = 5 * s.obj.n + 2 ∧
    (dopri5_integrate_trial T target s).obj.t = s.obj.t ∧
    (dopri5_integrate_trial T target s).obj.n = s.obj.n ∧
    (dopri5_integrate_trial T target s).obj.n_accept = s.obj.n_accept := by
  have f := legacy_trial_frame T target s
  have e1 : (dopri5_integrate_trial T target s).obj.history.live = s.obj.history.live := by
    have := congrArg (fun x : integrate_state => x.obj.history.live) f
    exact this
  have e2 : (dopri5_integrate_trial T target s).obj.history.size = s.obj.history.size := by
    have := congrArg (fun x : integrate_state => x.obj.history.size) f
    exact this
  have e4 : (dopri5_integrate_trial T target s).obj.t = s.obj.t := by
    have := congrArg (fun x : integrate_state => x.obj.t) f
    exact this
  have e5 : (dopri5_integrate_trial T target s).obj.n = s.obj.n := by
    have := congrArg (fun x : integrate_state => x.obj.n) f
    exact this
  have e6 : (dopri5_integrate_trial T target s).obj.n_accept = s.obj.n_accept := by
    have := congrArg (fun x : integrate_state => x.obj.n_accept) f
    exact this
  refine ⟨e1, e2, ?_, e4, e5, e6⟩
  unfold dopri5_integrate_trial
  simp only
  split_ifs
  · exact legacy_step_history T target _ _ s.obj.n hlen rfl
  · exact legacy_step_history T target _ _ s.obj.n hlen rfl

/-- The accepted branch of the legacy driver finalises the record of the step in
the scratch slot, and makes it the newest live record unless the step was the
last. -/
theorem legacy_accept_history (s : integrate_state) (err h_new : ℚ)
    (hlen : s.obj.history.head.length = 5 * s.obj.n + 2) :
    ∃ r : List ℚ, r.getD (5 * s.obj.n) 0 = s.obj.t ∧ r.getD (5 * s.obj.n + 1) 0 = s.h ∧
      r.length = 5 * s.obj.n + 2 ∧
      (dopri5_integrate_accept s err h_new).state.obj.history
        = (if s.last then { s.obj.history with head := r }
           else ring_buffer_head_advance { s.obj.history with head := r }) ∧
      (dopri5_integrate_accept s err h_new).state.obj.n_accept = s.obj.n_accept + 1 ∧
      (dopri5_integrate_accept s err h_new).is_brk = s.last := by
  obtain ⟨r1, r2, r3⟩ := record_tail s.obj.history.head s.obj.n
    (fun i => s.obj.y.getD i 0) (fun i => s.obj.y1.getD i 0 - s.obj.y.getD i 0)
    (fun i => s.h * s.obj.k1.getD i 0 - (s.obj.y1.getD i 0 - s.obj.y.getD i 0))
    (fun i => -s.h * s.obj.k2.getD i 0 + (s.obj.y1.getD i 0 - s.obj.y.getD i 0)
      - (s.h * s.obj.k1.getD i 0 - (s.obj.y1.getD i 0 - s.obj.y.getD i 0)))
    s.obj.t s.h hlen
  refine ⟨history_record s.obj.n s.obj.y s.obj.y1 s.obj.k1 s.obj.k2
    s.obj.t s.h s.obj.history.head, r1, r2, r3, ?_⟩
  have e := legacy_emit_outputs_frame
  unfold dopri5_integrate_accept
  simp only
  split_ifs with hl <;> rw [e] <;> refine ⟨rfl, rfl, ?_⟩ <;>
    first
    | (rw [hl]; rfl)
    | (simp only [Bool.not_eq_true] at hl; rw [hl]; rfl)

theorem legacy_init_history (M : Libm) (target : deriv_func) (obj : dopri5_data)
    (y times : List ℚ) :
    (dopri5_integrate_init M target obj y times).obj.history = obj.history ∧
    (dopri5_integrate_init M target obj y times).obj.t = times.getD 0 0 ∧
    (dopri5_integrate_init M target obj y times).obj.n = obj.n ∧
    (dopri5_integrate_init M target obj y times).obj.n_accept = 0 := by
  unfold dopri5_integrate_init dopri5_h_init
  simp only
  split_ifs <;> exact ⟨rfl, rfl, rfl, rfl⟩

/-- What a pass of the main loop of the legacy driver does to the history: an
accepted step finalises the record `[t, t + h]` in the scratch slot, moves the
solver to `t + h` and, unless it was the last step, makes the record the newest
live one; any other pass leaves the live records and the time alone. -/
theorem legacy_body_history (M : Libm) (T : Tableau) (target : deriv_func)
    (s : integrate_state) (hlen : s.obj.history.head.length = 5 * s.obj.n + 2) :
    (dopri5_integrate_body M T target s).state.obj.n = s.obj.n ∧
    (dopri5_integrate_body M T target s).state.obj.history.head.length
      = 5 * s.obj.n + 2 ∧
    ((¬ s.obj.n_step > s.obj.step_max_n ∧
      ¬ 1 / 10 * fabs s.h ≤ fabs s.obj.t * (10 * DBL_EPSILON) ∧
      dopri5_error M (dopri5_integrate_trial T target s).obj ≤ 1) →
      ∃ r : List ℚ, r.getD (5 * s.obj.n) 0 = s.obj.t ∧
        r.getD (5 * s.obj.n + 1) 0 = (dopri5_integrate_trial T target s).h ∧
        (dopri5_integrate_body M T target s).state.obj.history.head = r ∧
        (dopri5_integrate_body M T target s).state.obj.history.live
          = (if (dopri5_integrate_trial T target s).last then s.obj.history.live
             else (ring_buffer_head_advance { s.obj.history with head := r }).live) ∧
        (dopri5_integrate_body M T target s).state.obj.t
          = s.obj.t + (dopri5_integrate_trial T target s).h ∧
        (dopri5_integrate_body M T target s).state.obj.n_accept = s.obj.n_accept + 1 ∧
        (dopri5_integrate_body M T target s).is_brk
          = (dopri5_integrate_trial T target s).last) ∧
    (¬ (¬ s.obj.n_step > s.obj.step_max_n ∧
      ¬ 1 / 10 * fabs s.h ≤ fabs s.obj.t * (10 * DBL_EPSILON) ∧
      dopri5_error M (dopri5_integrate_trial T target s).obj ≤ 1) →
      (dopri5_integrate_body M T target s).state.obj.history.live = s.obj.history.live ∧
        (dopri5_integrate_body M T target s).state.obj.t = s.obj.t ∧
        (dopri5_integrate_body M T target s).state.obj.n_accept = s.obj.n_accept) := by
  obtain ⟨t1, t2, t3, t4, t5, t6⟩ := legacy_trial_history T target s hlen
  unfold dopri5_integrate_body
  simp only
  by_cases h1 : s.obj.n_step > s.obj.step_max_n
  · rw [if_pos h1]
    exact ⟨rfl, hlen, fun h => absurd h1 h.1, fun _ => ⟨rfl, rfl, rfl⟩⟩
  rw [if_neg h1]
  by_cases h2 : 1 / 10 * fabs s.h ≤ fabs s.obj.t * (10 * DBL_EPSILON)
  · rw [if_pos h2]
    exact ⟨rfl, hlen, fun h => absurd h2 h.2.1, fun _ => ⟨rfl, rfl, rfl⟩⟩
  rw [if_neg h2]
  by_cases h3 : dopri5_error M (dopri5_integrate_trial T target s).obj ≤ 1
  · rw [if_pos h3]
    obtain ⟨r, a1, a2, a3, a4, a5, a6⟩ := legacy_accept_history
      (dopri5_integrate_trial T target s)
      (dopri5_error M (dopri5_integrate_trial T target s).obj)
      (dopri5_h_new M (dopri5_integrate_trial T target s).obj
        (dopri5_integrate_trial T target s).fac_old (dopri5_integrate_trial T target s).h
        (dopri5_error M (dopri5_integrate_trial T target s).obj)) (by rw [t3, t5])
    obtain ⟨c1, c2, c3, c4⟩ := legacy_accept_core (dopri5_integrate_trial T target s)
      (dopri5_error M (dopri5_integrate_trial T target s).obj)
      (dopri5_h_new M (dopri5_integrate_trial T target s).obj
        (dopri5_integrate_trial T target s).fac_old (dopri5_integrate_trial T target s).h
        (dopri5_error M (dopri5_integrate_trial T target s).obj))
    rw [t5] at a1 a2 a3
    rw [t4] at a1
    refine ⟨c4.trans t5, ?_, fun _ => ⟨r, a1, a2, ?_, ?_, ?_, ?_, a6⟩,
      fun h => absurd ⟨h1, h2, h3⟩ h⟩
    · rw [a4]
      split_ifs
      · exact a3
      · exact a3
    · rw [a4]
      split_ifs <;> rfl
    · rw [a4]
      split_ifs
      · exact t1
      · show (if _ then _ else _) = (if _ then _ else _)
        simp only [t1, t2]
    · rw [c3, t4]
    · rw [a5, t6]
  · rw [if_neg h3]
    obtain ⟨-, -, -, r3, r4⟩ := legacy_reject_core M (dopri5_integrate_trial T target s)
      (dopri5_error M (dopri5_integrate_trial T target s).obj)
    have rf := (legacy_reject_frame M (dopri5_integrate_trial T target s)
      (dopri5_error M (dopri5_integrate_trial T target s).obj)).1
    have e : (dopri5_integrate_reject M (dopri5_integrate_trial T target s)
        (dopri5_error M (dopri5_integrate_trial T target s).obj)).state.obj.history
        = (dopri5_integrate_trial T target s).obj.history := by
      have := congrArg (fun x : loop_ctl integrate_state => x.state.obj.history) rf
      exact this
    have e2 : (dopri5_integrate_reject M (dopri5_integrate_trial T target s)
        (dopri5_error M (dopri5_integrate_trial T target s).obj)).state.obj.n_accept
        = (dopri5_integrate_trial T target s).obj.n_accept := by
      have := congrArg (fun x : loop_ctl integrate_state => x.state.obj.n_accept) rf
      exact this
    refine ⟨r4.trans t5, ?_, fun h => absurd h.2.2 h3, fun _ => ⟨?_, r3.trans t4, ?_⟩⟩
    · rw [e]; exact t3
    · rw [e]; exact t1
    · rw [e2]; exact t6

/-- A pass of the main loop of the legacy driver that continues keeps the chain of
the live records. -/
theorem legacy_history_chain_body (M : Libm) (T : Tableau) (target : deriv_func)
    (n : Nat) (t0 : ℚ) (s : integrate_state)
    (hI : s.obj.n = n ∧ s.obj.history.head.length = 5 * n + 2 ∧
      history_chain n t0 s.obj.t s.obj.n_accept s.obj.history.live) :
    (dopri5_integrate_body M T target s).state.obj.n = n ∧
    (dopri5_integrate_body M T target s).state.obj.history.head.length = 5 * n + 2 ∧
    List.Chain' (history_contiguous n)
      (dopri5_integrate_body M T target s).state.obj.history.live ∧
    ((dopri5_integrate_body M T target s).is_brk = false →
      history_chain n t0 (dopri5_integrate_body M T target s).state.obj.t
        (dopri5_integrate_body M T target s).state.obj.n_accept
        (dopri5_integrate_body M T target s).state.obj.history.live) := by
  obtain ⟨hn, hlen, hc⟩ := hI
  subst hn
  obtain ⟨b1, b2, b4, b5⟩ := legacy_body_history M T target s hlen
  refine ⟨b1, b2, ?_⟩
  by_cases hg : ¬ s.obj.n_step > s.obj.step_max_n ∧
      ¬ 1 / 10 * fabs s.h ≤ fabs s.obj.t * (10 * DBL_EPSILON) ∧
      dopri5_error M (dopri5_integrate_trial T target s).obj ≤ 1
  · obtain ⟨r, r1, r2, -, r3, r4, r5, r6⟩ := b4 hg
    have ha := history_chain_advance s.obj.n t0 s.obj.t _ s.obj.n_accept s.obj.history r
      hc r1 r2
    rw [r3, r4, r5, r6]
    cases hl : (dopri5_integrate_trial T target s).last with
    | true =>
      refine ⟨?_, fun h => by cases h⟩
      rw [if_pos rfl]
      exact hc.1
    | false =>
      have hf : ¬ (false = true) := by decide
      rw [if_neg hf]
      exact ⟨ha.1, fun _ => ha⟩
  · obtain ⟨r3, r4, r5⟩ := b5 hg
    rw [r3, r4, r5]
    exact ⟨hc.1, fun _ => hc⟩

/-- The chain of the live records at every head of the main loop of the legacy
driver. -/
theorem legacy_history_chain_head (M : Libm) (T : Tableau) (target : deriv_func)
    (obj : dopri5_data) (y times : List ℚ)
    (hlive : obj.history.live = []) (hlen : obj.history.head.length = 5 * obj.n + 2)
    (k : Nat) (s : integrate_state)
    (hs : loop_head (dopri5_integrate_body M T target) k
      (dopri5_integrate_init M target obj y times) = some s) :
    s.obj.n = obj.n ∧ s.obj.history.head.length = 5 * obj.n + 2 ∧
    history_chain obj.n (times.getD 0 0) s.obj.t s.obj.n_accept s.obj.history.live := by
  refine loop_head_inv (dopri5_integrate_body M T target)
    (fun s => s.obj.n = obj.n ∧ s.obj.history.head.length = 5 * obj.n + 2 ∧
      history_chain obj.n (times.getD 0 0) s.obj.t s.obj.n_accept s.obj.history.live)
    ?_ k _ s ?_ hs
  · intro a a' hI hb
    obtain ⟨c1, c2, -, c4⟩ := legacy_history_chain_body M T target obj.n (times.getD 0 0) a hI
    obtain ⟨e1, e2⟩ := ctl_cont _ a' hb
    rw [e1] at c1 c2 c4
    exact ⟨c1, c2, c4 e2⟩
  · obtain ⟨i1, i2, i3, i4⟩ := legacy_init_history M target obj y times
    rw [i1, i2, i3, i4, hlive]
    exact ⟨rfl, hlen, history_chain_nil obj.n (times.getD 0 0)⟩

/-- The live records are contiguous when `dopri5_integrate` returns. -/
theorem legacy_history_chain_return (M : Libm) (T : Tableau) (target : deriv_func)
    (obj : dopri5_data) (y times : List ℚ)
    (hlive : obj.history.live = []) (hlen : obj.history.head.length = 5 * obj.n + 2)
    (r : integrate_state) (hr : dopri5_integrate M T target obj y times = some r) :
    List.Chain' (history_contiguous obj.n) r.obj.history.live := by
  obtain ⟨k, s, h1, h2⟩ := while_true_exit _ _ _ _ hr
  have hI := legacy_history_chain_head M T target obj y times hlive hlen k s h1
  have := (legacy_history_chain_body M T target obj.n (times.getD 0 0) s hI).2.2.1
  rw [(ctl_brk _ r h2).1] at this
  exact this

end dopri5

/-! ## The claims -/

open dopri

/-- Claim C1 (dense-output consistency): for a step of size `h ≠ 0` from time `t`
and state `y` to the state `y1`, the history record that the driver finalises on
acceptance carries `t` and `h` as its trailing scalars, and for every component
below `n` the interpolant of that record at the time `t` is `y[i]` and at the time
`t + h` is `y1[i]`, whatever the stage values and the fifth plane are. This holds
for the record and the interpolation of the legacy driver (`dopri5_interpolate`,
`dopri5_interpolate1`) and for those of the new driver (`dopri_save_history`,
`dopri_interpolate_all`). -/
theorem C1_dense_output_consistency (obj : dopri5.dopri5_data) (o : dopri.dopri_data)
    (h : ℚ) (i j : Nat) (hh : h ≠ 0)
    (hi : i < obj.n) (hlen : obj.history.head.length = 5 * obj.n + 2)
    (hj : j < o.n) (hlen' : o.history.head.length = 5 * o.n + 2) :
    ((dopri5.save_history obj h).history.head.getD (5 * obj.n) 0 = obj.t ∧
      (dopri5.save_history obj h).history.head.getD (5 * obj.n + 1) 0 = h ∧
      (dopri5.dopri5_interpolate (dopri5.save_history obj h) obj.t).getD i 0
        = obj.y.getD i 0 ∧
      (dopri5.dopri5_interpolate (dopri5.save_history obj h) (obj.t + h)).getD i 0
        = obj.y1.getD i 0 ∧
      dopri5.dopri5_interpolate1 (dopri5.save_history obj h) obj.t i = obj.y.getD i 0 ∧
      dopri5.dopri5_interpolate1 (dopri5.save_history obj h) (obj.t + h) i
        = obj.y1.getD i 0) ∧
    ((dopri.dopri_save_history o h).history.head.getD (5 * o.n) 0 = o.t ∧
      (dopri.dopri_save_history o h).history.head.getD (5 * o.n + 1) 0 = h ∧
      (dopri.dopri_interpolate_all (dopri.dopri_save_history o h).history.head o.n o.t).getD j 0
        = o.y.getD j 0 ∧
      (dopri.dopri_interpolate_all (dopri.dopri_save_history o h).history.head o.n
        (o.t + h)).getD j 0 = o.y1.getD j 0) := by
  have hθ : (obj.t + h - obj.t) / h = 1 := by field_simp
  have hθ' : (o.t + h - o.t) / h = 1 := by field_simp
  have hn : (dopri5.save_history obj h).n = obj.n := rfl
  obtain ⟨r0, r1, r5, r6⟩ := save_history_reads obj h i hi hlen
  obtain ⟨q0, q1, q5, q6⟩ := dopri5_save_history_reads o h j hj hlen'
  refine ⟨⟨r5, r6, ?_, ?_, ?_, ?_⟩, q5, q6, ?_, ?_⟩
  · simp only [dopri5.dopri5_interpolate, hn, vec_getD _ _ _ hi, r0, r1, r5, r6, sub_self,
      zero_div, zero_mul, add_zero]
  · simp only [dopri5.dopri5_interpolate, hn, vec_getD _ _ _ hi, r0, r1, r5, r6, hθ]
    ring
  · simp only [dopri5.dopri5_interpolate1, hn, r0, r1, r5, r6, sub_self,
      zero_div, zero_mul, add_zero]
  · simp only [dopri5.dopri5_interpolate1, hn, r0, r1, r5, r6, hθ]
    ring
  · simp only [dopri.dopri_interpolate_all, dopri_5.dopri5_interpolate, vec_getD _ _ _ hj,
      getD_drop, Nat.add_zero, q0, q5, q6, sub_self, zero_div, zero_mul, add_zero]
  · simp only [dopri.dopri_interpolate_all, dopri_5.dopri5_interpolate, vec_getD _ _ _ hj,
      getD_drop, Nat.add_zero, q0, q5, q6, hθ', Nat.add_comm j o.n, q1]
    ring

/-- Claim C1 at a concrete step: one equation, `t = 2`, `y = 3`, `y1 = 5`,
`h = 1/2`, on freshly allocated solvers of both drivers. -/
theorem C1_dense_output_consistency_witness :
    (dopri5.dopri5_interpolate (dopri5.save_history
        { dopri5.dopri5_data_alloc 1 with t := 2, y := [3], y1 := [5], k1 := [1], k2 := [4] }
        (1 / 2)) 2).getD 0 0 = 3 ∧
    (dopri5.dopri5_interpolate (dopri5.save_history
        { dopri5.dopri5_data_alloc 1 with t := 2, y := [3], y1 := [5], k1 := [1], k2 := [4] }
        (1 / 2)) (2 + 1 / 2)).getD 0 0 = 5 ∧
    (dopri.dopri_interpolate_all (dopri.dopri_save_history
        { dopri.dopri_data_alloc 1 0 10 with t := 2, y := [3], y1 := [5] }
        (1 / 2)).history.head 1 2).getD 0 0 = 3 ∧
    (dopri.dopri_interpolate_all (dopri.dopri_save_history
        { dopri.dopri_data_alloc 1 0 10 with t := 2, y := [3], y1 := [5] }
        (1 / 2)).history.head 1 (2 + 1 / 2)).getD 0 0 = 5 :=
  have h := C1_dense_output_consistency
    { dopri5.dopri5_data_alloc 1 with t := 2, y := [3], y1 := [5], k1 := [1], k2 := [4] }
    { dopri.dopri_data_alloc 1 0 10 with t := 2, y := [3], y1 := [5] }
    (1 / 2) 0 0 (by decide!) (by decide) (by decide) (by decide) (by decide)
  ⟨h.1.2.2.1, h.1.2.2.2.1, h.2.2.2.1, h.2.2.2.2⟩

/-- Claim C2 evaluated (tcrit honouring): for `dy/dt = 0`, `y(0) = 0`,
`times = {0, 1.1}` and `tcrit = {0.5}` the run returns `OK_COMPLETE` in the forward
direction with the critical time still pending (`tcrit_idx = 0`); its accepted
steps, read from the history as (start, end), are the seven listed, and the last of
them goes from 0.111111 to 1.1, with 0.5 strictly inside: the end of the
integration is tested before the critical time when the step is clamped. On the
scenario with `times = {0, 0.5, 1, 1.5, 2}` and `tcrit = {1}` the driver returns
`ERR_STEP_SIZE_TOO_SMALL` before any trial step. -/
theorem C2_tcrit_stepped_over :
    ((dopri_integrate libm_roots dp5 target_zero output_none solver1 [0] [0, 11 / 10] [1 / 2]).map
      fun r => (r.obj.code, r.obj.sign, r.obj.t0, r.obj.tcrit_idx))
      = some (return_code.OK_COMPLETE, 1, 0, 0) ∧
    ((dopri_integrate libm_roots dp5 target_zero output_none solver1 [0] [0, 11 / 10] [1 / 2]).map
      fun r => r.obj.history.live.map fun record =>
        (record.getD 5 0, record.getD 5 0 + record.getD 6 0))
      = some [(0, 1 / 10 ^ 6), (1 / 10 ^ 6, 11 / 10 ^ 6), (11 / 10 ^ 6, 111 / 10 ^ 6),
          (111 / 10 ^ 6, 1111 / 10 ^ 6), (1111 / 10 ^ 6, 11111 / 10 ^ 6),
          (11111 / 10 ^ 6, 111111 / 10 ^ 6), (111111 / 10 ^ 6, 11 / 10)] ∧
    ((dopri_integrate libm_roots dp5 target_s3 output_none (dopri_data_alloc 1 0 10) [0]
        [0, 1 / 2, 1, 3 / 2, 2] [1]).map fun r => (r.obj.code, r.obj.n_step, r.obj.t))
      = some (return_code.ERR_STEP_SIZE_TOO_SMALL, 0, 0) := by
  decide!

/-- Claim C3 evaluated (output-time exactness): integrating `dy/dt = 0`, `y(1) = 7`
backwards over `times = {1, 0.5, 0}`, the first pass of the main loop accepts a
step from 1 to 0.999999 and reports both remaining output times from its record
(`times_idx = 3`, two values written), at `theta = 500000` for 0.5 and
`theta = 1000000` for 0: the test that reports a time compares it with `t`
without the direction. -/
theorem C3_reverse_outputs_extrapolated :
    ((loop_head (dopri_integrate_body libm_roots dp5 target_zero output_none) 1
        (dopri_integrate_init libm_roots target_zero solver1 [7] [1, 1 / 2, 0] [])).map
      fun s => (s.obj.sign, s.obj.n_accept, s.obj.t, s.obj.times_idx, s.y_out))
      = some (-1, 1, 999999 / 1000000, 3, [7, 7]) ∧
    ((loop_head (dopri_integrate_body libm_roots dp5 target_zero output_none) 1
        (dopri_integrate_init libm_roots target_zero solver1 [7] [1, 1 / 2, 0] [])).map
      fun s => s.obj.history.live.map fun record =>
        (record.getD 5 0, record.getD 6 0, (1 / 2 - record.getD 5 0) / record.getD 6 0,
          (0 - record.getD 5 0) / record.getD 6 0))
      = some [(1, -1 / 1000000, 500000, 1000000)] := by
  decide!

/-- Claim C4 evaluated (completion postcondition): integrating `dy/dt = 0`,
`y = 0` backwards over `times = {3e-6, 2.5e-6, 0}`, the run returns `OK_COMPLETE`
at `t = 0 = t_end` after two accepted steps with `times_idx = 1` of `n_times = 3`
and nothing written to `y_out`. -/
theorem C4_reverse_outputs_missing :
    ((dopri_integrate libm_roots dp5 target_zero output_none solver1 [0]
        [3 / 10 ^ 6, 25 / 10 ^ 7, 0] []).map
      fun r => (r.obj.code, r.obj.sign, r.obj.t, r.obj.n_accept))
      = some (return_code.OK_COMPLETE, -1, 0, 2) ∧
    ((dopri_integrate libm_roots dp5 target_zero output_none solver1 [0]
        [3 / 10 ^ 6, 25 / 10 ^ 7, 0] []).map
      fun r => (r.obj.n_times, r.obj.times_idx, r.y_out))
      = some (3, 1, []) := by
  decide!

/-- Claim C5 evaluated (lag queries at or before the initial time): on a solver
reset for a backward integration from `t0 = 1` with `y0 = 7`, the query time 2
has `(2 - t0) * sign ≤ 0` and the four lag functions search the (empty) history
and find nothing instead of giving `y0`; the query time 0 has
`(0 - t0) * sign > 0` and `ylag_1` gives `y0[0] = 7` whatever the history holds. -/
theorem C5_reverse_lag_queries :
    (dopri_data_reset solver1 [7] [1, 0] []).sign = -1 ∧
    (dopri_data_reset solver1 [7] [1, 0] []).t0 = 1 ∧
    (dopri_data_reset solver1 [7] [1, 0] []).y0 = [7] ∧
    ((2 - (dopri_data_reset solver1 [7] [1, 0] []).t0)
      * (dopri_data_reset solver1 [7] [1, 0] []).sign ≤ 0 ∧
      ylag_1 (dopri_data_reset solver1 [7] [1, 0] []) 2 0 = none ∧
      ylag_all (dopri_data_reset solver1 [7] [1, 0] []) 2 = none ∧
      ylag_vec (dopri_data_reset solver1 [7] [1, 0] []) 2 [0] = none ∧
      ylag_vec_int (dopri_data_reset solver1 [7] [1, 0] []) 2 [0] = none) ∧
    ((0 - (dopri_data_reset solver1 [7] [1, 0] []).t0)
      * (dopri_data_reset solver1 [7] [1, 0] []).sign > 0 ∧
      ∀ history : ring_buffer,
        ylag_1 { dopri_data_reset solver1 [7] [1, 0] [] with history := history } 0 0
          = some 7) := by
  refine ⟨by decide!, by decide!, by decide!, by decide!, by decide!, ?_⟩
  intro history
  have h : (0 : ℚ) ≤ (dopri_data_reset solver1 [7] [1, 0] []).t0 := by decide!
  exact if_pos h

/-- Claim C6 as stated fails: for `dy/dt = 0`, `y(0) = 0`, `times = {0, 2e-6}` on
a solver with `step_size_initial = 0`, the first run completes with
`n_eval = n_step = n_accept = 2` and leaves `step_size_initial = 1e-5`; the second
run on the same solver with the same arguments completes with
`n_eval = n_step = n_accept = 1`. -/
theorem C6_second_run_differs :
    ((dopri_integrate libm_roots dp5 target_zero output_none solver1 [0] [0, 2 / 10 ^ 6] []).map
      fun r => (r.obj.code, r.y_out, r.obj.step_size_initial))
      = some (return_code.OK_COMPLETE, [0], 1 / 10 ^ 5) ∧
    ((dopri_integrate libm_roots dp5 target_zero output_none solver1 [0] [0, 2 / 10 ^ 6] []).map
      fun r => (r.obj.n_eval, r.obj.n_step, r.obj.n_accept, r.obj.n_reject))
      = some (2, 2, 2, 0) ∧
    (((dopri_integrate libm_roots dp5 target_zero output_none solver1 [0] [0, 2 / 10 ^ 6] []).bind
        fun r1 => dopri_integrate libm_roots dp5 target_zero output_none r1.obj [0]
          [0, 2 / 10 ^ 6] []).map
      fun r => (r.obj.code, r.y_out, r.obj.step_size_initial))
      = some (return_code.OK_COMPLETE, [0], 1 / 10 ^ 5) ∧
    (((dopri_integrate libm_roots dp5 target_zero output_none solver1 [0] [0, 2 / 10 ^ 6] []).bind
        fun r1 => dopri_integrate libm_roots dp5 target_zero output_none r1.obj [0]
          [0, 2 / 10 ^ 6] []).map
      fun r => (r.obj.n_eval, r.obj.n_step, r.obj.n_accept, r.obj.n_reject))
      = some (1, 1, 1, 0) := by
  decide!

/-- Claim C6 amended (idempotent reset): for a derivative function and an output
function of `(t, y)` alone, on a solver with stage storage and history scratch
slot of the allocated sizes, if a run of `dopri_integrate` leaves
`step_size_initial` as it was before the run, then a second run on the same solver
with the same arguments returns and gives the same `y_out`, the same `out`, the
same `n_eval`, `n_step`, `n_accept`, `n_reject`, the same code and the same error
flag as the first. -/
theorem C6_reset_idempotent (M : Libm) (T : Tableau) (g og : ℚ → List ℚ → List ℚ)
    (obj : dopri_data) (y times tcrit : List ℚ) (r1 : integrate_state)
    (hk : obj.k.length = 7) (hh : obj.history.head.length = 5 * obj.n + 2)
    (h1 : dopri_integrate M T (fun _ => g) (fun _ => og) obj y times tcrit = some r1)
    (hs : r1.obj.step_size_initial = obj.step_size_initial) :
    ∃ r2, dopri_integrate M T (fun _ => g) (fun _ => og) r1.obj y times tcrit = some r2 ∧
      r2.y_out = r1.y_out ∧ r2.out = r1.out ∧ r2.obj.n_eval = r1.obj.n_eval ∧
      r2.obj.n_step = r1.obj.n_step ∧ r2.obj.n_accept = r1.obj.n_accept ∧
      r2.obj.n_reject = r1.obj.n_reject ∧ r2.obj.code = r1.obj.code ∧
      r2.obj.error = r1.obj.error := by
  obtain ⟨r, hr, rfl⟩ := dopri_integrate_eq M T _ _ obj y times tcrit r1 h1
  simp only at hs ⊢
  have hc : config r.obj = config obj := by
    rw [config_loop M T _ _ _ _ r hr, config_init]
  have hrefl := init_rel M g obj obj y times tcrit rfl rfl hk hk hh hh
  obtain ⟨r', hr', hrr⟩ := while_true_rel (dopri_integrate_body M T (fun _ => g) (fun _ => og))
    same_core (body_rel M T g og) _ _ _ r hrefl hr
  rw [hr] at hr'
  simp only [Option.some.injEq] at hr'
  subst hr'
  obtain ⟨-, -, -, -, wk, -, -, wh, -⟩ := hrr
  have hn : r.obj.n = obj.n := by
    have := congrArg (fun c => c.2.1) hc
    exact this
  have hmax : r.obj.step_max_n = obj.step_max_n := by
    have := congrArg (fun c => c.2.2.2.2.2.1) hc
    exact this
  have hrel := init_rel M g obj r.obj y times tcrit hc.symm hs.symm hk wk hh (by rw [wh, hn])
  obtain ⟨r2, hr2, h2⟩ := while_true_rel (dopri_integrate_body M T (fun _ => g) (fun _ => og))
    same_core (body_rel M T g og) _ _ _ r hrel hr
  obtain ⟨y1', k', hist, e, -⟩ := h2
  refine ⟨{ r2 with dde_global_obj := false }, ?_, ?_⟩
  · unfold dopri_integrate
    rw [hmax, hr2]
    rfl
  · rw [e]
    exact ⟨rfl, rfl, rfl, rfl, rfl, rfl, rfl, rfl⟩

/-- Claim C6 amended, at a concrete problem: `dy/dt = 0`, `y(0) = 0`,
`times = {0, 2}` on a solver with `step_size_initial = 5`, which the first run
leaves at 5. -/
theorem C6_reset_idempotent_witness :
    ∃ r1 r2,
      dopri_integrate libm_roots dp5 target_zero output_none
        { solver1 with step_size_initial := 5 } [0] [0, 2] [] = some r1 ∧
      r1.obj.step_size_initial = 5 ∧
      dopri_integrate libm_roots dp5 target_zero output_none r1.obj [0] [0, 2] [] = some r2 ∧
      r2.y_out = r1.y_out ∧ r2.out = r1.out ∧ r2.obj.n_eval = r1.obj.n_eval ∧
      r2.obj.n_step = r1.obj.n_step ∧ r2.obj.n_accept = r1.obj.n_accept ∧
      r2.obj.n_reject = r1.obj.n_reject ∧ r2.obj.code = r1.obj.code ∧
      r2.obj.error = r1.obj.error := by
  obtain ⟨r, -, h1⟩ := dopri_integrate_some libm_roots dp5 target_zero output_none
    { solver1 with step_size_initial := 5 } [0] [0, 2] []
  have hs : (dopri_integrate libm_roots dp5 target_zero output_none
      { solver1 with step_size_initial := 5 } [0] [0, 2] []).map
      (fun r => r.obj.step_size_initial) = some 5 := by decide!
  rw [h1] at hs
  simp only [Option.map_some', Option.some.injEq] at hs
  obtain ⟨r2, h2⟩ := C6_reset_idempotent libm_roots dp5 (fun _ _ => [0]) (fun _ _ => [])
    { solver1 with step_size_initial := 5 } [0] [0, 2] [] _ (by decide) (by decide) h1 hs
  exact ⟨_, r2, h1, hs, h2⟩

/-- Claim C7 as stated fails: with `step_max_n = 5`, `dy/dt = 0` and
`times = {0, 1}`, both the new and the legacy driver return `ERR_TOO_MANY_STEPS`
with `n_step = 6`. -/
theorem C7_step_count_exceeds_cap :
    ((dopri_integrate libm_roots dp5 target_zero output_none { solver1 with step_max_n := 5 } [1]
        [0, 1] []).map
      fun r => (r.obj.code, r.obj.error, r.obj.step_max_n, r.obj.n_step,
        decide (r.obj.n_step ≤ r.obj.step_max_n)))
      = some (return_code.ERR_TOO_MANY_STEPS, true, 5, 6, false) ∧
    ((dopri5.dopri5_integrate libm_roots dp5 (fun _ _ => [0])
        { dopri5.dopri5_data_alloc 1 with step_max_n := 5, step_beta := 0 } [1] [0, 1]).map
      fun r => (r.obj.code, r.obj.error, r.obj.step_max_n, r.obj.n_step,
        decide (r.obj.n_step ≤ r.obj.step_max_n)))
      = some (return_code.ERR_TOO_MANY_STEPS, true, 5, 6, false) := by
  decide!

/-- Claim C7 amended (step cap): every run of `dopri_integrate` and of the legacy
`dopri5_integrate` returns, whatever the derivative function, the libm functions
and the constants of the method; `step_max_n` is not changed by the run, and
`n_step ≤ step_max_n + 1` holds on return and at the head of every pass through
the main loop. -/
theorem C7_step_count_bound (M : Libm) (T : Tableau) (target : dopri.deriv_func)
    (output : dopri.output_func) (obj : dopri.dopri_data) (y times tcrit : List ℚ)
    (target5 : dopri5.deriv_func) (obj5 : dopri5.dopri5_data) (y5 times5 : List ℚ) :
    (∃ r, dopri.dopri_integrate M T target output obj y times tcrit = some r ∧
      r.obj.step_max_n = obj.step_max_n ∧ r.obj.n_step ≤ obj.step_max_n + 1) ∧
    (∀ k s, loop_head (dopri.dopri_integrate_body M T target output) k
        (dopri.dopri_integrate_init M target obj y times tcrit) = some s →
      s.obj.step_max_n = obj.step_max_n ∧ s.obj.n_step ≤ obj.step_max_n + 1) ∧
    (∃ r, dopri5.dopri5_integrate M T target5 obj5 y5 times5 = some r ∧
      r.obj.step_max_n = obj5.step_max_n ∧ r.obj.n_step ≤ obj5.step_max_n + 1) ∧
    (∀ k s, loop_head (dopri5.dopri5_integrate_body M T target5) k
        (dopri5.dopri5_integrate_init M target5 obj5 y5 times5) = some s →
      s.obj.step_max_n = obj5.step_max_n ∧ s.obj.n_step ≤ obj5.step_max_n + 1) := by
  refine ⟨?_, ?_, ?_, ?_⟩
  · obtain ⟨r, hr, hrun⟩ := dopri.dopri_integrate_some M T target output obj y times tcrit
    have hI := dopri.counters_inv_loop M T target output obj.step_max_n _ _ r
      (dopri.counters_inv_init M target obj y times tcrit) hr
    exact ⟨_, hrun, hI.1, hI.2.1⟩
  · intro k s hs
    have hI := dopri.counters_inv_head M T target output obj.step_max_n k _ s
      (dopri.counters_inv_init M target obj y times tcrit) hs
    exact ⟨hI.1, hI.2.1⟩
  · obtain ⟨r, hr⟩ := dopri5.dopri5_integrate_some M T target5 obj5 y5 times5
    have hI := dopri5.steps_inv_loop M T target5 obj5.step_max_n _ _ r
      (dopri5.steps_inv_init M target5 obj5 y5 times5) hr
    exact ⟨r, hr, hI.1, hI.2⟩
  · intro k s hs
    have hI := dopri5.steps_inv_head M T target5 obj5.step_max_n k _ s
      (dopri5.steps_inv_init M target5 obj5 y5 times5) hs
    exact ⟨hI.1, hI.2⟩

/-- Claim C8 as stated fails: for a derivative that is 1 at `t = 0.3` and 0
elsewhere, with `step_size_initial = 1`, `rtol = 0` and `atol = 71/534240`, the
first trial step is rejected before any step has been accepted, and the run
returns `OK_COMPLETE` with `n_step = 4`, `n_accept = 3`, `n_reject = 0`. -/
theorem C8_uncounted_rejection :
    ((dopri_integrate libm_roots dp5 target_spike output_none
        { solver1 with step_size_initial := 1, rtol := 0, atol := 71 / (16695 * 32) } [0]
        [0, 1] []).map
      fun r => (r.obj.code, r.obj.n_step, r.obj.n_accept, r.obj.n_reject,
        decide (r.obj.n_step = r.obj.n_accept + r.obj.n_reject)))
      = some (return_code.OK_COMPLETE, 4, 3, 0, false) := by
  decide!

/-- Claim C8 amended (conservation of counts): every run of `dopri_integrate`
returns with `n_accept + n_reject ≤ n_step`, and with
`n_step = n_accept + n_reject` when the error estimate of the first trial step of
the run is at most 1, so that no trial step is rejected before the first
acceptance. -/
theorem C8_count_conservation (M : Libm) (T : Tableau) (target : dopri.deriv_func)
    (output : dopri.output_func) (obj : dopri.dopri_data) (y times tcrit : List ℚ) :
    ∃ r, dopri.dopri_integrate M T target output obj y times tcrit = some r ∧
      r.obj.n_accept + r.obj.n_reject ≤ r.obj.n_step ∧
      (dopri.dopri_error M (dopri.dopri_integrate_trial T target
          (dopri.dopri_integrate_init M target obj y times tcrit)).obj ≤ 1 →
        r.obj.n_step = r.obj.n_accept + r.obj.n_reject) := by
  obtain ⟨r, hr, hrun⟩ := dopri.dopri_integrate_some M T target output obj y times tcrit
  have hI := dopri.counters_inv_loop M T target output obj.step_max_n _ _ r
    (dopri.counters_inv_init M target obj y times tcrit) hr
  obtain ⟨i1, i2, i3, -⟩ := dopri.init_counters M target obj y times tcrit
  exact ⟨_, hrun, hI.2.2.1, fun h =>
    dopri.first_accepted_loop M T target output _ _ r i1 i2 i3 h hr⟩

/-- Claim C8 amended, at a concrete problem: `dy/dt = 0`, `y(0) = 0`,
`times = {0, 2e-6}`, where the first trial step has the error estimate 0. -/
theorem C8_count_conservation_witness :
    dopri_error libm_roots (dopri_integrate_trial dp5 target_zero
      (dopri_integrate_init libm_roots target_zero solver1 [0] [0, 2 / 10 ^ 6] [])).obj ≤ 1 ∧
    ∃ r, dopri_integrate libm_roots dp5 target_zero output_none solver1 [0] [0, 2 / 10 ^ 6] []
        = some r ∧
      r.obj.n_step = r.obj.n_accept + r.obj.n_reject := by
  obtain ⟨r, h1, -, h3⟩ := C8_count_conservation libm_roots dp5 target_zero output_none solver1
    [0] [0, 2 / 10 ^ 6] []
  have h : dopri_error libm_roots (dopri_integrate_trial dp5 target_zero
      (dopri_integrate_init libm_roots target_zero solver1 [0] [0, 2 / 10 ^ 6] [])).obj ≤ 1 := by
    decide!
  exact ⟨h, r, h1, h3 h⟩

/-- Claim C9 as stated fails: for `dy/dt = 0`, `y(0) = 0`,
`times = {0, 0.5, 1, 1.5, 2}` and `step_size_initial = 5`, the run returns
`OK_COMPLETE` after one accepted step that reports all four output times
(`n_accept = 1`, `times_idx = 5`). -/
theorem C9_one_step_many_outputs :
    ((dopri_integrate libm_roots dp5 target_zero output_none
        { solver1 with step_size_initial := 5 } [0] [0, 1 / 2, 1, 3 / 2, 2] []).map
      fun r => (r.obj.code, r.obj.n_accept, r.obj.times_idx,
        decide (r.obj.n_accept ≥ r.obj.times_idx - 1)))
      = some (return_code.OK_COMPLETE, 1, 5, false) := by
  decide!

/-- Claim C9 amended (accepted steps and reported times): every run of
`dopri_integrate` returns with `times_idx ≥ 1`; when it returns `OK_COMPLETE` at
least one step has been accepted, and when at least one output time has been
reported (`times_idx > 1`) at least one step has been accepted. -/
theorem C9_accepted_steps_reported_times (M : Libm) (T : Tableau) (target : dopri.deriv_func)
    (output : dopri.output_func) (obj : dopri.dopri_data) (y times tcrit : List ℚ) :
    ∃ r, dopri.dopri_integrate M T target output obj y times tcrit = some r ∧
      1 ≤ r.obj.times_idx ∧
      (r.obj.code = return_code.OK_COMPLETE → 1 ≤ r.obj.n_accept) ∧
      (1 < r.obj.times_idx → 1 ≤ r.obj.n_accept) := by
  obtain ⟨r, hr, hrun⟩ := dopri.dopri_integrate_some M T target output obj y times tcrit
  have hI := dopri.counters_inv_loop M T target output obj.step_max_n _ _ r
    (dopri.counters_inv_init M target obj y times tcrit) hr
  exact ⟨_, hrun, hI.2.2.2.1, hI.2.2.2.2.2, fun h => hI.2.2.2.2.1 (Nat.ne_of_gt h)⟩

/-- Claim C9 amended, at the run of five output times reported by one accepted
step. -/
theorem C9_accepted_steps_reported_times_witness :
    ∃ r, dopri_integrate libm_roots dp5 target_zero output_none
        { solver1 with step_size_initial := 5 } [0] [0, 1 / 2, 1, 3 / 2, 2] [] = some r ∧
      r.obj.code = return_code.OK_COMPLETE ∧ 1 < r.obj.times_idx ∧ 1 ≤ r.obj.n_accept := by
  obtain ⟨r, h1, -, h3, -⟩ := C9_accepted_steps_reported_times libm_roots dp5 target_zero
    output_none { solver1 with step_size_initial := 5 } [0] [0, 1 / 2, 1, 3 / 2, 2] []
  have hc : (dopri_integrate libm_roots dp5 target_zero output_none
      { solver1 with step_size_initial := 5 } [0] [0, 1 / 2, 1, 3 / 2, 2] []).map
      (fun r => (r.obj.code, r.obj.times_idx)) = some (return_code.OK_COMPLETE, 5) := by decide!
  rw [h1] at hc
  simp only [Option.map_some', Option.some.injEq, Prod.mk.injEq] at hc
  exact ⟨r, h1, hc.1, by rw [hc.2]; decide, h3 hc.1⟩

/-- Claim C10 evaluated (monotone time): integrating `dy/dt = 0` backwards over
`times = {1, 0}` with `step_size_initial = 0.5`, the first pass of the main loop
accepts a step from `t = 1` to `t = 1.5`, against the direction; and integrating
forwards over `times = {0, 1}` with `tcrit = {0}`, the first pass accepts a step
of size 0 from `t = 0` to `t = 0`. -/
theorem C10_accepted_step_backwards :
    ((loop_head (dopri_integrate_body libm_roots dp5 target_zero output_none) 1
        (dopri_integrate_init libm_roots target_zero { solver1 with step_size_initial := 1 / 2 }
          [0] [1, 0] [])).map
      fun s => (s.obj.sign, s.obj.n_accept, s.obj.t0, s.obj.t,
        decide ((s.obj.t - s.obj.t0) * s.obj.sign > 0)))
      = some (-1, 1, 1, 3 / 2, false) ∧
    ((loop_head (dopri_integrate_body libm_roots dp5 target_zero output_none) 1
        (dopri_integrate_init libm_roots target_zero solver1 [0] [0, 1] [0])).map
      fun s => (s.obj.sign, s.obj.n_accept, s.obj.t0, s.obj.t,
        decide ((s.obj.t - s.obj.t0) * s.obj.sign > 0)))
      = some (1, 1, 0, 0, false) := by
  decide!

/-- Claim C11 (FSAL identity): for a derivative function `g` of `(t, y)` alone that
returns `n` values, on a solver with the allocated stage arrays: the driver seeds
`k[0] = g(t0, y0)`; at the head of every pass of the main loop `k[0] = g(t, y)`;
a pass whose trial step is accepted ends at `t + h` and `y1`, the state computed
by the kernel, with `k[0] = g(t + h, y1)`; a pass whose trial step is rejected
leaves `k[0]`, `y` and `t` as they were.  The same holds for `k1` in the legacy
driver. -/
theorem C11_fsal_identity (M : Libm) (T : Tableau) (g g5 : ℚ → List ℚ → List ℚ)
    (output : dopri.output_func) (obj : dopri.dopri_data) (y times tcrit : List ℚ)
    (obj5 : dopri5.dopri5_data) (y5 times5 : List ℚ)
    (hk : obj.k.length = 7) (hg : ∀ t x, (g t x).length = obj.n)
    (hg5 : ∀ t x, (g5 t x).length = obj5.n) :
    ((dopri_integrate_init M (fun _ => g) obj y times tcrit).obj.k.getD 0 []
        = g (times.getD 0 0) (y.take obj.n) ∧
      (dopri_integrate_init M (fun _ => g) obj y times tcrit).obj.t = times.getD 0 0 ∧
      (dopri_integrate_init M (fun _ => g) obj y times tcrit).obj.y = y.take obj.n ∧
      ∀ k s, loop_head (dopri_integrate_body M T (fun _ => g) output) k
          (dopri_integrate_init M (fun _ => g) obj y times tcrit) = some s →
        s.obj.k.getD 0 [] = g s.obj.t s.obj.y ∧
        (¬ s.obj.n_step > s.obj.step_max_n →
          ¬ 1 / 10 * fabs s.h ≤ fabs s.obj.t * (10 * DBL_EPSILON) →
          (dopri_error M (dopri_integrate_trial T (fun _ => g) s).obj ≤ 1 →
            (dopri_integrate_body M T (fun _ => g) output s).state.obj.t
              = s.obj.t + (dopri_integrate_trial T (fun _ => g) s).h ∧
            (dopri_integrate_body M T (fun _ => g) output s).state.obj.y
              = (dopri_integrate_trial T (fun _ => g) s).obj.y1 ∧
            (dopri_integrate_body M T (fun _ => g) output s).state.obj.k.getD 0 []
              = g (dopri_integrate_body M T (fun _ => g) output s).state.obj.t
                  (dopri_integrate_body M T (fun _ => g) output s).state.obj.y) ∧
          (¬ dopri_error M (dopri_integrate_trial T (fun _ => g) s).obj ≤ 1 →
            (dopri_integrate_body M T (fun _ => g) output s).is_brk = false ∧
            (dopri_integrate_body M T (fun _ => g) output s).state.obj.k.getD 0 []
              = s.obj.k.getD 0 [] ∧
            (dopri_integrate_body M T (fun _ => g) output s).state.obj.y = s.obj.y ∧
            (dopri_integrate_body M T (fun _ => g) output s).state.obj.t = s.obj.t))) ∧
    ((dopri5.dopri5_integrate_init M g5 obj5 y5 times5).obj.k1
        = g5 (times5.getD 0 0) (y5.take obj5.n) ∧
      (dopri5.dopri5_integrate_init M g5 obj5 y5 times5).obj.t = times5.getD 0 0 ∧
      (dopri5.dopri5_integrate_init M g5 obj5 y5 times5).obj.y = y5.take obj5.n ∧
      ∀ k s, loop_head (dopri5.dopri5_integrate_body M T g5) k
          (dopri5.dopri5_integrate_init M g5 obj5 y5 times5) = some s →
        s.obj.k1 = g5 s.obj.t s.obj.y ∧
        (¬ s.obj.n_step > s.obj.step_max_n →
          ¬ 1 / 10 * fabs s.h ≤ fabs s.obj.t * (10 * DBL_EPSILON) →
          (dopri5.dopri5_error M (dopri5.dopri5_integrate_trial T g5 s).obj ≤ 1 →
            (dopri5.dopri5_integrate_body M T g5 s).state.obj.t
              = s.obj.t + (dopri5.dopri5_integrate_trial T g5 s).h ∧
            (dopri5.dopri5_integrate_body M T g5 s).state.obj.y
              = (dopri5.dopri5_integrate_trial T g5 s).obj.y1 ∧
            (dopri5.dopri5_integrate_body M T g5 s).state.obj.k1
              = g5 (dopri5.dopri5_integrate_body M T g5 s).state.obj.t
                  (dopri5.dopri5_integrate_body M T g5 s).state.obj.y) ∧
          (¬ dopri5.dopri5_error M (dopri5.dopri5_integrate_trial T g5 s).obj ≤ 1 →
            (dopri5.dopri5_integrate_body M T g5 s).is_brk = false ∧
            (dopri5.dopri5_integrate_body M T g5 s).state.obj.k1 = s.obj.k1 ∧
            (dopri5.dopri5_integrate_body M T g5 s).state.obj.y = s.obj.y ∧
            (dopri5.dopri5_integrate_body M T g5 s).state.obj.t = s.obj.t))) := by
  constructor
  · obtain ⟨i1, i2, i3, -, -⟩ := init_fsal M g obj y times tcrit hk
    refine ⟨i1, i2, i3, ?_⟩
    intro k s hs
    obtain ⟨x1, x2, x3⟩ := head_fsal M T g output obj y times tcrit hk hg k s hs
    refine ⟨x3, fun g1 g2 => ?_⟩
    exact (body_fsal M T g output s x1 (by rw [x2]; exact hg) g1 g2).2.2
  · obtain ⟨i1, i2, i3, -⟩ := dopri5.legacy_init_fsal M g5 obj5 y5 times5
    refine ⟨i1, i2, i3, ?_⟩
    intro k s hs
    obtain ⟨x2, x3⟩ := dopri5.legacy_head_fsal M T g5 obj5 y5 times5 hg5 k s hs
    refine ⟨x3, fun g1 g2 => ?_⟩
    exact (dopri5.legacy_body_fsal M T g5 s (by rw [x2]; exact hg5) g1 g2).2

/-- Claim C11 at a concrete problem: `dy/dt = y + t`, `y(0) = 1`, `times = {0, 1}`;
after two accepted steps the first stage slot holds `y + t` at the current `t`
and `y`, in both drivers. -/
theorem C11_fsal_identity_witness :
    (∃ s, loop_head (dopri_integrate_body libm_roots dp5 (fun _ t x => [x.getD 0 0 + t])
          output_none) 2
          (dopri_integrate_init libm_roots (fun _ t x => [x.getD 0 0 + t]) solver1 [1] [0, 1] [])
          = some s ∧
        s.obj.n_accept = 2 ∧ s.obj.k.getD 0 [] = [s.obj.y.getD 0 0 + s.obj.t]) ∧
    (∃ s, loop_head (dopri5.dopri5_integrate_body libm_roots dp5 (fun t x => [x.getD 0 0 + t])) 2
          (dopri5.dopri5_integrate_init libm_roots (fun t x => [x.getD 0 0 + t])
            { dopri5.dopri5_data_alloc 1 with step_beta := 0 } [1] [0, 1])
          = some s ∧
        s.obj.n_accept = 2 ∧ s.obj.k1 = [s.obj.y.getD 0 0 + s.obj.t]) := by
  have h := C11_fsal_identity libm_roots dp5 (fun t x => [x.getD 0 0 + t])
    (fun t x => [x.getD 0 0 + t]) output_none solver1 [1] [0, 1] []
    { dopri5.dopri5_data_alloc 1 with step_beta := 0 } [1] [0, 1]
    (by decide) (fun _ _ => rfl) (fun _ _ => rfl)
  have e1 : ((loop_head (dopri_integrate_body libm_roots dp5 (fun _ t x => [x.getD 0 0 + t])
      output_none) 2
      (dopri_integrate_init libm_roots (fun _ t x => [x.getD 0 0 + t]) solver1 [1] [0, 1] [])).map
      fun s => s.obj.n_accept) = some 2 := by decide!
  have e2 : ((loop_head (dopri5.dopri5_integrate_body libm_roots dp5
      (fun t x => [x.getD 0 0 + t])) 2
      (dopri5.dopri5_integrate_init libm_roots (fun t x => [x.getD 0 0 + t])
        { dopri5.dopri5_data_alloc 1 with step_beta := 0 } [1] [0, 1])).map
      fun s => s.obj.n_accept) = some 2 := by decide!
  constructor
  · cases hs : loop_head (dopri_integrate_body libm_roots dp5 (fun _ t x => [x.getD 0 0 + t])
      output_none) 2
      (dopri_integrate_init libm_roots (fun _ t x => [x.getD 0 0 + t]) solver1 [1] [0, 1] []) with
    | none => rw [hs] at e1; cases e1
    | some s =>
      rw [hs] at e1
      exact ⟨s, rfl, Option.some.inj e1, (h.1.2.2.2 2 s hs).1⟩
  · cases hs : loop_head (dopri5.dopri5_integrate_body libm_roots dp5
      (fun t x => [x.getD 0 0 + t])) 2
      (dopri5.dopri5_integrate_init libm_roots (fun t x => [x.getD 0 0 + t])
        { dopri5.dopri5_data_alloc 1 with step_beta := 0 } [1] [0, 1]) with
    | none => rw [hs] at e2; cases e2
    | some s =>
      rw [hs] at e2
      exact ⟨s, rfl, Option.some.inj e2, (h.2.2.2.2 2 s hs).1⟩

/-- Claim C12 (step-ratio bracket): when `0 < step_factor_min ≤ step_factor_max`,
`dopri_h_new` returns `h / max(1/step_factor_max, min(1/step_factor_min,
err^(0.2 - 0.75 step_beta) / fac_old^step_beta / step_factor_safe))`, whatever
`pow` returns; the result has the sign of `h` and
`step_factor_min |h| ≤ |h_new| ≤ step_factor_max |h|`.  The same holds for
`dopri5_h_new`. -/
theorem C12_step_ratio_bracket (M : Libm) (obj : dopri.dopri_data) (obj5 : dopri5.dopri5_data)
    (fac_old h err : ℚ)
    (hmin : 0 < obj.step_factor_min) (hmax : obj.step_factor_min ≤ obj.step_factor_max)
    (hmin5 : 0 < obj5.step_factor_min) (hmax5 : obj5.step_factor_min ≤ obj5.step_factor_max) :
    (dopri.dopri_h_new M obj fac_old h err
        = h / max (1 / obj.step_factor_max) (min (1 / obj.step_factor_min)
            (M.pow err (2 / 10 - 75 / 100 * obj.step_beta) / M.pow fac_old obj.step_beta
              / obj.step_factor_safe)) ∧
      (0 < h → 0 < dopri.dopri_h_new M obj fac_old h err) ∧
      (h < 0 → dopri.dopri_h_new M obj fac_old h err < 0) ∧
      (h = 0 → dopri.dopri_h_new M obj fac_old h err = 0) ∧
      obj.step_factor_min * |h| ≤ |dopri.dopri_h_new M obj fac_old h err| ∧
      |dopri.dopri_h_new M obj fac_old h err| ≤ obj.step_factor_max * |h|) ∧
    (dopri5.dopri5_h_new M obj5 fac_old h err
        = h / max (1 / obj5.step_factor_max) (min (1 / obj5.step_factor_min)
            (M.pow err (2 / 10 - 75 / 100 * obj5.step_beta) / M.pow fac_old obj5.step_beta
              / obj5.step_factor_safe)) ∧
      (0 < h → 0 < dopri5.dopri5_h_new M obj5 fac_old h err) ∧
      (h < 0 → dopri5.dopri5_h_new M obj5 fac_old h err < 0) ∧
      (h = 0 → dopri5.dopri5_h_new M obj5 fac_old h err = 0) ∧
      obj5.step_factor_min * |h| ≤ |dopri5.dopri5_h_new M obj5 fac_old h err| ∧
      |dopri5.dopri5_h_new M obj5 fac_old h err| ≤ obj5.step_factor_max * |h|) := by
  constructor
  · obtain ⟨c1, c2⟩ := clamp_bracket obj.step_factor_min obj.step_factor_max
      (M.pow err (2 / 10 - obj.step_beta * (75 / 100)) / M.pow fac_old obj.step_beta
        / obj.step_factor_safe) hmin hmax
    refine ⟨?_, ratio_bracket _ _ _ h hmin hmax c1 c2⟩
    simp only [dopri.dopri_h_new, fmax, fmin, mul_comm]
  · obtain ⟨c1, c2⟩ := clamp_bracket obj5.step_factor_min obj5.step_factor_max
      (M.pow err (2 / 10 - obj5.step_beta * (75 / 100)) / M.pow fac_old obj5.step_beta
        / obj5.step_factor_safe) hmin5 hmax5
    refine ⟨?_, ratio_bracket _ _ _ h hmin5 hmax5 c1 c2⟩
    simp only [dopri5.dopri5_h_new, fmax, fmin, mul_comm]

/-- Claim C12 at concrete values: `h = -1/2` with the default factors 0.2 and 10,
for the error 32 in the new driver (ratio 9/20) and the error 0 in the legacy
driver (ratio 10). -/
theorem C12_step_ratio_bracket_witness :
    dopri.dopri_h_new libm_roots solver1 (1 / 10 ^ 4) (-1 / 2) 32 = -9 / 40 ∧
    dopri5.dopri5_h_new libm_roots { dopri5.dopri5_data_alloc 1 with step_beta := 0 }
      (1 / 10 ^ 4) (-1 / 2) 0 = -5 ∧
    (2 / 10 : ℚ) * |(-1 / 2 : ℚ)| ≤ |dopri.dopri_h_new libm_roots solver1 (1 / 10 ^ 4) (-1 / 2) 32| ∧
    |dopri5.dopri5_h_new libm_roots { dopri5.dopri5_data_alloc 1 with step_beta := 0 }
      (1 / 10 ^ 4) (-1 / 2) 0| ≤ 10 * |(-1 / 2 : ℚ)| :=
  have h := C12_step_ratio_bracket libm_roots solver1
    { dopri5.dopri5_data_alloc 1 with step_beta := 0 } (1 / 10 ^ 4) (-1 / 2) 32
    (by decide!) (by decide!) (by decide!) (by decide!)
  have h0 := C12_step_ratio_bracket libm_roots solver1
    { dopri5.dopri5_data_alloc 1 with step_beta := 0 } (1 / 10 ^ 4) (-1 / 2) 0
    (by decide!) (by decide!) (by decide!) (by decide!)
  ⟨by decide!, by decide!, h.1.2.2.2.2.1, h0.2.2.2.2.2.2⟩

/-- Claim C13 evaluated (signed initial step): on a solver with
`step_size_initial = 0.5` reset for a backward integration over `times = {1, 0}`
(`sign = -1`), `dopri_h_init` returns 0.5, not -0.5, and leaves the solver as it
was, without a call of the derivative function; the legacy `dopri5_h_init` does
the same. -/
theorem C13_initial_step_unsigned :
    (dopri_data_reset { solver1 with step_size_initial := 1 / 2 } [0] [1, 0] []).sign = -1 ∧
    (dopri_h_init libm_roots target_zero
      (dopri_data_reset { solver1 with step_size_initial := 1 / 2 } [0] [1, 0] [])).1 = 1 / 2 ∧
    (dopri_h_init libm_roots target_zero
      (dopri_data_reset { solver1 with step_size_initial := 1 / 2 } [0] [1, 0] [])).2
      = dopri_data_reset { solver1 with step_size_initial := 1 / 2 } [0] [1, 0] [] ∧
    (dopri5.dopri5_data_reset { dopri5.dopri5_data_alloc 1 with step_size_initial := 1 / 2 }
      [0] [1, 0]).sign = -1 ∧
    (dopri5.dopri5_h_init libm_roots (fun _ _ => [0])
      (dopri5.dopri5_data_reset { dopri5.dopri5_data_alloc 1 with step_size_initial := 1 / 2 }
        [0] [1, 0])).1 = 1 / 2 := by
  decide!

/-- Claim C14 as stated fails: with `step_size_max = 1e-6`, `dy/dt = 0` and
`times = {0, 1.005e-6}` the automatic initial step size is 1e-6, the clamp at the
end of the interval replaces it by 1.005e-6, and the run completes in one step
of that size, as its history record shows. -/
theorem C14_clamp_exceeds_ceiling :
    ((dopri_integrate_init libm_roots target_zero
        { solver1 with step_size_max := 1 / 10 ^ 6 } [0] [0, 1005 / 10 ^ 9] []).h,
      (dopri_integrate_trial dp5 target_zero (dopri_integrate_init libm_roots target_zero
        { solver1 with step_size_max := 1 / 10 ^ 6 } [0] [0, 1005 / 10 ^ 9] [])).h)
      = (1 / 10 ^ 6, 1005 / 10 ^ 9) ∧
    ((dopri_integrate libm_roots dp5 target_zero output_none
        { solver1 with step_size_max := 1 / 10 ^ 6 } [0] [0, 1005 / 10 ^ 9] []).map
      fun r => (r.obj.code, r.obj.n_step, r.obj.step_size_max,
        r.obj.history.live.map (fun record => record.getD 6 0),
        r.obj.history.live.map (fun record =>
          decide (fabs (record.getD 6 0) ≤ r.obj.step_size_max))))
      = some (return_code.OK_COMPLETE, 1, 1 / 10 ^ 6, [1005 / 10 ^ 9], [false]) := by
  decide!

/-- Claim C14 amended (step-size ceiling): with `step_size_max > 0`,
`step_size_initial ≤ 0` and a `pow` that is never negative, the automatic initial
step size satisfies `|h| ≤ step_size_max`, and so does the step size that every
accepted step which is neither the last nor stopped at a critical time leaves
for the next pass.  The step size handed to the kernel is that `h`, or
`t_end - t`, or `t_stop - t`; a replaced step is shorter than `1.01 |h|` when
the time it is cut at lies ahead of `t`. -/
theorem C14_step_size_ceiling (M : Libm) (T : Tableau) (target : dopri.deriv_func)
    (output : dopri.output_func) (obj : dopri.dopri_data) (y times tcrit : List ℚ)
    (hmax : 0 < obj.step_size_max) (hinit : obj.step_size_initial ≤ 0)
    (hpow : ∀ x e, 0 ≤ M.pow x e) :
    fabs (dopri_integrate_init M target obj y times tcrit).h ≤ obj.step_size_max ∧
    ∀ k s, loop_head (dopri_integrate_body M T target output) k
        (dopri_integrate_init M target obj y times tcrit) = some s →
      (∀ s', dopri_integrate_body M T target output s = loop_ctl.cont s' →
        dopri_error M (dopri_integrate_trial T target s).obj ≤ 1 →
        (dopri_integrate_trial T target s).stop = false →
        fabs s'.h ≤ obj.step_size_max) ∧
      ((dopri_integrate_trial T target s).h = s.h ∨
        ((dopri_integrate_trial T target s).h = s.t_end - s.obj.t ∧
          ((s.t_end - s.obj.t) * s.obj.sign ≥ 0 →
            fabs (dopri_integrate_trial T target s).h < 101 / 100 * fabs s.h)) ∨
        ((dopri_integrate_trial T target s).h = s.t_stop - s.obj.t ∧
          ((s.t_stop - s.obj.t) * s.obj.sign ≥ 0 →
            fabs (dopri_integrate_trial T target s).h < 101 / 100 * fabs s.h))) := by
  constructor
  · exact h_init_ceiling M target _ hmax hinit hpow
  · intro k s hs
    obtain ⟨hc, hsign⟩ := head_config M T target output obj y times tcrit k s hs
    have hm : s.obj.step_size_max = obj.step_size_max :=
      congrArg (fun c => c.2.2.2.2.2.2.2.2.2.2.1) hc
    refine ⟨?_, trial_clamp T target s hsign⟩
    intro s' hb he hst
    rw [← hm]
    exact body_ceiling M T target output s s' (by rw [hm]; exact hmax.le) hb he hst

/-- Claim C14 amended, at a concrete problem: `step_size_max = 1e-6`, `dy/dt = 0`,
`times = {0, 1}`; the initial step size and the step size after the first
accepted step are at most 1e-6. -/
theorem C14_step_size_ceiling_witness :
    fabs (dopri_integrate_init libm_roots target_zero
      { solver1 with step_size_max := 1 / 10 ^ 6 } [0] [0, 1] []).h ≤ 1 / 10 ^ 6 ∧
    ∃ s, loop_head (dopri_integrate_body libm_roots dp5 target_zero output_none) 1
        (dopri_integrate_init libm_roots target_zero
          { solver1 with step_size_max := 1 / 10 ^ 6 } [0] [0, 1] []) = some s ∧
      fabs s.h ≤ 1 / 10 ^ 6 := by
  have h := C14_step_size_ceiling libm_roots dp5 target_zero output_none
    { solver1 with step_size_max := 1 / 10 ^ 6 } [0] [0, 1] []
    (by decide!) (by decide!) libm_roots_pow_nonneg
  refine ⟨h.1, ?_⟩
  cases hb : dopri_integrate_body libm_roots dp5 target_zero output_none
      (dopri_integrate_init libm_roots target_zero
        { solver1 with step_size_max := 1 / 10 ^ 6 } [0] [0, 1] []) with
  | brk r =>
    have : (dopri_integrate_body libm_roots dp5 target_zero output_none
      (dopri_integrate_init libm_roots target_zero
        { solver1 with step_size_max := 1 / 10 ^ 6 } [0] [0, 1] [])).is_brk = false := by decide!
    rw [hb] at this
    cases this
  | cont s' =>
    refine ⟨s', ?_, ?_⟩
    · rw [loop_head, hb]
      rfl
    · exact (h.2 0 _ rfl).1 s' hb (by decide!) (by decide!)

/-- Claim C15 evaluated (critical-time cursor after reset): forwards from `t0 = 0`
with `tcrit = {0, 0.5}` the cursor stays at 0, on the critical time equal to `t0`;
backwards from `t0 = 1` (`sign = -1`) with `tcrit = {0.5}` the cursor is 1, past
the critical time 0.5 that lies ahead, and with `tcrit = {1.5, 0.5}` the cursor
is 0, on the critical time 1.5 that lies behind. -/
theorem C15_tcrit_cursor :
    ((dopri_data_reset solver1 [0] [0, 1] [0, 1 / 2]).sign,
      (dopri_data_reset solver1 [0] [0, 1] [0, 1 / 2]).tcrit_idx) = (1, 0) ∧
    ((dopri_data_reset solver1 [0] [1, 0] [1 / 2]).sign,
      (dopri_data_reset solver1 [0] [1, 0] [1 / 2]).n_tcrit,
      (dopri_data_reset solver1 [0] [1, 0] [1 / 2]).tcrit_idx) = (-1, 1, 1) ∧
    ((dopri_data_reset solver1 [0] [1, 0] [3 / 2, 1 / 2]).sign,
      (dopri_data_reset solver1 [0] [1, 0] [3 / 2, 1 / 2]).tcrit_idx) = (-1, 0) := by
  decide!

/-- Claim C16 (termination status): every run of `dopri_integrate` returns, from a
pass of the main loop that starts in a state `s` and leaves the loop; the code
on return is `OK_COMPLETE`, `ERR_TOO_MANY_STEPS` or `ERR_STEP_SIZE_TOO_SMALL`,
never `NOT_SET`; the error flag is set exactly when the code is one of the two
errors; the code is `ERR_TOO_MANY_STEPS` exactly when `n_step > step_max_n` in
`s`, and `ERR_STEP_SIZE_TOO_SMALL` exactly when that guard passes and
`0.1 |h| ≤ |t| uround` in `s`. -/
theorem C16_termination_status (M : Libm) (T : Tableau) (target : dopri.deriv_func)
    (output : dopri.output_func) (obj : dopri.dopri_data) (y times tcrit : List ℚ) :
    ∃ k s r,
      loop_head (dopri_integrate_body M T target output) k
        (dopri_integrate_init M target obj y times tcrit) = some s ∧
      dopri_integrate_body M T target output s = loop_ctl.brk r ∧
      dopri_integrate M T target output obj y times tcrit
        = some { r with dde_global_obj := false } ∧
      (r.obj.code = return_code.OK_COMPLETE ∨ r.obj.code = return_code.ERR_TOO_MANY_STEPS ∨
        r.obj.code = return_code.ERR_STEP_SIZE_TOO_SMALL) ∧
      r.obj.code ≠ return_code.NOT_SET ∧
      (r.obj.error = true ↔ (r.obj.code = return_code.ERR_TOO_MANY_STEPS ∨
        r.obj.code = return_code.ERR_STEP_SIZE_TOO_SMALL)) ∧
      (r.obj.code = return_code.ERR_TOO_MANY_STEPS ↔ s.obj.n_step > s.obj.step_max_n) ∧
      (r.obj.code = return_code.ERR_STEP_SIZE_TOO_SMALL ↔
        (¬ s.obj.n_step > s.obj.step_max_n ∧
          1 / 10 * fabs s.h ≤ fabs s.obj.t * (10 * DBL_EPSILON))) := by
  obtain ⟨r, hr, hrun⟩ := dopri_integrate_some M T target output obj y times tcrit
  obtain ⟨k, s, hk, hb⟩ := while_true_exit _ _ _ r hr
  obtain ⟨-, he, -, -⟩ := head_status M T target output obj y times tcrit k s hk
  refine ⟨k, s, r, hk, hb, hrun, ?_⟩
  rcases body_exit M T target output s r hb with ⟨g1, c, e⟩ | ⟨g1, g2, c, e⟩ | ⟨g1, g2, c, e⟩
  · rw [c, e]
    exact ⟨Or.inr (Or.inl rfl), by decide, ⟨fun _ => Or.inl rfl, fun _ => rfl⟩,
      ⟨fun _ => g1, fun _ => rfl⟩, ⟨(fun h => by cases h), fun h => absurd g1 h.1⟩⟩
  · rw [c, e]
    exact ⟨Or.inr (Or.inr rfl), by decide, ⟨fun _ => Or.inr rfl, fun _ => rfl⟩,
      ⟨(fun h => by cases h), fun h => absurd h g1⟩, ⟨fun _ => ⟨g1, g2⟩, fun _ => rfl⟩⟩
  · rw [c, e, he]
    exact ⟨Or.inl rfl, by decide,
      ⟨(fun h => by cases h), (fun h => by rcases h with h | h <;> cases h)⟩,
      ⟨(fun h => by cases h), fun h => absurd h g1⟩, ⟨(fun h => by cases h), fun h => absurd h.2 g2⟩⟩

/-- Claim C17 (termination): every run of `dopri_integrate` returns after at most
`step_max_n + 1` trial steps, and gives the same result for every larger bound
on the number of passes; every pass that stays in the loop counts one trial
step, starts with `n_step ≤ step_max_n`, and decreases
`step_max_n + 1 - n_step`; the loop that reports output times and the loop that
skips critical times leave by their own conditions. -/
theorem C17_dopri_integrate_terminates (M : Libm) (T : Tableau) (target : dopri.deriv_func)
    (output : dopri.output_func) (obj : dopri.dopri_data) (y times tcrit : List ℚ) :
    (∃ r, dopri_integrate M T target output obj y times tcrit = some r ∧
      r.obj.n_step ≤ obj.step_max_n + 1 ∧
      ∀ fuel, obj.step_max_n + 2 ≤ fuel →
        (while_true (dopri_integrate_body M T target output) fuel
          (dopri_integrate_init M target obj y times tcrit)).map
          (fun s => { s with dde_global_obj := false }) = some r) ∧
    (∀ s s', dopri_integrate_body M T target output s = loop_ctl.cont s' →
      s'.obj.step_max_n = s.obj.step_max_n ∧ s'.obj.n_step = s.obj.n_step + 1 ∧
      s.obj.n_step ≤ s.obj.step_max_n ∧
      s'.obj.step_max_n + 1 - s'.obj.n_step < s.obj.step_max_n + 1 - s.obj.n_step) ∧
    (∀ (o : dopri.dopri_data) (y_out out : List ℚ),
      ¬ ((emit_outputs output (o.n_times - o.times_idx) o y_out out).1.times_idx
          < (emit_outputs output (o.n_times - o.times_idx) o y_out out).1.n_times ∧
        (emit_outputs output (o.n_times - o.times_idx) o y_out out).1.times.getD
          (emit_outputs output (o.n_times - o.times_idx) o y_out out).1.times_idx 0
          ≤ (emit_outputs output (o.n_times - o.times_idx) o y_out out).1.t)) ∧
    ¬ (tcrit.getD (skip_tcrit tcrit tcrit.length (times.getD 0 0) tcrit.length 0) 0
        < times.getD 0 0 ∧
      skip_tcrit tcrit tcrit.length (times.getD 0 0) tcrit.length 0 < tcrit.length) := by
  refine ⟨?_, ?_, ?_, ?_⟩
  · obtain ⟨r, hr, hrun⟩ := dopri_integrate_some M T target output obj y times tcrit
    have hI := counters_inv_loop M T target output obj.step_max_n _ _ r
      (counters_inv_init M target obj y times tcrit) hr
    refine ⟨_, hrun, hI.2.1, ?_⟩
    intro fuel hf
    rw [while_true_mono _ _ _ r hr fuel hf]
    rfl
  · intro s s' hb
    obtain ⟨e1, e2⟩ := body_cont M T target output s s' hb
    obtain ⟨c1, -, -, c4⟩ := body_counters M T target output s
    rw [e1] at c1 c4
    rw [e2] at c4
    rcases c4 with ⟨hf, -⟩ | ⟨h0, h1, -⟩ | ⟨h0, -, h1, -⟩
    · simp at hf
    · exact ⟨c1, h1, h0, by omega⟩
    · exact ⟨c1, h1, h0, by omega⟩
  · intro o y_out out
    exact emit_outputs_done output _ o y_out out (le_refl _)
  · exact skip_tcrit_done tcrit tcrit.length (times.getD 0 0) tcrit.length 0 (by omega)

/-- Claim C18 (lag-context discipline): at the head of every pass of the main loop
the static pointer holds the solver and `get_current_problem_size()` is `n`; a
run depends on the derivative function only through its values on handles of
problem size `n`, the handle of every call it makes; and every run returns, with
one of the three codes, with the pointer cleared and
`get_current_problem_size()` equal to 0. -/
theorem C18_lag_context (M : Libm) (T : Tableau) (target : dopri.deriv_func)
    (output : dopri.output_func) (obj : dopri.dopri_data) (y times tcrit : List ℚ) :
    (∀ k s, loop_head (dopri_integrate_body M T target output) k
        (dopri_integrate_init M target obj y times tcrit) = some s →
      s.dde_global_obj = true ∧
      get_current_problem_size (if s.dde_global_obj then some s.obj else none) = obj.n) ∧
    (∀ target' : dopri.deriv_func,
      (∀ g t x, get_current_problem_size (some g) = obj.n → target' g t x = target g t x) →
      dopri_integrate M T target' output obj y times tcrit
        = dopri_integrate M T target output obj y times tcrit) ∧
    (∃ r, dopri_integrate M T target output obj y times tcrit = some r ∧
      (r.obj.code = return_code.OK_COMPLETE ∨ r.obj.code = return_code.ERR_TOO_MANY_STEPS ∨
        r.obj.code = return_code.ERR_STEP_SIZE_TOO_SMALL) ∧
      r.dde_global_obj = false ∧
      get_current_problem_size (if r.dde_global_obj then some r.obj else none) = 0) := by
  refine ⟨?_, ?_, ?_⟩
  · intro k s hs
    obtain ⟨-, -, hg, -⟩ := head_status M T target output obj y times tcrit k s hs
    have hn : s.obj.n = obj.n := by
      refine loop_head_inv (dopri_integrate_body M T target output) (fun x => x.obj.n = obj.n)
        ?_ k _ s (init_n M target obj y times tcrit) hs
      intro x x' hI hb
      have := body_n M T target output x
      rw [(body_cont M T target output x x' hb).1] at this
      rw [this, hI]
    refine ⟨hg, ?_⟩
    rw [hg]
    exact hn
  · intro target' hext
    rw [← integrate_handle M T target', ← integrate_handle M T target]
    have : (fun (g : dopri_data) => target' { g with n := obj.n })
        = (fun (g : dopri_data) => target { g with n := obj.n }) := by
      funext g t x
      exact hext _ t x rfl
    rw [this]
  · obtain ⟨r, hr, hrun⟩ := dopri_integrate_some M T target output obj y times tcrit
    obtain ⟨k, s, hk, hb⟩ := while_true_exit _ _ _ r hr
    refine ⟨_, hrun, ?_, rfl, rfl⟩
    show r.obj.code = _ ∨ r.obj.code = _ ∨ r.obj.code = _
    rcases body_exit M T target output s r hb with ⟨-, c, -⟩ | ⟨-, -, c, -⟩ | ⟨-, -, c, -⟩
    · exact Or.inr (Or.inl c)
    · exact Or.inr (Or.inr c)
    · exact Or.inl c

/-- Claim C19 as stated fails: with `times = {0, 1, 0.5}`, which is not monotonic,
the run takes 7 trial steps after 2 evaluations of the derivative and returns
`OK_COMPLETE` at `t = 0.5` without an error; with `times = {0, 0}` it takes one
step of size 0 and returns `OK_COMPLETE`. -/
theorem C19_stepping_without_check :
    ((dopri_integrate libm_roots dp5 target_zero output_none solver1 [0] [0, 1, 1 / 2] []).map
      fun r => (r.obj.code, r.obj.error, r.obj.n_eval, r.obj.n_step, r.obj.t))
      = some (return_code.OK_COMPLETE, false, 2, 7, 1 / 2) ∧
    ((dopri_integrate libm_roots dp5 target_zero output_none solver1 [0] [0, 0] []).map
      fun r => (r.obj.code, r.obj.error, r.obj.n_eval, r.obj.n_step, r.obj.t))
      = some (return_code.OK_COMPLETE, false, 2, 1, 0) := by
  decide!

/-- Claim C19 amended (no check of the configuration): whatever `times` is,
`dopri_data_reset` leaves `error = false` and `code = NOT_SET`; the driver
enters its main loop in that status after at least one evaluation of the
derivative function; and every run returns with `n_eval ≥ 1` and with an error
only when the code is `ERR_TOO_MANY_STEPS` or `ERR_STEP_SIZE_TOO_SMALL`. -/
theorem C19_no_configuration_check (M : Libm) (T : Tableau) (target : dopri.deriv_func)
    (output : dopri.output_func) (obj : dopri.dopri_data) (y times tcrit : List ℚ) :
    ((dopri_data_reset obj y times tcrit).error = false ∧
      (dopri_data_reset obj y times tcrit).code = return_code.NOT_SET) ∧
    ((dopri_integrate_init M target obj y times tcrit).obj.error = false ∧
      (dopri_integrate_init M target obj y times tcrit).obj.code = return_code.NOT_SET ∧
      1 ≤ (dopri_integrate_init M target obj y times tcrit).obj.n_eval) ∧
    ∃ r, dopri_integrate M T target output obj y times tcrit = some r ∧
      1 ≤ r.obj.n_eval ∧
      (r.obj.error = true → r.obj.code = return_code.ERR_TOO_MANY_STEPS ∨
        r.obj.code = return_code.ERR_STEP_SIZE_TOO_SMALL) := by
  obtain ⟨i1, i2, -, i4⟩ := head_status M T target output obj y times tcrit 0 _ rfl
  refine ⟨⟨rfl, rfl⟩, ⟨i2, i1, i4⟩, ?_⟩
  obtain ⟨r, hr, hrun⟩ := dopri_integrate_some M T target output obj y times tcrit
  obtain ⟨k, s, hk, hb⟩ := while_true_exit _ _ _ r hr
  obtain ⟨-, he, -, hn⟩ := head_status M T target output obj y times tcrit k s hk
  obtain ⟨-, f2, -⟩ := body_flags M T target output s
  rw [hb] at f2
  refine ⟨_, hrun, ?_, ?_⟩
  · show 1 ≤ r.obj.n_eval
    have : r.obj.n_eval = s.obj.n_eval := f2
    rw [this]
    exact hn
  · show r.obj.error = true → _
    rcases body_exit M T target output s r hb with ⟨-, c, -⟩ | ⟨-, -, c, -⟩ | ⟨-, -, -, e⟩
    · exact fun _ => Or.inl c
    · exact fun _ => Or.inr c
    · intro h
      rw [e, he] at h
      cases h

/-- Claim C20 evaluated (bisection seed): for `dy/dt = 0`, `times = {0, 1000}`,
after the first pass of the main loop the ring holds one record and the divisor
`used - 1` of the seed is 0; on a ring of capacity 3, after nine passes the ring
holds three records, starting at 0.111111, 1.111111 and 11.111111, and the seed
is 5. -/
theorem C20_seed_out_of_range :
    ((loop_head (dopri_integrate_body libm_roots dp5 target_zero output_none) 1
        (dopri_integrate_init libm_roots target_zero solver1 [0] [0, 1000] [])).map
      fun s => (ring_buffer_used s.obj.history,
        ((ring_buffer_used s.obj.history - 1 : Nat) : ℚ)))
      = some (1, 0) ∧
    ((loop_head (dopri_integrate_body libm_roots dp5 target_zero output_none) 9
        (dopri_integrate_init libm_roots target_zero
          { dopri_data_alloc 1 0 3 with step_beta := 0 } [0] [0, 1000] [])).map
      fun s => (ring_buffer_used s.obj.history,
        s.obj.history.live.map (fun x => x.getD s.obj.history_time_idx 0),
        dopri_find_time_idx0 s.obj))
      = some (3, [111111 / 10 ^ 6, 1111111 / 10 ^ 6, 11111111 / 10 ^ 6], 5) := by
  decide!

/-- Claim C21 evaluated (automatic initial step): on the solver as allocated
(`atol = rtol = 1e-6`, `step_size_initial = 0`, `step_size_max > 0`) and the problem
of scenario S3, with `y0 = 0`, `f0 = 1` and `sign = 1`, `dopri_h_init` returns
`h = 0`, so that `h * sign > 0` fails, and the run leaves the main loop in its first
pass with `ERR_STEP_SIZE_TOO_SMALL`, no step taken and `t = 0`; the legacy driver
does the same. -/
theorem C21_initial_step_zero :
    ((dopri_data_alloc 1 0 10).atol, (dopri_data_alloc 1 0 10).rtol,
      (dopri_data_alloc 1 0 10).step_size_initial,
      decide ((dopri_data_alloc 1 0 10).step_size_max > 0))
      = (1 / 10 ^ 6, 1 / 10 ^ 6, 0, true) ∧
    ((dopri_integrate_init libm_roots target_s3 (dopri_data_alloc 1 0 10) [0]
        [0, 1 / 2, 1, 3 / 2, 2] [1]).obj.y,
      (dopri_integrate_init libm_roots target_s3 (dopri_data_alloc 1 0 10) [0]
        [0, 1 / 2, 1, 3 / 2, 2] [1]).obj.k.getD 0 [],
      (dopri_integrate_init libm_roots target_s3 (dopri_data_alloc 1 0 10) [0]
        [0, 1 / 2, 1, 3 / 2, 2] [1]).obj.sign,
      (dopri_integrate_init libm_roots target_s3 (dopri_data_alloc 1 0 10) [0]
        [0, 1 / 2, 1, 3 / 2, 2] [1]).h)
      = ([0], [1], 1, 0) ∧
    ((dopri_integrate libm_roots dp5 target_s3 output_none (dopri_data_alloc 1 0 10) [0]
        [0, 1 / 2, 1, 3 / 2, 2] [1]).map fun r => (r.obj.code, r.obj.n_step, r.obj.t))
      = some (return_code.ERR_STEP_SIZE_TOO_SMALL, 0, 0) ∧
    ((dopri5.dopri5_integrate_init libm_roots (fun t _ => [if t < 1 then 1 else -1])
        (dopri5.dopri5_data_alloc 1) [0] [0, 1 / 2, 1, 3 / 2, 2]).obj.k1,
      (dopri5.dopri5_integrate_init libm_roots (fun t _ => [if t < 1 then 1 else -1])
        (dopri5.dopri5_data_alloc 1) [0] [0, 1 / 2, 1, 3 / 2, 2]).obj.sign,
      (dopri5.dopri5_integrate_init libm_roots (fun t _ => [if t < 1 then 1 else -1])
        (dopri5.dopri5_data_alloc 1) [0] [0, 1 / 2, 1, 3 / 2, 2]).h)
      = ([1], 1, 0) ∧
    ((dopri5.dopri5_integrate libm_roots dp5 (fun t _ => [if t < 1 then 1 else -1])
        (dopri5.dopri5_data_alloc 1) [0] [0, 1 / 2, 1, 3 / 2, 2]).map
      fun r => (r.obj.code, r.obj.n_step, r.obj.t))
      = some (return_code.ERR_STEP_SIZE_TOO_SMALL, 0, 0) := by
  decide!

/-- Claim C22 as stated fails: for a derivative that is 1 at the time 3/10 and 0 at
every other time, `step_size_initial = 1` and `times = {0, 1}`, the first pass of
the main loop clamps the step at the end of the interval, its trial step has the
error 32 and is rejected, and the pass continues with `h_save` changed from 0
to 1. -/
theorem C22_rejected_pass_sets_h_save :
    ((dopri_integrate_init libm_roots target_spike
        { solver1 with step_size_initial := 1, rtol := 0, atol := 71 / (16695 * 32) }
        [0] [0, 1] []).h_save,
      dopri_error libm_roots (dopri_integrate_trial dp5 target_spike
        (dopri_integrate_init libm_roots target_spike
          { solver1 with step_size_initial := 1, rtol := 0, atol := 71 / (16695 * 32) }
          [0] [0, 1] [])).obj,
      (dopri_integrate_body libm_roots dp5 target_spike output_none
        (dopri_integrate_init libm_roots target_spike
          { solver1 with step_size_initial := 1, rtol := 0, atol := 71 / (16695 * 32) }
          [0] [0, 1] [])).is_brk,
      (dopri_integrate_body libm_roots dp5 target_spike output_none
        (dopri_integrate_init libm_roots target_spike
          { solver1 with step_size_initial := 1, rtol := 0, atol := 71 / (16695 * 32) }
          [0] [0, 1] [])).state.reject,
      (dopri_integrate_body libm_roots dp5 target_spike output_none
        (dopri_integrate_init libm_roots target_spike
          { solver1 with step_size_initial := 1, rtol := 0, atol := 71 / (16695 * 32) }
          [0] [0, 1] [])).state.h_save)
      = (0, 32, false, true, 1) := by
  decide!

/-- Claim C22 amended (rejection atomicity), for both drivers: a pass of the main
loop that gets by the two guards and whose trial step is rejected (`err > 1`)
continues, and the state after it is the state before it except for `h`, for
`h_save` (new driver only: it is kept or set to the old `h`), for the flags
`reject`, `last` and `stop`, for `n_step` (one more), for `n_reject` (the same or
one more), for the trial state `y1`, for the stage arrays other than `k[0]` (`k1`
in the legacy driver) and for the scratch slot at the head of the history.  So
`t`, `y`, `k[0]`, `y0`, `n_accept`, `times_idx`, `tcrit_idx`, the output arrays and
the live history records are the same after the pass as before it. -/
theorem C22_rejected_pass_frame (M : Libm) (T : Tableau) (target : dopri.deriv_func)
    (output : dopri.output_func) (s : dopri.integrate_state)
    (target5 : dopri5.deriv_func) (s5 : dopri5.integrate_state)
    (h1 : ¬ s.obj.n_step > s.obj.step_max_n)
    (h2 : ¬ 1 / 10 * fabs s.h ≤ fabs s.obj.t * (10 * DBL_EPSILON))
    (h3 : ¬ dopri_error M (dopri_integrate_trial T target s).obj ≤ 1)
    (g1 : ¬ s5.obj.n_step > s5.obj.step_max_n)
    (g2 : ¬ 1 / 10 * fabs s5.h ≤ fabs s5.obj.t * (10 * DBL_EPSILON))
    (g3 : ¬ dopri5.dopri5_error M (dopri5.dopri5_integrate_trial T target5 s5).obj ≤ 1) :
    (∃ (h h_save : ℚ) (n_reject : Nat) (y1 : List ℚ) (k : List (List ℚ)) (head : List ℚ),
      dopri_integrate_body M T target output s
        = loop_ctl.cont { s with
            h := h
            h_save := h_save
            reject := true
            last := false
            stop := false
            obj := { s.obj with
              n_step := s.obj.n_step + 1
              n_reject := n_reject
              y1 := y1
              k := k
              history := { s.obj.history with head := head } } } ∧
      k.getD 0 [] = s.obj.k.getD 0 [] ∧
      (h_save = s.h_save ∨ h_save = s.h) ∧
      (n_reject = s.obj.n_reject ∨ n_reject = s.obj.n_reject + 1)) ∧
    (∃ (h : ℚ) (n_reject : Nat) (y1 k2 k3 k4 k5 k6 ysti head : List ℚ),
      dopri5.dopri5_integrate_body M T target5 s5
        = loop_ctl.cont { s5 with
            h := h
            reject := true
            last := false
            obj := { s5.obj with
              n_step := s5.obj.n_step + 1
              n_reject := n_reject
              y1 := y1
              k2 := k2
              k3 := k3
              k4 := k4
              k5 := k5
              k6 := k6
              ysti := ysti
              history := { s5.obj.history with head := head } } } ∧
      (n_reject = s5.obj.n_reject ∨ n_reject = s5.obj.n_reject + 1)) :=
  ⟨dopri.body_rejected M T target output s h1 h2 h3,
    dopri5.legacy_body_rejected M T target5 s5 g1 g2 g3⟩

/-- Claim C22 amended, at the problem of the counterexample: the rejected first pass
of the new driver changes the listed fields only. -/
theorem C22_rejected_pass_frame_witness :
    (∃ (h h_save : ℚ) (n_reject : Nat) (y1 : List ℚ) (k : List (List ℚ)) (head : List ℚ),
      dopri_integrate_body libm_roots dp5 target_spike output_none
          (dopri_integrate_init libm_roots target_spike
            { solver1 with step_size_initial := 1, rtol := 0, atol := 71 / (16695 * 32) }
            [0] [0, 1] [])
        = loop_ctl.cont { dopri_integrate_init libm_roots target_spike
            { solver1 with step_size_initial := 1, rtol := 0, atol := 71 / (16695 * 32) }
            [0] [0, 1] [] with
            h := h
            h_save := h_save
            reject := true
            last := false
            stop := false
            obj := { (dopri_integrate_init libm_roots target_spike
                { solver1 with step_size_initial := 1, rtol := 0, atol := 71 / (16695 * 32) }
                [0] [0, 1] []).obj with
              n_step := 1
              n_reject := n_reject
              y1 := y1
              k := k
              history := { solver1.history with head := head } } }) :=
  have h := C22_rejected_pass_frame libm_roots dp5 target_spike output_none
    (dopri_integrate_init libm_roots target_spike
      { solver1 with step_size_initial := 1, rtol := 0, atol := 71 / (16695 * 32) }
      [0] [0, 1] [])
    (fun t _ => [if t = 3 / 10 then 1 else 0])
    (dopri5.dopri5_integrate_init libm_roots (fun t _ => [if t = 3 / 10 then 1 else 0])
      { dopri5.dopri5_data_alloc 1 with
        step_beta := 0, step_size_initial := 1, rtol := 0, atol := 71 / (16695 * 32) }
      [0] [0, 1])
    (by decide!) (by decide!) (by decide!) (by decide!) (by decide!) (by decide!)
  match h.1 with
  | ⟨a, b, c, d, e, f, hb, _⟩ => ⟨a, b, c, d, e, f, hb⟩

/-- Claim C23 (Hermite property of the dense output): for the record finalised by an
accepted step of size `h ≠ 0` from `y`, `y1`, `k1` and the final stage, whatever the
fifth plane holds, the interpolation polynomial of the component `i` has, as a
function of `θ`, the derivative `h * k1[i]` at `θ = 0` and `h * k_final[i]` at
`θ = 1`, and as a function of `t` the derivative `k1[i]` at the start of the step
and `k_final[i]` at its end.  Stated for the legacy driver (`save_history` and
`dopri5_interpolate1`) and for the new driver (`dopri_save_history`, the polynomial
`dopri5_interpolate` and `dopri_interpolate_1`). -/
theorem C23_hermite_dense_output (obj : dopri5.dopri5_data) (o : dopri.dopri_data)
    (h : ℚ) (i j : Nat) (hh : h ≠ 0)
    (hi : i < obj.n) (hlen : obj.history.head.length = 5 * obj.n + 2)
    (hj : j < o.n) (hlen' : o.history.head.length = 5 * o.n + 2) :
    (HasDerivAt (fun θ : ℚ => dopri5.dopri5_interpolate1 (dopri5.save_history obj h)
        (obj.t + θ * h) i) (h * obj.k1.getD i 0) 0 ∧
      HasDerivAt (fun θ : ℚ => dopri5.dopri5_interpolate1 (dopri5.save_history obj h)
        (obj.t + θ * h) i) (h * obj.k2.getD i 0) 1 ∧
      HasDerivAt (fun t : ℚ => dopri5.dopri5_interpolate1 (dopri5.save_history obj h) t i)
        (obj.k1.getD i 0) obj.t ∧
      HasDerivAt (fun t : ℚ => dopri5.dopri5_interpolate1 (dopri5.save_history obj h) t i)
        (obj.k2.getD i 0) (obj.t + h)) ∧
    (HasDerivAt (fun θ : ℚ => dopri_5.dopri5_interpolate o.n θ (1 - θ)
        ((dopri.dopri_save_history o h).history.head.drop j))
        (h * (o.k.getD 0 []).getD j 0) 0 ∧
      HasDerivAt (fun θ : ℚ => dopri_5.dopri5_interpolate o.n θ (1 - θ)
        ((dopri.dopri_save_history o h).history.head.drop j))
        (h * (o.k.getD 1 []).getD j 0) 1 ∧
      HasDerivAt (fun t : ℚ => dopri.dopri_interpolate_1
        (dopri.dopri_save_history o h).history.head o.n t j) ((o.k.getD 0 []).getD j 0) o.t ∧
      HasDerivAt (fun t : ℚ => dopri.dopri_interpolate_1
        (dopri.dopri_save_history o h).history.head o.n t j) ((o.k.getD 1 []).getD j 0)
        (o.t + h)) := by
  have hn : (dopri5.save_history obj h).n = obj.n := rfl
  obtain ⟨r0, r1, r2, r3, r4, r5, r6⟩ := save_history_planes obj h i hi hlen
  obtain ⟨q0, q1, q2, q3, q4, q5, q6⟩ := dopri5_save_history_planes o h j hj hlen'
  obtain ⟨a0, a1, a2, a3⟩ := hermite_record (obj.y.getD i 0)
    (obj.y1.getD i 0 - obj.y.getD i 0) (obj.k1.getD i 0) (obj.k2.getD i 0)
    (obj.history.head.getD (4 * obj.n + i) 0) obj.t h hh
  obtain ⟨b0, b1, b2, b3⟩ := hermite_record (o.y.getD j 0)
    (o.y1.getD j 0 - o.y.getD j 0) ((o.k.getD 0 []).getD j 0) ((o.k.getD 1 []).getD j 0)
    (o.history.head.getD (4 * o.n + j) 0) o.t h hh
  have f1 : ∀ θ : ℚ, (obj.t + θ * h - obj.t) / h = θ := by
    intro θ
    field_simp
  refine ⟨⟨?_, ?_, ?_, ?_⟩, ?_, ?_, ?_, ?_⟩
  · convert a0 using 1
    funext θ
    simp only [dopri5.dopri5_interpolate1, hn, r0, r1, r2, r3, r4, r5, r6, f1]
  · convert a1 using 1
    funext θ
    simp only [dopri5.dopri5_interpolate1, hn, r0, r1, r2, r3, r4, r5, r6, f1]
  · convert a2 using 1
    funext t
    simp only [dopri5.dopri5_interpolate1, hn, r0, r1, r2, r3, r4, r5, r6]
  · convert a3 using 1
    funext t
    simp only [dopri5.dopri5_interpolate1, hn, r0, r1, r2, r3, r4, r5, r6]
  · convert b0 using 1
    funext θ
    simp only [dopri_5.dopri5_interpolate, getD_drop, Nat.add_zero, Nat.add_comm j,
      Nat.zero_add, q0, q1, q2, q3, q4]
  · convert b1 using 1
    funext θ
    simp only [dopri_5.dopri5_interpolate, getD_drop, Nat.add_zero, Nat.add_comm j,
      Nat.zero_add, q0, q1, q2, q3, q4]
  · convert b2 using 1
    funext t
    simp only [dopri.dopri_interpolate_1, dopri_5.dopri5_interpolate, getD_drop, Nat.add_zero,
      Nat.add_comm j, Nat.zero_add, q0, q1, q2, q3, q4, q5, q6]
  · convert b3 using 1
    funext t
    simp only [dopri.dopri_interpolate_1, dopri_5.dopri5_interpolate, getD_drop, Nat.add_zero,
      Nat.add_comm j, Nat.zero_add, q0, q1, q2, q3, q4, q5, q6]

/-- Claim C23 at a concrete record: one equation, `t = 2`, `h = 1/2`, `y = 3`,
`y1 = 5`, `k1 = 1` and the final stage 4; the interpolant of the legacy driver has
the derivative 4 at the end of the step, that of the new driver has the derivative
1 at its start. -/
theorem C23_hermite_dense_output_witness :
    HasDerivAt (fun t : ℚ => dopri5.dopri5_interpolate1 (dopri5.save_history
        { dopri5.dopri5_data_alloc 1 with t := 2, y := [3], y1 := [5], k1 := [1], k2 := [4] }
        (1 / 2)) t 0) 4 (2 + 1 / 2) ∧
    HasDerivAt (fun t : ℚ => dopri.dopri_interpolate_1 (dopri.dopri_save_history
        { dopri.dopri_data_alloc 1 0 10 with
          t := 2, y := [3], y1 := [5], k := [[1], [4], [0], [0], [0], [0], [0]] }
        (1 / 2)).history.head 1 t 0) 1 2 :=
  have h := C23_hermite_dense_output
    { dopri5.dopri5_data_alloc 1 with t := 2, y := [3], y1 := [5], k1 := [1], k2 := [4] }
    { dopri.dopri_data_alloc 1 0 10 with
      t := 2, y := [3], y1 := [5], k := [[1], [4], [0], [0], [0], [0], [0]] }
    (1 / 2) 0 0 (by decide!) (by decide) (by decide) (by decide) (by decide)
  ⟨h.1.2.2.2, h.2.2.2.1⟩

/-- Claim C24 (a rejected step shrinks the step), for both drivers: for `h ≠ 0`,
`err > 1`, `step_beta < 4/15`, `0 < step_factor_safe ≤ 1`, `0 < step_factor_min < 1`
and a `pow` that is above 1 at this base above 1 and positive exponent, the step
size that the rejected branch leaves is
`h / min(1/step_factor_min, err^(0.2 - 0.75 step_beta)/step_factor_safe)`, it has
the sign of `h`, and `step_factor_min * |h| ≤ |h_new| < |h|`.  The legacy driver is
taken on a state with the same `h` and the same three options. -/
theorem C24_reject_shrinks (M : Libm) (s : dopri.integrate_state) (s5 : dopri5.integrate_state)
    (err : ℚ) (hh : s.h ≠ 0) (herr : 1 < err) (hbeta : s.obj.step_beta < 4 / 15)
    (hsafe : 0 < s.obj.step_factor_safe) (hsafe1 : s.obj.step_factor_safe ≤ 1)
    (hmin : 0 < s.obj.step_factor_min) (hmin1 : s.obj.step_factor_min < 1)
    (hpow : 1 < err → 0 < 2 / 10 - 75 / 100 * s.obj.step_beta →
      1 < M.pow err (2 / 10 - 75 / 100 * s.obj.step_beta))
    (e1 : s5.h = s.h) (e2 : s5.obj.step_beta = s.obj.step_beta)
    (e3 : s5.obj.step_factor_safe = s.obj.step_factor_safe)
    (e4 : s5.obj.step_factor_min = s.obj.step_factor_min) :
    ((dopri_integrate_reject M s err).state.h
        = s.h / min (1 / s.obj.step_factor_min)
            (M.pow err (2 / 10 - 75 / 100 * s.obj.step_beta) / s.obj.step_factor_safe) ∧
      (0 < s.h → 0 < (dopri_integrate_reject M s err).state.h) ∧
      (s.h < 0 → (dopri_integrate_reject M s err).state.h < 0) ∧
      s.obj.step_factor_min * |s.h| ≤ |(dopri_integrate_reject M s err).state.h| ∧
      |(dopri_integrate_reject M s err).state.h| < |s.h|) ∧
    ((dopri5.dopri5_integrate_reject M s5 err).state.h
        = s.h / min (1 / s.obj.step_factor_min)
            (M.pow err (2 / 10 - 75 / 100 * s.obj.step_beta) / s.obj.step_factor_safe) ∧
      (0 < s.h → 0 < (dopri5.dopri5_integrate_reject M s5 err).state.h) ∧
      (s.h < 0 → (dopri5.dopri5_integrate_reject M s5 err).state.h < 0) ∧
      s.obj.step_factor_min * |s.h| ≤ |(dopri5.dopri5_integrate_reject M s5 err).state.h| ∧
      |(dopri5.dopri5_integrate_reject M s5 err).state.h| < |s.h|) := by
  have hexp : 0 < 2 / 10 - 75 / 100 * s.obj.step_beta := by linarith
  have hp := hpow herr hexp
  have key := shrink_bracket s.obj.step_factor_min s.obj.step_factor_safe _ s.h
    hmin hmin1 hsafe hsafe1 hp hh
  have c : s.obj.step_beta * (75 / 100) = 75 / 100 * s.obj.step_beta := mul_comm _ _
  constructor
  · rw [reject_h, c]
    exact ⟨rfl, key⟩
  · rw [dopri5.legacy_reject_h, e1, e2, e3, e4, c]
    exact ⟨rfl, key⟩

/-- Claim C24 at `h = -1/2`, `err = 32`, the default factors and `step_beta = 0`:
the rejected branch leaves `h = -9/40`, between `0.2 * |h|` and `|h|` in size. -/
theorem C24_reject_shrinks_witness :
    (dopri_integrate_reject libm_roots
        { dopri_integrate_init libm_roots target_zero solver1 [0] [0, 1] [] with h := -1 / 2 }
        32).state.h = -9 / 40 ∧
    (2 / 10 : ℚ) * |(-1 / 2 : ℚ)| ≤ |(dopri_integrate_reject libm_roots
        { dopri_integrate_init libm_roots target_zero solver1 [0] [0, 1] [] with h := -1 / 2 }
        32).state.h| ∧
    |(dopri5.dopri5_integrate_reject libm_roots
        { dopri5.dopri5_integrate_init libm_roots (fun _ _ => [0])
            { dopri5.dopri5_data_alloc 1 with step_beta := 0 } [0] [0, 1] with h := -1 / 2 }
        32).state.h| < |(-1 / 2 : ℚ)| :=
  have h := C24_reject_shrinks libm_roots
    { dopri_integrate_init libm_roots target_zero solver1 [0] [0, 1] [] with h := -1 / 2 }
    { dopri5.dopri5_integrate_init libm_roots (fun _ _ => [0])
        { dopri5.dopri5_data_alloc 1 with step_beta := 0 } [0] [0, 1] with h := -1 / 2 }
    32 (by decide!) (by decide!) (by decide!) (by decide!) (by decide!) (by decide!)
    (by decide!) (fun _ _ => by decide!) (by decide!) (by decide!) (by decide!) (by decide!)
  ⟨by decide!, h.1.2.2.2.1, h.2.2.2.2.2⟩

/-- Claim C25 evaluated (bounds of the critical-time scan in reset): with
`tcrit = {-1}` and `t0 = 0` the skipping loop reads `tcrit[0]` and then `tcrit[1]`,
one past the end of the array of one element, and `dopri_data_reset` leaves the
cursor at 1.  In general, when every critical time lies before `t0` the loop reads
`tcrit[n_tcrit]`, and the last index it reads is the cursor that it leaves. -/
theorem C25_tcrit_read_past_end :
    skip_tcrit_reads [-1] 1 0 (1 + 1) 0 = [0, 1] ∧
    ((dopri_data_reset solver1 [0] [0, 1] [-1]).n_tcrit,
      (dopri_data_reset solver1 [0] [0, 1] [-1]).tcrit_idx) = (1, 1) ∧
    (∀ (tcrit : List ℚ) (t0 : ℚ), (∀ i, i < tcrit.length → tcrit.getD i 0 < t0) →
      tcrit.length ∈ skip_tcrit_reads tcrit tcrit.length t0 (tcrit.length + 1) 0) ∧
    (∀ (tcrit : List ℚ) (t0 : ℚ),
      (skip_tcrit_reads tcrit tcrit.length t0 (tcrit.length + 1) 0).getLast?
        = some (skip_tcrit tcrit tcrit.length t0 tcrit.length 0)) := by
  refine ⟨by decide!, by decide!, ?_, ?_⟩
  · intro tcrit t0 hall
    exact skip_tcrit_reads_end tcrit tcrit.length t0 _ 0 (Nat.zero_le _) (by omega)
      (fun i _ h => hall i h)
  · intro tcrit t0
    exact skip_tcrit_reads_last tcrit tcrit.length t0 _ 0 (by omega)

/-- Claim C26 (history records are contiguous), for both drivers started on a solver
whose ring holds no live record and whose scratch slot has `5 n + 2` places.  At
every head of the main loop the live records form a chain in which each record
starts at `t_start + h` of the one before, the newest one ends at the time of the
solver, and as long as none has been evicted the oldest one starts at `t0`; the
time of the solver is `t0` until a step is accepted.  A pass that accepts its
trial step of size `h` from the time `t` finalises a record with `t_start = t`
and step size `h` and moves the solver to `t + h` (the new driver then makes the
record the newest live one; the legacy driver does so unless the step was the
last); every other pass leaves the live records and the time alone.  The chain
also holds when the driver returns, which it does.  Hence, when every live record
has `h * sign > 0`, the stored `t_start` are strictly monotone in the direction of
integration. -/
theorem C26_history_contiguous (M : Libm) (T : Tableau) (target : dopri.deriv_func)
    (output : dopri.output_func) (obj : dopri.dopri_data) (y times tcrit : List ℚ)
    (target5 : dopri5.deriv_func) (obj5 : dopri5.dopri5_data) (y5 times5 : List ℚ)
    (hlive : obj.history.live = []) (hlen : obj.history.head.length = 5 * obj.n + 2)
    (hlive5 : obj5.history.live = [])
    (hlen5 : obj5.history.head.length = 5 * obj5.n + 2) :
    (∀ k s, loop_head (dopri_integrate_body M T target output) k
        (dopri_integrate_init M target obj y times tcrit) = some s →
      history_chain obj.n (times.getD 0 0) s.obj.t s.obj.n_accept s.obj.history.live ∧
      ((∀ r ∈ s.obj.history.live, 0 < r.getD (5 * obj.n + 1) 0 * s.obj.sign) →
        List.Pairwise (fun r1 r2 =>
          0 < (r2.getD (5 * obj.n) 0 - r1.getD (5 * obj.n) 0) * s.obj.sign)
          s.obj.history.live) ∧
      ((¬ s.obj.n_step > s.obj.step_max_n ∧
        ¬ 1 / 10 * fabs s.h ≤ fabs s.obj.t * (10 * DBL_EPSILON) ∧
        dopri_error M (dopri_integrate_trial T target s).obj ≤ 1) →
        ∃ r : List ℚ, r.getD (5 * obj.n) 0 = s.obj.t ∧
          r.getD (5 * obj.n + 1) 0 = (dopri_integrate_trial T target s).h ∧
          (dopri_integrate_body M T target output s).state.obj.history.live
            = (ring_buffer_head_advance { s.obj.history with head := r }).live ∧
          (dopri_integrate_body M T target output s).state.obj.t
            = s.obj.t + (dopri_integrate_trial T target s).h) ∧
      (¬ (¬ s.obj.n_step > s.obj.step_max_n ∧
        ¬ 1 / 10 * fabs s.h ≤ fabs s.obj.t * (10 * DBL_EPSILON) ∧
        dopri_error M (dopri_integrate_trial T target s).obj ≤ 1) →
        (dopri_integrate_body M T target output s).state.obj.history.live
            = s.obj.history.live ∧
          (dopri_integrate_body M T target output s).state.obj.t = s.obj.t)) ∧
    (∃ r, dopri_integrate M T target output obj y times tcrit = some r ∧
      history_chain obj.n (times.getD 0 0) r.obj.t r.obj.n_accept r.obj.history.live ∧
      ((∀ x ∈ r.obj.history.live, 0 < x.getD (5 * obj.n + 1) 0 * r.obj.sign) →
        List.Pairwise (fun r1 r2 =>
          0 < (r2.getD (5 * obj.n) 0 - r1.getD (5 * obj.n) 0) * r.obj.sign)
          r.obj.history.live)) ∧
    (∀ k s, loop_head (dopri5.dopri5_integrate_body M T target5) k
        (dopri5.dopri5_integrate_init M target5 obj5 y5 times5) = some s →
      history_chain obj5.n (times5.getD 0 0) s.obj.t s.obj.n_accept s.obj.history.live ∧
      ((∀ r ∈ s.obj.history.live, 0 < r.getD (5 * obj5.n + 1) 0 * s.obj.sign) →
        List.Pairwise (fun r1 r2 =>
          0 < (r2.getD (5 * obj5.n) 0 - r1.getD (5 * obj5.n) 0) * s.obj.sign)
          s.obj.history.live) ∧
      ((¬ s.obj.n_step > s.obj.step_max_n ∧
        ¬ 1 / 10 * fabs s.h ≤ fabs s.obj.t * (10 * DBL_EPSILON) ∧
        dopri5.dopri5_error M (dopri5.dopri5_integrate_trial T target5 s).obj ≤ 1) →
        ∃ r : List ℚ, r.getD (5 * obj5.n) 0 = s.obj.t ∧
          r.getD (5 * obj5.n + 1) 0 = (dopri5.dopri5_integrate_trial T target5 s).h ∧
          (dopri5.dopri5_integrate_body M T target5 s).state.obj.history.head = r ∧
          (dopri5.dopri5_integrate_body M T target5 s).state.obj.history.live
            = (if (dopri5.dopri5_integrate_trial T target5 s).last then s.obj.history.live
               else (ring_buffer_head_advance { s.obj.history with head := r }).live) ∧
          (dopri5.dopri5_integrate_body M T target5 s).state.obj.t
            = s.obj.t + (dopri5.dopri5_integrate_trial T target5 s).h) ∧
      (¬ (¬ s.obj.n_step > s.obj.step_max_n ∧
        ¬ 1 / 10 * fabs s.h ≤ fabs s.obj.t * (10 * DBL_EPSILON) ∧
        dopri5.dopri5_error M (dopri5.dopri5_integrate_trial T target5 s).obj ≤ 1) →
        (dopri5.dopri5_integrate_body M T target5 s).state.obj.history.live
            = s.obj.history.live ∧
          (dopri5.dopri5_integrate_body M T target5 s).state.obj.t = s.obj.t)) ∧
    (∃ r, dopri5.dopri5_integrate M T target5 obj5 y5 times5 = some r ∧
      List.Chain' (history_contiguous obj5.n) r.obj.history.live ∧
      ((∀ x ∈ r.obj.history.live, 0 < x.getD (5 * obj5.n + 1) 0 * r.obj.sign) →
        List.Pairwise (fun r1 r2 =>
          0 < (r2.getD (5 * obj5.n) 0 - r1.getD (5 * obj5.n) 0) * r.obj.sign)
          r.obj.history.live)) := by
  refine ⟨?_, ?_, ?_, ?_⟩
  · intro k s hs
    obtain ⟨hn, hl, hc⟩ := history_chain_head M T target output obj y times tcrit hlive hlen
      k s hs
    obtain ⟨-, -, -, b4, b5⟩ := body_history M T target output s (by rw [hl, hn])
    rw [hn] at b4
    refine ⟨hc, history_chain_monotone obj.n s.obj.sign _ hc.1, ?_, ?_⟩
    · intro hg
      obtain ⟨r, r1, r2, r3, r4, -⟩ := b4 hg
      exact ⟨r, r1, r2, r3, r4⟩
    · intro hg
      exact ⟨(b5 hg).1, (b5 hg).2.1⟩
  · obtain ⟨r, -, hr⟩ := dopri_integrate_some M T target output obj y times tcrit
    have hc := history_chain_return M T target output obj y times tcrit hlive hlen _ hr
    exact ⟨_, hr, hc, history_chain_monotone obj.n r.obj.sign _ hc.1⟩
  · intro k s hs
    obtain ⟨hn, hl, hc⟩ := dopri5.legacy_history_chain_head M T target5 obj5 y5 times5
      hlive5 hlen5 k s hs
    obtain ⟨-, -, b4, b5⟩ := dopri5.legacy_body_history M T target5 s (by rw [hl, hn])
    rw [hn] at b4
    refine ⟨hc, history_chain_monotone obj5.n s.obj.sign _ hc.1, ?_, ?_⟩
    · intro hg
      obtain ⟨r, r1, r2, r3, r4, r5, -⟩ := b4 hg
      exact ⟨r, r1, r2, r3, r4, r5⟩
    · intro hg
      exact ⟨(b5 hg).1, (b5 hg).2.1⟩
  · obtain ⟨r, hr⟩ := dopri5.dopri5_integrate_some M T target5 obj5 y5 times5
    have hc := dopri5.legacy_history_chain_return M T target5 obj5 y5 times5 hlive5 hlen5 r hr
    exact ⟨r, hr, hc, history_chain_monotone obj5.n r.obj.sign _ hc⟩

/-- Claim C26 at a concrete problem: `dy/dt = 0` in one dimension on fresh solvers,
`times = {0, 1000}`.  Both drivers return with contiguous live records; after
three passes of the new driver the ring holds the records `(t_start, h)` =
`(0, 1e-6)`, `(1e-6, 1e-5)`, `(1.1e-5, 1e-4)` and the solver is at `1.11e-4`. -/
theorem C26_history_contiguous_witness :
    (solver1.history.live = [] ∧ solver1.history.head.length = 5 * solver1.n + 2 ∧
      (dopri5.dopri5_data_alloc 1).history.live = [] ∧
      (dopri5.dopri5_data_alloc 1).history.head.length
        = 5 * (dopri5.dopri5_data_alloc 1).n + 2) ∧
    (∃ r, dopri_integrate libm_roots dp5 target_zero output_none solver1 [0] [0, 1000] []
        = some r ∧
      history_chain solver1.n (([0, 1000] : List ℚ).getD 0 0) r.obj.t r.obj.n_accept
        r.obj.history.live) ∧
    (∃ r, dopri5.dopri5_integrate libm_roots dp5 (fun _ _ => [0]) (dopri5.dopri5_data_alloc 1)
        [0] [0, 1000] = some r ∧
      List.Chain' (history_contiguous (dopri5.dopri5_data_alloc 1).n) r.obj.history.live) ∧
    (loop_head (dopri_integrate_body libm_roots dp5 target_zero output_none) 3
        (dopri_integrate_init libm_roots target_zero solver1 [0] [0, 1000] [])).map
      (fun s => (s.obj.history.live.map (fun x => (x.getD 5 0, x.getD 6 0)), s.obj.t))
      = some ([(0, 1 / 10 ^ 6), (1 / 10 ^ 6, 1 / 10 ^ 5), (11 / 10 ^ 6, 1 / 10 ^ 4)],
          111 / 10 ^ 6) := by
  have h := C26_history_contiguous libm_roots dp5 target_zero output_none solver1 [0]
    [0, 1000] [] (fun _ _ => [0]) (dopri5.dopri5_data_alloc 1) [0] [0, 1000]
    rfl rfl rfl rfl
  obtain ⟨-, ⟨r, hr, hc, -⟩, -, ⟨r5, hr5, hc5, -⟩⟩ := h
  exact ⟨⟨rfl, rfl, rfl, rfl⟩, ⟨r, hr, hc⟩, ⟨r5, hr5, hc5⟩, by decide!⟩

/-- Claim C27 (tolerance meaning of the error norm), for both drivers: for `n ≥ 1`,
`atol > 0`, `rtol ≥ 0` and a `sqrt` that on arguments `x ≥ 0` is non-negative, zero
only at zero, and at most 1 when `x ≤ 1`, `dopri5_error` returns
`sqrt((1/n) Σ (e_i / s_i)²)` with `s_i = atol + rtol max(|y_i|, |y1_i|)`; the result
is `≥ 0`, it is 0 exactly when `e` is the zero vector, and it is `≤ 1` when
`|e_i| ≤ s_i` for every `i`, in particular when `|e_i| ≤ atol` for every `i`.  The
error vector `e` is `k4` in the legacy driver and `k[3]` in the new one. -/
theorem C27_error_norm (M : Libm) (obj5 : dopri5.dopri5_data) (obj : dopri.dopri_data)
    (hn5 : 1 ≤ obj5.n) (ha5 : 0 < obj5.atol) (hr5 : 0 ≤ obj5.rtol)
    (hn : 1 ≤ obj.n) (ha : 0 < obj.atol) (hr : 0 ≤ obj.rtol)
    (hs : ∀ x, 0 ≤ x → (0 ≤ M.sqrt x ∧ (M.sqrt x = 0 ↔ x = 0) ∧ (x ≤ 1 → M.sqrt x ≤ 1))) :
    (dopri5.dopri5_error M obj5
        = M.sqrt (1 / (obj5.n : ℚ) * Finset.sum (Finset.range obj5.n) (fun i =>
            (obj5.k4.getD i 0 / (obj5.atol + obj5.rtol *
              max |obj5.y.getD i 0| |obj5.y1.getD i 0|)) ^ 2)) ∧
      0 ≤ dopri5.dopri5_error M obj5 ∧
      (dopri5.dopri5_error M obj5 = 0 ↔ ∀ i, i < obj5.n → obj5.k4.getD i 0 = 0) ∧
      ((∀ i, i < obj5.n → |obj5.k4.getD i 0| ≤ obj5.atol + obj5.rtol *
          max |obj5.y.getD i 0| |obj5.y1.getD i 0|) → dopri5.dopri5_error M obj5 ≤ 1) ∧
      ((∀ i, i < obj5.n → |obj5.k4.getD i 0| ≤ obj5.atol) →
        dopri5.dopri5_error M obj5 ≤ 1)) ∧
    (dopri.dopri_error M obj
        = M.sqrt (1 / (obj.n : ℚ) * Finset.sum (Finset.range obj.n) (fun i =>
            ((obj.k.getD 3 []).getD i 0 / (obj.atol + obj.rtol *
              max |obj.y.getD i 0| |obj.y1.getD i 0|)) ^ 2)) ∧
      0 ≤ dopri.dopri_error M obj ∧
      (dopri.dopri_error M obj = 0 ↔ ∀ i, i < obj.n → (obj.k.getD 3 []).getD i 0 = 0) ∧
      ((∀ i, i < obj.n → |(obj.k.getD 3 []).getD i 0| ≤ obj.atol + obj.rtol *
          max |obj.y.getD i 0| |obj.y1.getD i 0|) → dopri.dopri_error M obj ≤ 1) ∧
      ((∀ i, i < obj.n → |(obj.k.getD 3 []).getD i 0| ≤ obj.atol) →
        dopri.dopri_error M obj ≤ 1)) := by
  have key : ∀ (n : ℕ) (e a b : ℕ → ℚ) (atol rtol : ℚ), 1 ≤ n → 0 < atol → 0 ≤ rtol →
      M.sqrt ((List.range n).foldl (fun err i =>
          err + square (e i / (atol + rtol * fmax (fabs (a i)) (fabs (b i))))) 0 / n)
        = M.sqrt (1 / (n : ℚ) * Finset.sum (Finset.range n) (fun i =>
            (e i / (atol + rtol * max |a i| |b i|)) ^ 2)) ∧
      0 ≤ M.sqrt ((List.range n).foldl (fun err i =>
          err + square (e i / (atol + rtol * fmax (fabs (a i)) (fabs (b i))))) 0 / n) ∧
      (M.sqrt ((List.range n).foldl (fun err i =>
          err + square (e i / (atol + rtol * fmax (fabs (a i)) (fabs (b i))))) 0 / n) = 0 ↔
        ∀ i, i < n → e i = 0) ∧
      ((∀ i, i < n → |e i| ≤ atol + rtol * max |a i| |b i|) →
        M.sqrt ((List.range n).foldl (fun err i =>
          err + square (e i / (atol + rtol * fmax (fabs (a i)) (fabs (b i))))) 0 / n) ≤ 1) ∧
      ((∀ i, i < n → |e i| ≤ atol) →
        M.sqrt ((List.range n).foldl (fun err i =>
          err + square (e i / (atol + rtol * fmax (fabs (a i)) (fabs (b i))))) 0 / n) ≤ 1) := by
    intro n e a b atol rtol h1 h2 h3
    rw [foldl_add_range (fun i => square (e i / (atol + rtol * fmax (fabs (a i)) (fabs (b i)))))]
    obtain ⟨p1, p2, p3⟩ := rms_properties M n e
      (fun i => atol + rtol * fmax (fabs (a i)) (fabs (b i))) h1
      (fun i => (scale_pos atol rtol (a i) (b i) h2 h3).2)
      (fun x hx => (hs x hx).1) (fun x hx => (hs x hx).2.1) (fun x hx => (hs x hx).2.2)
    refine ⟨?_, p1, p2, p3, fun h => p3 (fun i hi => le_trans (h i hi)
      (scale_pos atol rtol (a i) (b i) h2 h3).1)⟩
    congr 1
    rw [one_div, inv_mul_eq_div]
    congr 1
    apply Finset.sum_congr rfl
    intro i _
    unfold square fmax fabs
    rw [pow_two]
  constructor
  · exact key obj5.n (fun i => obj5.k4.getD i 0) (fun i => obj5.y.getD i 0)
      (fun i => obj5.y1.getD i 0) obj5.atol obj5.rtol hn5 ha5 hr5
  · exact key obj.n (fun i => (obj.k.getD 3 []).getD i 0) (fun i => obj.y.getD i 0)
      (fun i => obj.y1.getD i 0) obj.atol obj.rtol hn ha hr

/-- Claim C27 at `n = 2`, `atol = rtol = 1e-6`, `y = (1, 2)`, `y1 = (3, 1)`: the error
vector `(1e-6, 0)` gives `err ≤ 1` in the legacy driver, and the zero error vector
gives `err = 0` in the new one. -/
theorem C27_error_norm_witness :
    dopri5.dopri5_error libm_roots
      { dopri5.dopri5_data_alloc 2 with y := [1, 2], y1 := [3, 1], k4 := [1 / 10 ^ 6, 0] } ≤ 1 ∧
    0 ≤ dopri.dopri_error libm_roots
      { dopri.dopri_data_alloc 2 0 10 with y := [1, 2], y1 := [3, 1] } ∧
    dopri.dopri_error libm_roots
      { dopri.dopri_data_alloc 2 0 10 with y := [1, 2], y1 := [3, 1] } = 0 := by
  have h := C27_error_norm libm_roots
    { dopri5.dopri5_data_alloc 2 with y := [1, 2], y1 := [3, 1], k4 := [1 / 10 ^ 6, 0] }
    { dopri.dopri_data_alloc 2 0 10 with y := [1, 2], y1 := [3, 1] }
    (by decide) (by decide!) (by decide!) (by decide) (by decide!) (by decide!)
    libm_roots_sqrt
  refine ⟨h.1.2.2.2.2 ?_, h.2.2.1, h.2.2.2.1.mpr ?_⟩
  · intro i hi
    have : i = 0 ∨ i = 1 := by
      have : i < 2 := hi
      omega
    rcases this with rfl | rfl <;> decide!
  · intro i hi
    have : i = 0 ∨ i = 1 := by
      have : i < 2 := hi
      omega
    rcases this with rfl | rfl <;> decide!
